import Mathlib

/-!
# The NETPOWERSETTINGS registry (`cx/sys/nxwake.cpp`)

A shallow embedding of `NxWake`, the object that records wake-on-LAN patterns and
protocol offloads for a network adapter, followed by the properties proved about it.
The packet-extension routines of `cx/sys/nxqueueapi.cpp` are embedded in a section of
their own at the end of the definitions.

Conventions of the embedding.

* The two intrusive singly linked lists (`m_WakeListHead`, `m_ProtocolOffloadListHead`)
  are Lean lists, head first.  `PushEntryList` is `cons`; the unlink of
  `RemovePowerEntryByID` removes one element.
* A pointer that may be `NULL` is an `Option`.  An operation that dereferences a
  `NULL` pointer returns `none` (the fault); every other operation is total.
* `ASSERT`/`NT_ASSERT` compile to nothing in a free build and are not part of the
  functions below; where one matters it is quoted in a comment.
* `ULONG` fields are natural numbers.  The 32-bit sums of caller-supplied offsets and
  sizes in `CreateWakePatternEntry` wrap modulo `2^32`.  The two list counters move by
  one per committed record and are bounded by the pool, so they are not wrapped: the
  embedding agrees with the `ULONG` members wherever a count is below `0xFFFFFFFF`
  before an increment and above `0` before a decrement.
* The C structures declared in headers outside the repository sources
  (`NDIS_PM_WOL_PATTERN`, `NDIS_PM_PROTOCOL_OFFLOAD`, `NX_NET_POWER_ENTRY`) are
  records of the fields the code reads plus the raw bytes that `RtlCopyMemory` moves;
  their `sizeof` values are the parameters of a `Layout`.
* External code (the pool allocator, the driver's preview callbacks) is an explicit
  argument: `allocOk` says whether `ExAllocatePoolWithTag` succeeds, a callback is a
  function of the state it can observe through the handles it is given.
-/

/-! ## Constants of the NDIS headers -/

/-- `STATUS_SUCCESS`. -/
def STATUS_SUCCESS : Nat := 0

/-- `NDIS_STATUS_SUCCESS`. -/
def NDIS_STATUS_SUCCESS : Nat := 0

/-- `STATUS_NDIS_PM_WOL_PATTERN_LIST_FULL`, the NTSTATUS a wake-pattern preview callback
returns to reject a pattern. -/
def STATUS_NDIS_PM_WOL_PATTERN_LIST_FULL : Nat := 0xC0232003

/-- `NDIS_STATUS_PM_WOL_PATTERN_LIST_FULL`. -/
def NDIS_STATUS_PM_WOL_PATTERN_LIST_FULL : Nat := 0xC0232003

/-- `STATUS_NDIS_PM_PROTOCOL_OFFLOAD_LIST_FULL`, the NTSTATUS a protocol-offload preview
callback returns to reject an offload. -/
def STATUS_NDIS_PM_PROTOCOL_OFFLOAD_LIST_FULL : Nat := 0xC0232004

/-- `NDIS_STATUS_PM_PROTOCOL_OFFLOAD_LIST_FULL`. -/
def NDIS_STATUS_PM_PROTOCOL_OFFLOAD_LIST_FULL : Nat := 0xC0232004

/-- `NDIS_STATUS_RESOURCES`, the value of
`NdisConvertNtStatusToNdisStatus(STATUS_INSUFFICIENT_RESOURCES)`. -/
def NDIS_STATUS_RESOURCES : Nat := 0xC000009A

/-- `NdisPMWoLPacketBitmapPattern` of `NDIS_PM_WOL_PACKET`. -/
def NdisPMWoLPacketBitmapPattern : Nat := 1

/-- `NdisPMWoLPacketMagicPacket` of `NDIS_PM_WOL_PACKET`. -/
def NdisPMWoLPacketMagicPacket : Nat := 2

/-- `NdisPMWoLPacketIPv4TcpSyn` of `NDIS_PM_WOL_PACKET`. -/
def NdisPMWoLPacketIPv4TcpSyn : Nat := 3

/-- `NdisPMWoLPacketIPv6TcpSyn` of `NDIS_PM_WOL_PACKET`. -/
def NdisPMWoLPacketIPv6TcpSyn : Nat := 4

/-- `NdisPMWoLPacketEapolRequestIdMessage` of `NDIS_PM_WOL_PACKET`. -/
def NdisPMWoLPacketEapolRequestIdMessage : Nat := 5

/-- `NdisPMProtocolOffloadIdIPv4ARP` of `NDIS_PM_PROTOCOL_OFFLOAD_TYPE`. -/
def NdisPMProtocolOffloadIdIPv4ARP : Nat := 1

/-- `NdisPMProtocolOffloadIdIPv6NS` of `NDIS_PM_PROTOCOL_OFFLOAD_TYPE`. -/
def NdisPMProtocolOffloadIdIPv6NS : Nat := 2

/-- `NdisPMProtocolOffload80211RSNRekey` of `NDIS_PM_PROTOCOL_OFFLOAD_TYPE`. -/
def NdisPMProtocolOffload80211RSNRekey : Nat := 3

/-- `NDIS_PM_WOL_BITMAP_PATTERN_ENABLED`. -/
def NDIS_PM_WOL_BITMAP_PATTERN_ENABLED : Nat := 0x00000001

/-- `NDIS_PM_WOL_MAGIC_PACKET_ENABLED`. -/
def NDIS_PM_WOL_MAGIC_PACKET_ENABLED : Nat := 0x00000002

/-- `NDIS_PM_WOL_IPV4_TCP_SYN_ENABLED`. -/
def NDIS_PM_WOL_IPV4_TCP_SYN_ENABLED : Nat := 0x00000004

/-- `NDIS_PM_WOL_IPV6_TCP_SYN_ENABLED`. -/
def NDIS_PM_WOL_IPV6_TCP_SYN_ENABLED : Nat := 0x00000008

/-- `NDIS_PM_WOL_EAPOL_REQUEST_ID_MESSAGE_ENABLED`. -/
def NDIS_PM_WOL_EAPOL_REQUEST_ID_MESSAGE_ENABLED : Nat := 0x00010000

/-- `NDIS_PM_PROTOCOL_OFFLOAD_ARP_ENABLED`. -/
def NDIS_PM_PROTOCOL_OFFLOAD_ARP_ENABLED : Nat := 0x00000001

/-- `NDIS_PM_PROTOCOL_OFFLOAD_NS_ENABLED`. -/
def NDIS_PM_PROTOCOL_OFFLOAD_NS_ENABLED : Nat := 0x00000002

/-- `NDIS_PM_PROTOCOL_OFFLOAD_80211_RSN_REKEY_ENABLED`. -/
def NDIS_PM_PROTOCOL_OFFLOAD_80211_RSN_REKEY_ENABLED : Nat := 0x00000080

/-! ## Data model -/

/-- The `sizeof` values the code uses; the structures are declared outside the sources. -/
structure Layout where
  /-- Value of `sizeof(NX_NET_POWER_ENTRY)`. -/
  sizeofEntry : Nat
  /-- Value of `sizeof(NDIS_PM_WOL_PATTERN)`. -/
  sizeofWolPattern : Nat
  /-- Value of `sizeof(NDIS_PM_PROTOCOL_OFFLOAD)`. -/
  sizeofProtocolOffload : Nat
deriving DecidableEq, Repr

/-- An `NDIS_PM_WOL_PATTERN` as the code sees it: the fields it reads, and the bytes
found at the pattern's address (the whole `InformationBuffer` for a caller's pattern,
the copied bytes for a stored one). -/
structure NDIS_PM_WOL_PATTERN where
  WoLPacketType : Nat
  PatternId : Nat
  MaskOffset : Nat
  MaskSize : Nat
  PatternOffset : Nat
  PatternSize : Nat
  bytes : List Nat
deriving DecidableEq, Repr

/-- An `NDIS_PM_PROTOCOL_OFFLOAD` as the code sees it: the fields it reads and the bytes
found at its address. -/
structure NDIS_PM_PROTOCOL_OFFLOAD where
  ProtocolOffloadType : Nat
  ProtocolOffloadId : Nat
  bytes : List Nat
deriving DecidableEq, Repr

/-- The all-zero wake pattern left by `RtlZeroMemory`. -/
def NDIS_PM_WOL_PATTERN.zero : NDIS_PM_WOL_PATTERN :=
  { WoLPacketType := 0, PatternId := 0, MaskOffset := 0, MaskSize := 0,
    PatternOffset := 0, PatternSize := 0, bytes := [] }

/-- The all-zero protocol offload left by `RtlZeroMemory`. -/
def NDIS_PM_PROTOCOL_OFFLOAD.zero : NDIS_PM_PROTOCOL_OFFLOAD :=
  { ProtocolOffloadType := 0, ProtocolOffloadId := 0, bytes := [] }

/-- An `NX_NET_POWER_ENTRY`.  The link `ListEntry` is the position in the Lean list.  The
C union of `NdisWoLPattern` and `NdisProtocolOffload` is kept as two fields: a record of
the wake list is only ever read through the first, a record of the offload list only
through the second, and the member that was not written stays zero. -/
structure NX_NET_POWER_ENTRY where
  Size : Nat
  Enabled : Bool
  NdisWoLPattern : NDIS_PM_WOL_PATTERN
  NdisProtocolOffload : NDIS_PM_PROTOCOL_OFFLOAD
deriving DecidableEq, Repr

/-- The enumeration `NX_POWER_ENTRY_TYPE`. -/
inductive NX_POWER_ENTRY_TYPE where
  | NxPowerEntryTypeWakePattern
  | NxPowerEntryTypeProtocolOffload
deriving DecidableEq, Repr

/-- The fields of `NDIS_PM_PARAMETERS` after its object header. -/
structure NDIS_PM_PARAMETERS where
  EnabledWoLPacketPatterns : Nat
  EnabledProtocolOffloads : Nat
  WakeUpFlags : Nat
  MediaSpecificWakeUpEvents : Nat
deriving DecidableEq, Repr

/-- The data members of the class `NxWake`.  The two preview callbacks
`m_EvtPreviewWakePattern` and `m_EvtPreviewProtocolOffload` are arguments of the
operations that call them.  A driver's object callback (a function pointer) is the
number that identifies the routine; `none` is `NULL`. -/
structure NxWake where
  m_WakeListHead : List NX_NET_POWER_ENTRY
  m_WakeListCount : Nat
  m_ProtocolOffloadListHead : List NX_NET_POWER_ENTRY
  m_ProtocolOffloadListCount : Nat
  m_PMParameters : NDIS_PM_PARAMETERS
  m_DriverCanAccessWakeSettings : Bool
  m_DriverObjectCallbacksEnabled : Bool
  m_EvtCleanupCallback : Option Nat
  m_EvtDestroyCallback : Option Nat
deriving DecidableEq, Repr

/-- The fields of `WDF_OBJECT_ATTRIBUTES` that `NxWake::_Create` reads. -/
structure WDF_OBJECT_ATTRIBUTES where
  Size : Nat
  EvtCleanupCallback : Option Nat
  EvtDestroyCallback : Option Nat
deriving DecidableEq, Repr

/-- Modelled from the spec: the part of `NxDevice` (defined outside the sources) that the
registry uses, namely the device-wide wake-pattern counter of the Capacity Governor,
its fixed maximum, and the externally owned power-transition signal. -/
structure NxDevice where
  m_wakePatternCount : Int
  m_wakePatternMax : Nat
  m_inPowerTransition : Bool
deriving DecidableEq, Repr

/-- Modelled from the spec: `NxDevice::IncreaseWakePatternReference` is the Capacity
Governor's `tryAcquire`: it "attempts to increment a shared counter capped at a fixed
maximum; returns false without side effects if already at the cap". -/
def NxDevice.IncreaseWakePatternReference (device : NxDevice) : Bool × NxDevice :=
  if device.m_wakePatternCount < device.m_wakePatternMax then
    (true, { device with m_wakePatternCount := device.m_wakePatternCount + 1 })
  else
    (false, device)

/-- Modelled from the spec: `NxDevice::DecreaseWakePatternReference` is the Capacity
Governor's `release`: it "decrements the counter". -/
def NxDevice.DecreaseWakePatternReference (device : NxDevice) : NxDevice :=
  { device with m_wakePatternCount := device.m_wakePatternCount - 1 }

/-- Modelled from the spec: `NxDevice::IsDeviceInPowerTransition`, "an externally-owned
signal, consulted but not cached". -/
def NxDevice.IsDeviceInPowerTransition (device : NxDevice) : Bool :=
  device.m_inPowerTransition

/-- The driver's `m_EvtPreviewWakePattern`: called with the adapter handle and the
registry handle (through which it observes the device and the registry), the packet
type and a pointer to the candidate pattern; it returns an NTSTATUS. -/
abbrev EVT_PREVIEW_WAKE_PATTERN :=
  NxDevice → NxWake → Nat → NDIS_PM_WOL_PATTERN → Nat

/-- The driver's `m_EvtPreviewProtocolOffload`, with the same shape. -/
abbrev EVT_PREVIEW_PROTOCOL_OFFLOAD :=
  NxDevice → NxWake → Nat → NDIS_PM_PROTOCOL_OFFLOAD → Nat

/-- What an add operation leaves behind: the returned `NDIS_STATUS`, the registry and
the device afterwards, and the state in which the preview callback ran when it was
invoked (`none` when it was not). -/
structure AddResult where
  status : Nat
  wake : NxWake
  device : NxDevice
  preview : Option (NxDevice × NxWake)
deriving DecidableEq, Repr

/-- `RtlULongAdd`: the sum when it fits in 32 bits, failure otherwise. -/
def RtlULongAdd (a b : Nat) : Option Nat :=
  if a + b < 2 ^ 32 then some (a + b) else none

namespace NxWake

/-- The constructor `NxWake::NxWake`: empty lists, zero counts, both flags `FALSE`,
zeroed power parameters. -/
def new : NxWake :=
  { m_WakeListHead := []
    m_WakeListCount := 0
    m_ProtocolOffloadListHead := []
    m_ProtocolOffloadListCount := 0
    m_PMParameters :=
      { EnabledWoLPacketPatterns := 0, EnabledProtocolOffloads := 0,
        WakeUpFlags := 0, MediaSpecificWakeUpEvents := 0 }
    m_DriverCanAccessWakeSettings := false
    m_DriverObjectCallbacksEnabled := false
    m_EvtCleanupCallback := none
    m_EvtDestroyCallback := none }

/-- `NxWake::_Create`, as far as the registry is concerned.  `objectCreated` and
`contextAllocated` are the outcomes of `WdfObjectCreate` and
`WdfObjectAllocateContext`; a failure of either returns no registry (`none`).  The
constructor runs, and when the driver's attributes have a nonzero `Size` its cleanup
and destroy callbacks are stored in the registry (the attributes then carry the two
wrappers in their place). -/
def Create (objectCreated : Bool) (contextAllocated : Bool)
    (NetPowerSettingsObjectAttributes : WDF_OBJECT_ATTRIBUTES) : Option NxWake :=
  if objectCreated = false then
    none
  else
    let pNxWake := NxWake.new
    if NetPowerSettingsObjectAttributes.Size ≠ 0 then
      let pNxWake :=
        { pNxWake with
          m_EvtCleanupCallback := NetPowerSettingsObjectAttributes.EvtCleanupCallback
          m_EvtDestroyCallback := NetPowerSettingsObjectAttributes.EvtDestroyCallback }
      if contextAllocated = false then none else some pNxWake
    else
      some pNxWake

/-- `NxWake::_EvtCleanupCallbackWrapper`: the driver routine that is invoked, if any.
The driver's cleanup callback is called only when the driver object callbacks are
enabled and the callback is not `NULL`; otherwise nothing is called. -/
def EvtCleanupCallbackWrapper (pNxWake : NxWake) : Option Nat :=
  if pNxWake.m_DriverObjectCallbacksEnabled = true then
    if pNxWake.m_EvtCleanupCallback ≠ none then
      pNxWake.m_EvtCleanupCallback
    else none
  else none

/-- `NxWake::_EvtDestroyCallbackWrapper`: the driver routine that is invoked, if any. -/
def EvtDestroyCallbackWrapper (pNxWake : NxWake) : Option Nat :=
  if pNxWake.m_DriverObjectCallbacksEnabled = true then
    if pNxWake.m_EvtDestroyCallback ≠ none then
      pNxWake.m_EvtDestroyCallback
    else none
  else none

/-- Modelled from the spec: `GetPowerEntryID` (declared outside the sources) is the
record's "identifier: derived (not stored) — a value extracted from payload", the
`PatternId` of a wake pattern and the `ProtocolOffloadId` of a protocol offload. -/
def GetPowerEntryID (nxEntry : NX_NET_POWER_ENTRY) (NxPowerEntryType : NX_POWER_ENTRY_TYPE) :
    Nat :=
  match NxPowerEntryType with
  | .NxPowerEntryTypeWakePattern => nxEntry.NdisWoLPattern.PatternId
  | .NxPowerEntryTypeProtocolOffload => nxEntry.NdisProtocolOffload.ProtocolOffloadId

/-- `NxWake::UpdatePatternEntryEnabledField`: `Enabled` is cleared, then set when the
bit of `m_PMParameters.EnabledWoLPacketPatterns` for the packet type is set. -/
def UpdatePatternEntryEnabledField (w : NxWake) (Entry : NX_NET_POWER_ENTRY) :
    NX_NET_POWER_ENTRY :=
  let Entry := { Entry with Enabled := false }
  if Entry.NdisWoLPattern.WoLPacketType = NdisPMWoLPacketBitmapPattern then
    if w.m_PMParameters.EnabledWoLPacketPatterns &&& NDIS_PM_WOL_BITMAP_PATTERN_ENABLED ≠ 0 then
      { Entry with Enabled := true }
    else Entry
  else if Entry.NdisWoLPattern.WoLPacketType = NdisPMWoLPacketMagicPacket then
    if w.m_PMParameters.EnabledWoLPacketPatterns &&& NDIS_PM_WOL_MAGIC_PACKET_ENABLED ≠ 0 then
      { Entry with Enabled := true }
    else Entry
  else if Entry.NdisWoLPattern.WoLPacketType = NdisPMWoLPacketIPv4TcpSyn then
    if w.m_PMParameters.EnabledWoLPacketPatterns &&& NDIS_PM_WOL_IPV4_TCP_SYN_ENABLED ≠ 0 then
      { Entry with Enabled := true }
    else Entry
  else if Entry.NdisWoLPattern.WoLPacketType = NdisPMWoLPacketIPv6TcpSyn then
    if w.m_PMParameters.EnabledWoLPacketPatterns &&& NDIS_PM_WOL_IPV6_TCP_SYN_ENABLED ≠ 0 then
      { Entry with Enabled := true }
    else Entry
  else if Entry.NdisWoLPattern.WoLPacketType = NdisPMWoLPacketEapolRequestIdMessage then
    if w.m_PMParameters.EnabledWoLPacketPatterns &&&
        NDIS_PM_WOL_EAPOL_REQUEST_ID_MESSAGE_ENABLED ≠ 0 then
      { Entry with Enabled := true }
    else Entry
  else
    -- default: ASSERT(FALSE)
    Entry

/-- `NxWake::UpdateProtocolOffloadEntryEnabledField`: `Enabled` is cleared, then
assigned `!!(m_PMParameters.EnabledProtocolOffloads & bit)` for the offload type. -/
def UpdateProtocolOffloadEntryEnabledField (w : NxWake) (Entry : NX_NET_POWER_ENTRY) :
    NX_NET_POWER_ENTRY :=
  let Entry := { Entry with Enabled := false }
  if Entry.NdisProtocolOffload.ProtocolOffloadType = NdisPMProtocolOffloadIdIPv4ARP then
    { Entry with Enabled :=
        ((w.m_PMParameters.EnabledProtocolOffloads &&& NDIS_PM_PROTOCOL_OFFLOAD_ARP_ENABLED) != 0) }
  else if Entry.NdisProtocolOffload.ProtocolOffloadType = NdisPMProtocolOffloadIdIPv6NS then
    { Entry with Enabled :=
        ((w.m_PMParameters.EnabledProtocolOffloads &&& NDIS_PM_PROTOCOL_OFFLOAD_NS_ENABLED) != 0) }
  else if Entry.NdisProtocolOffload.ProtocolOffloadType =
      NdisPMProtocolOffload80211RSNRekey then
    { Entry with Enabled :=
        ((w.m_PMParameters.EnabledProtocolOffloads &&&
            NDIS_PM_PROTOCOL_OFFLOAD_80211_RSN_REKEY_ENABLED) != 0) }
  else
    -- default: NT_ASSERTMSG("Unexpected protocol offload type", 0)
    Entry

/-- `NxWake::CreateProtocolOffloadEntry`.  `allocOk` is the outcome of
`ExAllocatePoolWithTag`.  The entry is zeroed, `Size` is the allocation size and
`sizeof(NDIS_PM_PROTOCOL_OFFLOAD)` bytes are copied from the caller's buffer. -/
def CreateProtocolOffloadEntry (L : Layout) (allocOk : Bool)
    (NdisProtocolOffload : NDIS_PM_PROTOCOL_OFFLOAD) (InformationBufferLength : Nat) :
    Option NX_NET_POWER_ENTRY :=
  let ndisProtocolOffloadSize := L.sizeofProtocolOffload
  if InformationBufferLength < ndisProtocolOffloadSize then
    none
  else
    match RtlULongAdd L.sizeofEntry ndisProtocolOffloadSize with
    | none => none
    | some totalAllocationSize =>
      if allocOk = false then
        none
      else
        some
          { Size := totalAllocationSize
            Enabled := false
            NdisWoLPattern := NDIS_PM_WOL_PATTERN.zero
            NdisProtocolOffload :=
              { NdisProtocolOffload with
                bytes := NdisProtocolOffload.bytes.take ndisProtocolOffloadSize } }

/-- The value of `patternPayloadSize` computed at the top of
`NxWake::CreateWakePatternEntry`: zero unless the pattern is a bitmap pattern; for a
bitmap pattern the larger of the two `ULONG` sums (each wrapping modulo `2^32`),
raised to at least `sizeof(NDIS_PM_WOL_PATTERN)`, minus `sizeof(NDIS_PM_WOL_PATTERN)`. -/
def CreateWakePatternEntry.patternPayloadSize (L : Layout) (Pattern : NDIS_PM_WOL_PATTERN) :
    Nat :=
  if Pattern.WoLPacketType = NdisPMWoLPacketBitmapPattern then
    let patternPayloadSize :=
      max ((Pattern.MaskOffset + Pattern.MaskSize) % 2 ^ 32)
        ((Pattern.PatternOffset + Pattern.PatternSize) % 2 ^ 32)
    let patternPayloadSize := max patternPayloadSize L.sizeofWolPattern
    patternPayloadSize - L.sizeofWolPattern
  else
    0

/-- `NxWake::CreateWakePatternEntry`.  `allocOk` is the outcome of
`ExAllocatePoolWithTag`.  The sum compared with `InformationBufferLength` is taken in
`size_t`, where it cannot wrap once `RtlULongAdd` has succeeded.  The entry is zeroed,
`Size` is the allocation size and `sizeof(NDIS_PM_WOL_PATTERN) + patternPayloadSize`
bytes are copied from the caller's buffer. -/
def CreateWakePatternEntry (L : Layout) (allocOk : Bool) (Pattern : NDIS_PM_WOL_PATTERN)
    (InformationBufferLength : Nat) : Option NX_NET_POWER_ENTRY :=
  let patternPayloadSize := CreateWakePatternEntry.patternPayloadSize L Pattern
  match RtlULongAdd L.sizeofEntry patternPayloadSize with
  | none => none
  | some totalAllocationSize =>
    if InformationBufferLength < patternPayloadSize + L.sizeofWolPattern then
      none
    else if allocOk = false then
      none
    else
      some
        { Size := totalAllocationSize
          Enabled := false
          NdisWoLPattern :=
            { Pattern with
              bytes := Pattern.bytes.take (L.sizeofWolPattern + patternPayloadSize) }
          NdisProtocolOffload := NDIS_PM_PROTOCOL_OFFLOAD.zero }

/-- `NxWake::AddWakePatternEntryToList`: increments the count and pushes the entry at
the head of the wake list.  The count is not wrapped; it is the `ULONG` member's value
whenever the count before the call is below `0xFFFFFFFF`. -/
def AddWakePatternEntryToList (w : NxWake) (Entry : NX_NET_POWER_ENTRY) : NxWake :=
  { w with
    m_WakeListCount := w.m_WakeListCount + 1
    m_WakeListHead := Entry :: w.m_WakeListHead }

/-- The loop of `NxWake::RemovePowerEntryByID`: walks the list from the head, and at the
first entry whose identifier is `PatternID` unlinks it and returns it together with the
remaining list; `none` when the end of the list is reached. -/
def RemovePowerEntryByID.scan (PatternID : Nat) (NxPowerEntryType : NX_POWER_ENTRY_TYPE) :
    List NX_NET_POWER_ENTRY → Option (NX_NET_POWER_ENTRY × List NX_NET_POWER_ENTRY)
  | [] => none
  | nxEntry :: rest =>
    if GetPowerEntryID nxEntry NxPowerEntryType = PatternID then
      some (nxEntry, rest)
    else
      match RemovePowerEntryByID.scan PatternID NxPowerEntryType rest with
      | none => none
      | some (found, rest1) => some (found, nxEntry :: rest1)

/-- `NxWake::RemovePowerEntryByID`: the removed entry (`none` for `NULL`) and the registry
afterwards.  The count of the chosen category is decremented only when an entry is
unlinked.  (The source asserts that the count is nonzero on entry.) -/
def RemovePowerEntryByID (w : NxWake) (PatternID : Nat)
    (NxPowerEntryType : NX_POWER_ENTRY_TYPE) : Option NX_NET_POWER_ENTRY × NxWake :=
  match NxPowerEntryType with
  | .NxPowerEntryTypeWakePattern =>
    match RemovePowerEntryByID.scan PatternID NxPowerEntryType w.m_WakeListHead with
    | some (nxEntry, rest) =>
      (some nxEntry,
        { w with m_WakeListCount := w.m_WakeListCount - 1, m_WakeListHead := rest })
    | none => (none, w)
  | .NxPowerEntryTypeProtocolOffload =>
    match RemovePowerEntryByID.scan PatternID NxPowerEntryType
        w.m_ProtocolOffloadListHead with
    | some (nxEntry, rest) =>
      (some nxEntry,
        { w with
          m_ProtocolOffloadListCount := w.m_ProtocolOffloadListCount - 1
          m_ProtocolOffloadListHead := rest })
    | none => (none, w)

/-- `NxWake::AddWakePattern`.  The capacity slot is taken first; the `wil::scope_exit`
guard gives it back on every return before `wakePatternReference.release()`.  The
callback, when registered, runs between the two writes of
`m_DriverCanAccessWakeSettings`. -/
def AddWakePattern (L : Layout) (m_EvtPreviewWakePattern : Option EVT_PREVIEW_WAKE_PATTERN)
    (allocOk : Bool) (w : NxWake) (device : NxDevice) (ndisWolPattern : NDIS_PM_WOL_PATTERN)
    (InformationBufferLength : Nat) : AddResult :=
  let acquired := device.IncreaseWakePatternReference
  if acquired.1 = false then
    { status := NDIS_STATUS_PM_WOL_PATTERN_LIST_FULL, wake := w, device := acquired.2,
      preview := none }
  else
    let device := acquired.2
    match CreateWakePatternEntry L allocOk ndisWolPattern InformationBufferLength with
    | none =>
      { status := NDIS_STATUS_RESOURCES, wake := w,
        device := device.DecreaseWakePatternReference, preview := none }
    | some nxWakeEntry =>
      let nxWakeEntry := UpdatePatternEntryEnabledField w nxWakeEntry
      match m_EvtPreviewWakePattern with
      | some callback =>
        let wOpen := { w with m_DriverCanAccessWakeSettings := true }
        let status :=
          callback device wOpen nxWakeEntry.NdisWoLPattern.WoLPacketType
            nxWakeEntry.NdisWoLPattern
        let wClosed := { wOpen with m_DriverCanAccessWakeSettings := false }
        if status = STATUS_NDIS_PM_WOL_PATTERN_LIST_FULL then
          { status := NDIS_STATUS_PM_WOL_PATTERN_LIST_FULL, wake := wClosed,
            device := device.DecreaseWakePatternReference, preview := some (device, wOpen) }
        else
          { status := NDIS_STATUS_SUCCESS,
            wake := AddWakePatternEntryToList wClosed nxWakeEntry,
            device := device, preview := some (device, wOpen) }
      | none =>
        { status := NDIS_STATUS_SUCCESS, wake := AddWakePatternEntryToList w nxWakeEntry,
          device := device, preview := none }

/-- `NxWake::AddProtocolOffload`.  The device is only handed to the callback; no
capacity slot is taken.  The count is not wrapped; it is the `ULONG` member's value
whenever the count before the call is below `0xFFFFFFFF`. -/
def AddProtocolOffload (L : Layout)
    (m_EvtPreviewProtocolOffload : Option EVT_PREVIEW_PROTOCOL_OFFLOAD) (allocOk : Bool)
    (w : NxWake) (device : NxDevice) (ndisProtocolOffload : NDIS_PM_PROTOCOL_OFFLOAD)
    (InformationBufferLength : Nat) : AddResult :=
  match CreateProtocolOffloadEntry L allocOk ndisProtocolOffload InformationBufferLength with
  | none =>
    { status := NDIS_STATUS_RESOURCES, wake := w, device := device, preview := none }
  | some nxPowerEntry =>
    let nxPowerEntry := UpdateProtocolOffloadEntryEnabledField w nxPowerEntry
    match m_EvtPreviewProtocolOffload with
    | some callback =>
      let wOpen := { w with m_DriverCanAccessWakeSettings := true }
      let status :=
        callback device wOpen nxPowerEntry.NdisProtocolOffload.ProtocolOffloadType
          nxPowerEntry.NdisProtocolOffload
      let wClosed := { wOpen with m_DriverCanAccessWakeSettings := false }
      if status = STATUS_NDIS_PM_PROTOCOL_OFFLOAD_LIST_FULL then
        { status := NDIS_STATUS_PM_PROTOCOL_OFFLOAD_LIST_FULL, wake := wClosed,
          device := device, preview := some (device, wOpen) }
      else
        { status := NDIS_STATUS_SUCCESS,
          wake :=
            { wClosed with
              m_ProtocolOffloadListCount := wClosed.m_ProtocolOffloadListCount + 1
              m_ProtocolOffloadListHead := nxPowerEntry :: wClosed.m_ProtocolOffloadListHead }
          device := device, preview := some (device, wOpen) }
    | none =>
      { status := NDIS_STATUS_SUCCESS,
        wake :=
          { w with
            m_ProtocolOffloadListCount := w.m_ProtocolOffloadListCount + 1
            m_ProtocolOffloadListHead := nxPowerEntry :: w.m_ProtocolOffloadListHead }
        device := device, preview := none }

/-- `NxWake::RemoveWakePattern`.  The result of `RemovePowerEntryByID` is used without
a test: `RtlFillMemory(nxWakeEntry, nxWakeEntry->Size, 0xC0)` reads through it, so a
`NULL` result is a fault (`none`).  Otherwise the entry is freed and the capacity slot
released. -/
def RemoveWakePattern (w : NxWake) (device : NxDevice) (PatternID : Nat) :
    Option (Nat × NxWake × NxDevice) :=
  match RemovePowerEntryByID w PatternID .NxPowerEntryTypeWakePattern with
  | (none, _) => none
  | (some _, w1) => some (NDIS_STATUS_SUCCESS, w1, device.DecreaseWakePatternReference)

/-- `NxWake::RemoveProtocolOffload`.  As in `RemoveWakePattern` the result of
`RemovePowerEntryByID` is read through without a test, so a `NULL` result is a fault
(`none`).  The device is not touched. -/
def RemoveProtocolOffload (w : NxWake) (device : NxDevice) (PatternID : Nat) :
    Option (Nat × NxWake × NxDevice) :=
  match RemovePowerEntryByID w PatternID .NxPowerEntryTypeProtocolOffload with
  | (none, _) => none
  | (some _, w1) => some (NDIS_STATUS_SUCCESS, w1, device)

/-- `NxWake::SetParameters`: the two comparisons are made against the stored parameters,
the parameters are then replaced, and each list is walked only when its bitmask
differs. -/
def SetParameters (w : NxWake) (PmParams : NDIS_PM_PARAMETERS) : Nat × NxWake :=
  let updateWakePatterns :=
    if w.m_PMParameters.EnabledWoLPacketPatterns = PmParams.EnabledWoLPacketPatterns then false
    else true
  let updateProtocolOffload :=
    if w.m_PMParameters.EnabledProtocolOffloads = PmParams.EnabledProtocolOffloads then false
    else true
  let w := { w with m_PMParameters := PmParams }
  let w :=
    if updateWakePatterns = true then
      { w with m_WakeListHead := w.m_WakeListHead.map (UpdatePatternEntryEnabledField w) }
    else w
  let w :=
    if updateProtocolOffload = true then
      { w with
        m_ProtocolOffloadListHead :=
          w.m_ProtocolOffloadListHead.map (UpdateProtocolOffloadEntryEnabledField w) }
    else w
  (NDIS_STATUS_SUCCESS, w)

/-- The `for` loop of `NxWake::GetEntryAtIndex`: `i` counts the entries passed. -/
def GetEntryAtIndex.loop (Index : Nat) : Nat → List NX_NET_POWER_ENTRY →
    Option NX_NET_POWER_ENTRY
  | _, [] => none
  | i, ple :: rest =>
    if i ≠ Index then GetEntryAtIndex.loop Index (i + 1) rest else some ple

/-- `NxWake::GetEntryAtIndex`: `NULL` (`none`) when `Index` is not below the count of the
category, otherwise the result of the walk. -/
def GetEntryAtIndex (w : NxWake) (Index : Nat) (NxEntryType : NX_POWER_ENTRY_TYPE) :
    Option NX_NET_POWER_ENTRY :=
  let maxCount :=
    if NxEntryType = .NxPowerEntryTypeWakePattern then w.m_WakeListCount
    else w.m_ProtocolOffloadListCount
  let listHead :=
    if NxEntryType = .NxPowerEntryTypeWakePattern then w.m_WakeListHead
    else w.m_ProtocolOffloadListHead
  if Index ≥ maxCount then none
  else GetEntryAtIndex.loop Index 0 listHead

/-- `NxWake::AdapterInitComplete`. -/
def AdapterInitComplete (w : NxWake) : NxWake :=
  { w with m_DriverObjectCallbacksEnabled := true }

/-- `NxWake::ArePowerSettingsAccessible`. -/
def ArePowerSettingsAccessible (w : NxWake) (nxDevice : NxDevice) : Bool :=
  w.m_DriverCanAccessWakeSettings || nxDevice.IsDeviceInPowerTransition

/-- The `while` loop of `NxWake::GetWakePatternCountForType`, with the running value of
`countOfWakeType`. -/
def GetWakePatternCountForType.loop (WakePatternType : Nat) :
    Nat → List NX_NET_POWER_ENTRY → Nat
  | countOfWakeType, [] => countOfWakeType
  | countOfWakeType, nxEntry :: rest =>
    if nxEntry.NdisWoLPattern.WoLPacketType = WakePatternType then
      GetWakePatternCountForType.loop WakePatternType (countOfWakeType + 1) rest
    else
      GetWakePatternCountForType.loop WakePatternType countOfWakeType rest

/-- `NxWake::GetWakePatternCountForType`. -/
def GetWakePatternCountForType (w : NxWake) (WakePatternType : Nat) : Nat :=
  GetWakePatternCountForType.loop WakePatternType 0 w.m_WakeListHead

/-- The `while` loop of `NxWake::GetProtocolOffloadCountForType`, with the running value
of `countOfType`. -/
def GetProtocolOffloadCountForType.loop (NdisOffloadType : Nat) :
    Nat → List NX_NET_POWER_ENTRY → Nat
  | countOfType, [] => countOfType
  | countOfType, nxEntry :: rest =>
    if nxEntry.NdisProtocolOffload.ProtocolOffloadType = NdisOffloadType then
      GetProtocolOffloadCountForType.loop NdisOffloadType (countOfType + 1) rest
    else
      GetProtocolOffloadCountForType.loop NdisOffloadType countOfType rest

/-- `NxWake::GetProtocolOffloadCountForType`. -/
def GetProtocolOffloadCountForType (w : NxWake) (NdisOffloadType : Nat) : Nat :=
  GetProtocolOffloadCountForType.loop NdisOffloadType 0 w.m_ProtocolOffloadListHead

/-- One `while` loop of the destructor `NxWake::~NxWake`: as long as the head is not
`NULL` the first entry is popped and freed; what is left linked is returned. -/
def destructor.drain : List NX_NET_POWER_ENTRY → List NX_NET_POWER_ENTRY
  | [] => []
  | _ :: rest => destructor.drain rest

/-- The destructor `NxWake::~NxWake`: both lists are drained.  No other member is
written and the device is not referred to. -/
def destructor (w : NxWake) : NxWake :=
  { w with
    m_WakeListHead := destructor.drain w.m_WakeListHead
    m_ProtocolOffloadListHead := destructor.drain w.m_ProtocolOffloadListHead }

end NxWake

/-! ## The registry as a state machine -/

/-- The registry together with the device it shares the capacity counter with. -/
structure World where
  wake : NxWake
  device : NxDevice
deriving DecidableEq, Repr

/-- The state after construction: a fresh registry on a device whose wake-pattern
counter is `0` and whose ceiling is `C`. -/
def World.initial (C : Nat) (inTransition : Bool) : World :=
  { wake := NxWake.new
    device := { m_wakePatternCount := 0, m_wakePatternMax := C,
                m_inPowerTransition := inTransition } }

/-- One call made on the registry between two quiescent points, with everything the
environment decides for that call: the registered preview callback, whether the pool
allocation succeeds, and the caller's buffer. -/
inductive Op where
  | addWakePattern (callback : Option EVT_PREVIEW_WAKE_PATTERN) (allocOk : Bool)
      (pattern : NDIS_PM_WOL_PATTERN) (InformationBufferLength : Nat)
  | removeWakePattern (PatternID : Nat)
  | addProtocolOffload (callback : Option EVT_PREVIEW_PROTOCOL_OFFLOAD) (allocOk : Bool)
      (offload : NDIS_PM_PROTOCOL_OFFLOAD) (InformationBufferLength : Nat)
  | removeProtocolOffload (PatternID : Nat)
  | setParameters (PmParams : NDIS_PM_PARAMETERS)
  | adapterInitComplete
  | powerTransition (inTransition : Bool)

/-- The effect of one call.  A removal whose identifier is in no record of its list
faults and has no successor state. -/
def step (L : Layout) (s : World) : Op → Option World
  | .addWakePattern callback allocOk pattern len =>
    let r := NxWake.AddWakePattern L callback allocOk s.wake s.device pattern len
    some { wake := r.wake, device := r.device }
  | .removeWakePattern PatternID =>
    match NxWake.RemoveWakePattern s.wake s.device PatternID with
    | none => none
    | some (_, w, d) => some { wake := w, device := d }
  | .addProtocolOffload callback allocOk offload len =>
    let r := NxWake.AddProtocolOffload L callback allocOk s.wake s.device offload len
    some { wake := r.wake, device := r.device }
  | .removeProtocolOffload PatternID =>
    match NxWake.RemoveProtocolOffload s.wake s.device PatternID with
    | none => none
    | some (_, w, d) => some { wake := w, device := d }
  | .setParameters PmParams =>
    some { s with wake := (NxWake.SetParameters s.wake PmParams).2 }
  | .adapterInitComplete =>
    some { s with wake := NxWake.AdapterInitComplete s.wake }
  | .powerTransition inTransition =>
    some { s with device := { s.device with m_inPowerTransition := inTransition } }

/-- The effect of a finite sequence of calls, left to right. -/
def run (L : Layout) (s : World) : List Op → Option World
  | [] => some s
  | op :: ops =>
    match step L s op with
    | none => none
    | some s1 => run L s1 ops

/-- The states reachable from construction with ceiling `C`. -/
def Reachable (L : Layout) (C : Nat) (s : World) : Prop :=
  ∃ inTransition ops, run L (World.initial C inTransition) ops = some s

/-! ## The enabled function, in the words of the specification -/

/-- The bit of `EnabledWoLPacketPatterns` that governs a wake packet type, if the type is
one of the five recognised ones. -/
def wakePatternEnabledBit (WoLPacketType : Nat) : Option Nat :=
  if WoLPacketType = NdisPMWoLPacketBitmapPattern then
    some NDIS_PM_WOL_BITMAP_PATTERN_ENABLED
  else if WoLPacketType = NdisPMWoLPacketMagicPacket then
    some NDIS_PM_WOL_MAGIC_PACKET_ENABLED
  else if WoLPacketType = NdisPMWoLPacketIPv4TcpSyn then
    some NDIS_PM_WOL_IPV4_TCP_SYN_ENABLED
  else if WoLPacketType = NdisPMWoLPacketIPv6TcpSyn then
    some NDIS_PM_WOL_IPV6_TCP_SYN_ENABLED
  else if WoLPacketType = NdisPMWoLPacketEapolRequestIdMessage then
    some NDIS_PM_WOL_EAPOL_REQUEST_ID_MESSAGE_ENABLED
  else none

/-- The bit of `EnabledProtocolOffloads` that governs a protocol offload type, if the
type is one of the three recognised ones. -/
def protocolOffloadEnabledBit (ProtocolOffloadType : Nat) : Option Nat :=
  if ProtocolOffloadType = NdisPMProtocolOffloadIdIPv4ARP then
    some NDIS_PM_PROTOCOL_OFFLOAD_ARP_ENABLED
  else if ProtocolOffloadType = NdisPMProtocolOffloadIdIPv6NS then
    some NDIS_PM_PROTOCOL_OFFLOAD_NS_ENABLED
  else if ProtocolOffloadType = NdisPMProtocolOffload80211RSNRekey then
    some NDIS_PM_PROTOCOL_OFFLOAD_80211_RSN_REKEY_ENABLED
  else none

/-- The enabled function of the specification: a record is enabled exactly when its
sub-type is recognised and the bit of the bitmask for that sub-type is set. -/
def enabledFor (bit : Option Nat) (bitmask : Nat) : Bool :=
  match bit with
  | some b => (bitmask &&& b) != 0
  | none => false

/-- The enabled function for wake patterns. -/
def wakePatternEnabled (EnabledWoLPacketPatterns WoLPacketType : Nat) : Bool :=
  enabledFor (wakePatternEnabledBit WoLPacketType) EnabledWoLPacketPatterns

/-- The enabled function for protocol offloads. -/
def protocolOffloadEnabled (EnabledProtocolOffloads ProtocolOffloadType : Nat) : Bool :=
  enabledFor (protocolOffloadEnabledBit ProtocolOffloadType) EnabledProtocolOffloads

/-- The invariant of the quiescent states of a registry on a device with ceiling `C`:
the device counter is the number of committed wake patterns and is at most `C`, the
access window is closed, each count is the length of its list, and each `Enabled` flag
is the enabled function of the stored bitmask and the record's sub-type. -/
structure RegistryInv (C : Nat) (s : World) : Prop where
  max_eq : s.device.m_wakePatternMax = C
  counter_eq : s.device.m_wakePatternCount = (s.wake.m_WakeListHead.length : Int)
  le_max : s.wake.m_WakeListHead.length ≤ C
  window_closed : s.wake.m_DriverCanAccessWakeSettings = false
  wake_count : s.wake.m_WakeListCount = s.wake.m_WakeListHead.length
  offload_count : s.wake.m_ProtocolOffloadListCount = s.wake.m_ProtocolOffloadListHead.length
  wake_enabled : ∀ e ∈ s.wake.m_WakeListHead,
    e.Enabled = wakePatternEnabled s.wake.m_PMParameters.EnabledWoLPacketPatterns
      e.NdisWoLPattern.WoLPacketType
  offload_enabled : ∀ e ∈ s.wake.m_ProtocolOffloadListHead,
    e.Enabled = protocolOffloadEnabled s.wake.m_PMParameters.EnabledProtocolOffloads
      e.NdisProtocolOffload.ProtocolOffloadType

/-! ## Concrete inputs used in the examples -/

/-- A layout with sizes of the order of those of the 64-bit Windows structures.  It is
used only to evaluate the code on concrete inputs. -/
def sampleLayout : Layout :=
  { sizeofEntry := 256, sizeofWolPattern := 196, sizeofProtocolOffload := 240 }

/-- A magic-packet wake pattern with identifier `id` in a buffer of `len` bytes, the
`i`-th byte being `i % 256`. -/
def sampleMagicPattern (id len : Nat) : NDIS_PM_WOL_PATTERN :=
  { WoLPacketType := NdisPMWoLPacketMagicPacket, PatternId := id, MaskOffset := 0,
    MaskSize := 0, PatternOffset := 0, PatternSize := 0,
    bytes := (List.range len).map fun i => i % 256 }

/-- An IPv4 ARP protocol offload with identifier `id` in a buffer of `len` bytes. -/
def sampleArpOffload (id len : Nat) : NDIS_PM_PROTOCOL_OFFLOAD :=
  { ProtocolOffloadType := NdisPMProtocolOffloadIdIPv4ARP, ProtocolOffloadId := id,
    bytes := (List.range len).map fun i => i % 256 }

/-- A preview callback that accepts every wake pattern. -/
def acceptWakePattern : EVT_PREVIEW_WAKE_PATTERN :=
  fun _ _ _ _ => STATUS_SUCCESS

/-- A preview callback that rejects every wake pattern with the list-full status. -/
def rejectWakePattern : EVT_PREVIEW_WAKE_PATTERN :=
  fun _ _ _ _ => STATUS_NDIS_PM_WOL_PATTERN_LIST_FULL

/-- A preview callback that accepts every protocol offload. -/
def acceptProtocolOffload : EVT_PREVIEW_PROTOCOL_OFFLOAD :=
  fun _ _ _ _ => STATUS_SUCCESS

/-- A preview callback that rejects every protocol offload with the list-full status. -/
def rejectProtocolOffload : EVT_PREVIEW_PROTOCOL_OFFLOAD :=
  fun _ _ _ _ => STATUS_NDIS_PM_PROTOCOL_OFFLOAD_LIST_FULL

/-- A preview callback that answers every wake pattern with the failure code
`STATUS_UNSUCCESSFUL`. -/
def failWakePattern : EVT_PREVIEW_WAKE_PATTERN :=
  fun _ _ _ _ => 0xC0000001

/-- A preview callback that answers every protocol offload with the failure code
`STATUS_UNSUCCESSFUL`. -/
def failProtocolOffload : EVT_PREVIEW_PROTOCOL_OFFLOAD :=
  fun _ _ _ _ => 0xC0000001

/-- A preview callback that asks `ArePowerSettingsAccessible()` on the registry and the
device it is handed, and rejects the wake pattern with the list-full status exactly when
the answer is true. -/
def probeWakePattern : EVT_PREVIEW_WAKE_PATTERN :=
  fun d v _ _ =>
    if NxWake.ArePowerSettingsAccessible v d = true then STATUS_NDIS_PM_WOL_PATTERN_LIST_FULL
    else STATUS_SUCCESS

/-- A preview callback that asks `ArePowerSettingsAccessible()` on the registry and the
device it is handed, and rejects the protocol offload with the list-full status exactly
when the answer is true. -/
def probeProtocolOffload : EVT_PREVIEW_PROTOCOL_OFFLOAD :=
  fun d v _ _ =>
    if NxWake.ArePowerSettingsAccessible v d = true then
      STATUS_NDIS_PM_PROTOCOL_OFFLOAD_LIST_FULL
    else STATUS_SUCCESS

/-- A device with counter `count`, ceiling `ceiling`, not in a power transition. -/
def sampleDevice (count : Int) (ceiling : Nat) : NxDevice :=
  { m_wakePatternCount := count, m_wakePatternMax := ceiling, m_inPowerTransition := false }

/-- A committed magic-packet record with identifier `id` and the given `Enabled` flag. -/
def sampleWakeEntry (id : Nat) (enabled : Bool) : NX_NET_POWER_ENTRY :=
  { Size := 256, Enabled := enabled, NdisWoLPattern := sampleMagicPattern id 196,
    NdisProtocolOffload := NDIS_PM_PROTOCOL_OFFLOAD.zero }

/-- A committed ARP offload record with identifier `id` and the given `Enabled` flag. -/
def sampleOffloadEntry (id : Nat) (enabled : Bool) : NX_NET_POWER_ENTRY :=
  { Size := 496, Enabled := enabled, NdisWoLPattern := NDIS_PM_WOL_PATTERN.zero,
    NdisProtocolOffload := sampleArpOffload id 240 }

/-- A registry holding the wake patterns `3, 2, 1` (head first) and the offload `1`. -/
def sampleRegistry : NxWake :=
  { NxWake.new with
    m_WakeListHead := [sampleWakeEntry 3 false, sampleWakeEntry 2 false, sampleWakeEntry 1 false]
    m_WakeListCount := 3
    m_ProtocolOffloadListHead := [sampleOffloadEntry 1 false]
    m_ProtocolOffloadListCount := 1 }

/-- A sequence of calls on a device with ceiling `2`: two accepted wake patterns, a
third refused, one removed, an offload added and the parameters set. -/
def sampleCalls : List Op :=
  [ .addWakePattern none true (sampleMagicPattern 1 196) 196,
    .addWakePattern (some acceptWakePattern) true (sampleMagicPattern 2 196) 196,
    .addWakePattern none true (sampleMagicPattern 3 196) 196,
    .removeWakePattern 1,
    .addProtocolOffload none true (sampleArpOffload 1 240) 240,
    .setParameters { EnabledWoLPacketPatterns := 2, EnabledProtocolOffloads := 1,
                     WakeUpFlags := 0, MediaSpecificWakeUpEvents := 0 } ]

/-- The state the calls of `sampleCalls` lead to. -/
def sampleFinal : World :=
  { wake :=
      { m_WakeListHead := [sampleWakeEntry 2 true]
        m_WakeListCount := 1
        m_ProtocolOffloadListHead := [sampleOffloadEntry 1 true]
        m_ProtocolOffloadListCount := 1
        m_PMParameters := { EnabledWoLPacketPatterns := 2, EnabledProtocolOffloads := 1,
                            WakeUpFlags := 0, MediaSpecificWakeUpEvents := 0 }
        m_DriverCanAccessWakeSettings := false
        m_DriverObjectCallbacksEnabled := false
        m_EvtCleanupCallback := none
        m_EvtDestroyCallback := none }
    device := sampleDevice 1 2 }

/-- The state after the first two calls of `sampleCalls`: two committed wake patterns
on a device with ceiling `2`. -/
def sampleAtCeiling : World :=
  { wake :=
      { NxWake.new with
        m_WakeListHead := [sampleWakeEntry 2 false, sampleWakeEntry 1 false]
        m_WakeListCount := 2 }
    device := sampleDevice 2 2 }

/-- A registry whose stored bitmask has the magic-packet bit set and whose only record,
a magic-packet pattern, carries the given `Enabled` flag. -/
def sampleStale (enabled : Bool) : NxWake :=
  { NxWake.new with
    m_WakeListHead := [sampleWakeEntry 1 enabled]
    m_WakeListCount := 1
    m_PMParameters := { EnabledWoLPacketPatterns := NDIS_PM_WOL_MAGIC_PACKET_ENABLED,
                        EnabledProtocolOffloads := 0, WakeUpFlags := 0,
                        MediaSpecificWakeUpEvents := 0 } }

/-- Power parameters with the given two bitmasks and nothing else set. -/
def sampleParameters (wol offloads : Nat) : NDIS_PM_PARAMETERS :=
  { EnabledWoLPacketPatterns := wol, EnabledProtocolOffloads := offloads,
    WakeUpFlags := 0, MediaSpecificWakeUpEvents := 0 }

/-! ## The status decision table, in the words of the specification -/

/-- The status of `AddWakePattern` as the specification tabulates it.  `acquired` says
whether the capacity slot was obtained; `created` is `none` when entry creation
failed, `some none` when it succeeded and no callback is registered, and
`some (some st)` when it succeeded and the registered callback returned `st`. -/
def addWakePatternStatus (acquired : Bool) (created : Option (Option Nat)) : Nat :=
  if acquired = false then NDIS_STATUS_PM_WOL_PATTERN_LIST_FULL
  else
    match created with
    | none => NDIS_STATUS_RESOURCES
    | some callbackStatus =>
      if callbackStatus = some STATUS_NDIS_PM_WOL_PATTERN_LIST_FULL then
        NDIS_STATUS_PM_WOL_PATTERN_LIST_FULL
      else NDIS_STATUS_SUCCESS

/-- The status of `AddProtocolOffload` as the specification tabulates it, with
`created` as in `addWakePatternStatus`. -/
def addProtocolOffloadStatus (created : Option (Option Nat)) : Nat :=
  match created with
  | none => NDIS_STATUS_RESOURCES
  | some callbackStatus =>
    if callbackStatus = some STATUS_NDIS_PM_PROTOCOL_OFFLOAD_LIST_FULL then
      NDIS_STATUS_PM_PROTOCOL_OFFLOAD_LIST_FULL
    else NDIS_STATUS_SUCCESS

/-! ## The naive parameter update, in the words of the specification -/

/-- The naive variant of `SetParameters`: the stored power parameters are replaced and
the `Enabled` flag of every record of both categories is recomputed, whether or not a
bitmask changed. -/
def SetParametersNaive (w : NxWake) (PmParams : NDIS_PM_PARAMETERS) : Nat × NxWake :=
  let w := { w with m_PMParameters := PmParams }
  (NDIS_STATUS_SUCCESS,
    { w with
      m_WakeListHead := w.m_WakeListHead.map (NxWake.UpdatePatternEntryEnabledField w)
      m_ProtocolOffloadListHead :=
        w.m_ProtocolOffloadListHead.map (NxWake.UpdateProtocolOffloadEntryEnabledField w) })

/-- Whether a call is `AdapterInitComplete`. -/
def Op.isAdapterInitComplete : Op → Bool
  | .adapterInitComplete => true
  | _ => false

/-- The count of a category, the member that `GetEntryAtIndex` compares the index with. -/
def NxWake.countOf (w : NxWake) : NX_POWER_ENTRY_TYPE → Nat
  | .NxPowerEntryTypeWakePattern => w.m_WakeListCount
  | .NxPowerEntryTypeProtocolOffload => w.m_ProtocolOffloadListCount

/-! ## Further concrete inputs -/

/-- A bitmap wake pattern whose `MaskOffset + MaskSize` is `2^32`, in a buffer of `196`
bytes. -/
def sampleWrappedBitmap : NDIS_PM_WOL_PATTERN :=
  { WoLPacketType := NdisPMWoLPacketBitmapPattern, PatternId := 1,
    MaskOffset := 0xFFFFFFFF, MaskSize := 1, PatternOffset := 0, PatternSize := 0,
    bytes := (List.range 196).map fun i => i % 256 }

/-- Driver attributes with a cleanup callback (routine `11`) and a destroy callback
(routine `12`). -/
def sampleAttributes : WDF_OBJECT_ATTRIBUTES :=
  { Size := 56, EvtCleanupCallback := some 11, EvtDestroyCallback := some 12 }

/-- The registry `NxWake::_Create` returns for `sampleAttributes`. -/
def sampleCreated : NxWake :=
  { NxWake.new with m_EvtCleanupCallback := some 11, m_EvtDestroyCallback := some 12 }

/-- Two calls on a created registry, the second being `AdapterInitComplete`. -/
def sampleInitCalls : List Op :=
  [.setParameters (sampleParameters 2 1), .adapterInitComplete]

/-- The state `sampleInitCalls` leads to from `sampleCreated`. -/
def sampleInitialised : World :=
  { wake :=
      { sampleCreated with
        m_PMParameters := sampleParameters 2 1
        m_DriverObjectCallbacksEnabled := true }
    device := sampleDevice 0 2 }

/-! ## Destruction -/

/-- The destruction of the registry of a world: the destructor runs on the registry;
the device, which the destructor does not refer to, stays as it is. -/
def World.teardown (s : World) : World :=
  { s with wake := s.wake.destructor }

/-- The list of a category. -/
def NxWake.listOf (w : NxWake) : NX_POWER_ENTRY_TYPE → List NX_NET_POWER_ENTRY
  | .NxPowerEntryTypeWakePattern => w.m_WakeListHead
  | .NxPowerEntryTypeProtocolOffload => w.m_ProtocolOffloadListHead

/-- A wake pattern of packet type `7`, which is none of the recognised types. -/
def sampleUnknownEntry : NX_NET_POWER_ENTRY :=
  { Size := 256, Enabled := true,
    NdisWoLPattern := { sampleMagicPattern 1 196 with WoLPacketType := 7 },
    NdisProtocolOffload := { sampleArpOffload 1 240 with ProtocolOffloadType := 7 } }

/-- A bitmap wake pattern with mask at offset `196` of `8` bytes and pattern at offset
`204` of `64` bytes, in a buffer of `len` bytes. -/
def sampleBitmapPattern (id len : Nat) : NDIS_PM_WOL_PATTERN :=
  { WoLPacketType := NdisPMWoLPacketBitmapPattern, PatternId := id, MaskOffset := 196,
    MaskSize := 8, PatternOffset := 204, PatternSize := 64,
    bytes := (List.range len).map fun i => i % 256 }

/-! ## Packet extensions (`cx/sys/nxqueueapi.cpp`)

The four exported routines translate the driver's public descriptor into the private
one and hand it to a routine of `NxQueue` that is defined outside the sources; that
routine is an argument here.  A `PCWSTR` is the pointer value.  The `Verifier_` calls
inspect their arguments and return nothing; they are not part of the functions below. -/

/-- The fields of `NET_PACKET_EXTENSION` that the routines read. -/
structure NET_PACKET_EXTENSION where
  Name : Nat
  Version : Nat
  Alignment : Nat
  ExtensionSize : Nat
deriving DecidableEq, Repr

/-- The fields of `NET_PACKET_EXTENSION_QUERY` that the routines read. -/
structure NET_PACKET_EXTENSION_QUERY where
  Name : Nat
  Version : Nat
deriving DecidableEq, Repr

/-- The fields of `NET_PACKET_EXTENSION_PRIVATE` that the routines write. -/
structure NET_PACKET_EXTENSION_PRIVATE where
  Name : Nat
  Size : Nat
  Version : Nat
  NonWdfStyleAlignment : Nat
deriving DecidableEq, Repr

/-- The value-initialised descriptor `NET_PACKET_EXTENSION_PRIVATE extensionPrivate = {}`. -/
def NET_PACKET_EXTENSION_PRIVATE.zero : NET_PACKET_EXTENSION_PRIVATE :=
  { Name := 0, Size := 0, Version := 0, NonWdfStyleAlignment := 0 }

/-- `NetTxQueueInitAddPacketExtension`: the private descriptor is filled from the
driver's and passed to `NxQueue::NetQueueInitAddPacketExtension`, whose status is
returned.  `Alignment + 1` is a `ULONG` sum. -/
def NetTxQueueInitAddPacketExtension {Context Status : Type}
    (NetQueueInitAddPacketExtension : Context → NET_PACKET_EXTENSION_PRIVATE → Status)
    (queueCreationContext : Context) (ExtensionToAdd : NET_PACKET_EXTENSION) : Status :=
  let extensionPrivate := NET_PACKET_EXTENSION_PRIVATE.zero
  let extensionPrivate := { extensionPrivate with Name := ExtensionToAdd.Name }
  let extensionPrivate := { extensionPrivate with Size := ExtensionToAdd.ExtensionSize }
  let extensionPrivate := { extensionPrivate with Version := ExtensionToAdd.Version }
  let extensionPrivate :=
    { extensionPrivate with NonWdfStyleAlignment := (ExtensionToAdd.Alignment + 1) % 2 ^ 32 }
  NetQueueInitAddPacketExtension queueCreationContext extensionPrivate

/-- `NetTxQueueGetPacketExtensionOffset`: a private descriptor with the name and the
version of the query is passed to the queue's `GetPacketExtensionOffset`, whose
result is returned. -/
def NetTxQueueGetPacketExtensionOffset {Queue : Type}
    (GetPacketExtensionOffset : Queue → NET_PACKET_EXTENSION_PRIVATE → Nat)
    (txQueue : Queue) (ExtensionToGet : NET_PACKET_EXTENSION_QUERY) : Nat :=
  let extensionPrivate := NET_PACKET_EXTENSION_PRIVATE.zero
  let extensionPrivate := { extensionPrivate with Name := ExtensionToGet.Name }
  let extensionPrivate := { extensionPrivate with Version := ExtensionToGet.Version }
  GetPacketExtensionOffset txQueue extensionPrivate

/-- `NetRxQueueInitAddPacketExtension`, written out as in the source. -/
def NetRxQueueInitAddPacketExtension {Context Status : Type}
    (NetQueueInitAddPacketExtension : Context → NET_PACKET_EXTENSION_PRIVATE → Status)
    (queueCreationContext : Context) (ExtensionToAdd : NET_PACKET_EXTENSION) : Status :=
  let extensionPrivate := NET_PACKET_EXTENSION_PRIVATE.zero
  let extensionPrivate := { extensionPrivate with Name := ExtensionToAdd.Name }
  let extensionPrivate := { extensionPrivate with Size := ExtensionToAdd.ExtensionSize }
  let extensionPrivate := { extensionPrivate with Version := ExtensionToAdd.Version }
  let extensionPrivate :=
    { extensionPrivate with NonWdfStyleAlignment := (ExtensionToAdd.Alignment + 1) % 2 ^ 32 }
  NetQueueInitAddPacketExtension queueCreationContext extensionPrivate

/-- `NetRxQueueGetPacketExtensionOffset`, written out as in the source. -/
def NetRxQueueGetPacketExtensionOffset {Queue : Type}
    (GetPacketExtensionOffset : Queue → NET_PACKET_EXTENSION_PRIVATE → Nat)
    (rxQueue : Queue) (ExtensionToGet : NET_PACKET_EXTENSION_QUERY) : Nat :=
  let extensionPrivate := NET_PACKET_EXTENSION_PRIVATE.zero
  let extensionPrivate := { extensionPrivate with Name := ExtensionToGet.Name }
  let extensionPrivate := { extensionPrivate with Version := ExtensionToGet.Version }
  GetPacketExtensionOffset rxQueue extensionPrivate

/-- The private descriptor of an added extension, in the words of the specification:
name and version copied, `Size` the extension size, `NonWdfStyleAlignment` the
alignment plus one modulo `2^32`. -/
def addedExtensionDescriptor (ext : NET_PACKET_EXTENSION) : NET_PACKET_EXTENSION_PRIVATE :=
  { Name := ext.Name, Size := ext.ExtensionSize, Version := ext.Version,
    NonWdfStyleAlignment := (ext.Alignment + 1) % 2 ^ 32 }

/-- The private descriptor of a query, in the words of the specification: only name
and version, the other two fields zero. -/
def queryExtensionDescriptor (query : NET_PACKET_EXTENSION_QUERY) :
    NET_PACKET_EXTENSION_PRIVATE :=
  { Name := query.Name, Size := 0, Version := query.Version, NonWdfStyleAlignment := 0 }

/-! ## Auxiliary lemmas -/

theorem UpdatePatternEntryEnabledField_eq (w : NxWake) (e : NX_NET_POWER_ENTRY) :
    NxWake.UpdatePatternEntryEnabledField w e =
      { e with Enabled := wakePatternEnabled w.m_PMParameters.EnabledWoLPacketPatterns
                  e.NdisWoLPattern.WoLPacketType } := by
  simp only [NxWake.UpdatePatternEntryEnabledField, wakePatternEnabled, wakePatternEnabledBit,
    enabledFor]
  split_ifs <;> simp_all

theorem UpdateProtocolOffloadEntryEnabledField_eq (w : NxWake) (e : NX_NET_POWER_ENTRY) :
    NxWake.UpdateProtocolOffloadEntryEnabledField w e =
      { e with Enabled := protocolOffloadEnabled w.m_PMParameters.EnabledProtocolOffloads
                  e.NdisProtocolOffload.ProtocolOffloadType } := by
  simp only [NxWake.UpdateProtocolOffloadEntryEnabledField, protocolOffloadEnabled,
    protocolOffloadEnabledBit, enabledFor]
  split_ifs <;> simp_all

theorem scan_none_iff (id : Nat) (t : NX_POWER_ENTRY_TYPE) (l : List NX_NET_POWER_ENTRY) :
    NxWake.RemovePowerEntryByID.scan id t l = none ↔
      ∀ e ∈ l, NxWake.GetPowerEntryID e t ≠ id := by
  induction l with
  | nil => simp [NxWake.RemovePowerEntryByID.scan]
  | cons a l ih =>
    simp only [NxWake.RemovePowerEntryByID.scan]
    by_cases h : NxWake.GetPowerEntryID a t = id
    · simp [h]
    · simp only [h, if_false, List.mem_cons, forall_eq_or_imp, ne_eq, not_false_eq_true,
        true_and]
      rw [← ih]
      cases NxWake.RemovePowerEntryByID.scan id t l with
      | none => simp
      | some p => simp

theorem scan_some (id : Nat) (t : NX_POWER_ENTRY_TYPE) (l : List NX_NET_POWER_ENTRY)
    (e : NX_NET_POWER_ENTRY) (rest : List NX_NET_POWER_ENTRY)
    (h : NxWake.RemovePowerEntryByID.scan id t l = some (e, rest)) :
    ∃ l1 l2, l = l1 ++ e :: l2 ∧ rest = l1 ++ l2 ∧ NxWake.GetPowerEntryID e t = id ∧
      ∀ x ∈ l1, NxWake.GetPowerEntryID x t ≠ id := by
  induction l generalizing rest with
  | nil => simp [NxWake.RemovePowerEntryByID.scan] at h
  | cons a l ih =>
    simp only [NxWake.RemovePowerEntryByID.scan] at h
    by_cases ha : NxWake.GetPowerEntryID a t = id
    · simp only [ha, if_true, Option.some.injEq, Prod.mk.injEq] at h
      obtain ⟨rfl, rfl⟩ := h
      exact ⟨[], l, by simp, by simp, ha, by simp⟩
    · simp only [ha, if_false] at h
      cases hs : NxWake.RemovePowerEntryByID.scan id t l with
      | none => simp [hs] at h
      | some p =>
        obtain ⟨found, rest1⟩ := p
        simp only [hs, Option.some.injEq, Prod.mk.injEq] at h
        obtain ⟨rfl, rfl⟩ := h
        obtain ⟨l1, l2, h1, h2, h3, h4⟩ := ih rest1 hs
        refine ⟨a :: l1, l2, by simp [h1], by simp [h2], h3, ?_⟩
        intro x hx
        rcases List.mem_cons.mp hx with rfl | hx
        · exact ha
        · exact h4 x hx

theorem decrease_increase (device : NxDevice)
    (h : device.m_wakePatternCount < device.m_wakePatternMax) :
    device.IncreaseWakePatternReference.2.DecreaseWakePatternReference = device := by
  simp [NxDevice.IncreaseWakePatternReference, NxDevice.DecreaseWakePatternReference, h]

theorem increase_of_lt (device : NxDevice)
    (h : device.m_wakePatternCount < device.m_wakePatternMax) :
    device.IncreaseWakePatternReference =
      (true, { device with m_wakePatternCount := device.m_wakePatternCount + 1 }) := by
  simp [NxDevice.IncreaseWakePatternReference, h]

theorem increase_of_not_lt (device : NxDevice)
    (h : ¬ device.m_wakePatternCount < device.m_wakePatternMax) :
    device.IncreaseWakePatternReference = (false, device) := by
  simp [NxDevice.IncreaseWakePatternReference, h]

theorem AddWakePattern_full (L : Layout) (cb : Option EVT_PREVIEW_WAKE_PATTERN) (a : Bool)
    (w : NxWake) (device : NxDevice) (p : NDIS_PM_WOL_PATTERN) (n : Nat)
    (h : ¬ device.m_wakePatternCount < device.m_wakePatternMax) :
    NxWake.AddWakePattern L cb a w device p n =
      { status := NDIS_STATUS_PM_WOL_PATTERN_LIST_FULL, wake := w, device := device,
        preview := none } := by
  simp [NxWake.AddWakePattern, increase_of_not_lt device h]

theorem AddWakePattern_create_none (L : Layout) (cb : Option EVT_PREVIEW_WAKE_PATTERN)
    (a : Bool) (w : NxWake) (device : NxDevice) (p : NDIS_PM_WOL_PATTERN) (n : Nat)
    (h : device.m_wakePatternCount < device.m_wakePatternMax)
    (hc : NxWake.CreateWakePatternEntry L a p n = none) :
    NxWake.AddWakePattern L cb a w device p n =
      { status := NDIS_STATUS_RESOURCES, wake := w, device := device, preview := none } := by
  have hd := decrease_increase device h
  simp only [increase_of_lt device h] at hd
  simp [NxWake.AddWakePattern, increase_of_lt device h, hc, hd]

theorem AddWakePattern_no_callback (L : Layout) (a : Bool) (w : NxWake) (device : NxDevice)
    (p : NDIS_PM_WOL_PATTERN) (n : Nat) (e : NX_NET_POWER_ENTRY)
    (h : device.m_wakePatternCount < device.m_wakePatternMax)
    (hc : NxWake.CreateWakePatternEntry L a p n = some e) :
    NxWake.AddWakePattern L none a w device p n =
      { status := NDIS_STATUS_SUCCESS
        wake := NxWake.AddWakePatternEntryToList w (NxWake.UpdatePatternEntryEnabledField w e)
        device := { device with m_wakePatternCount := device.m_wakePatternCount + 1 }
        preview := none } := by
  simp [NxWake.AddWakePattern, increase_of_lt device h, hc]

theorem AddWakePattern_callback (L : Layout) (f : EVT_PREVIEW_WAKE_PATTERN) (a : Bool)
    (w : NxWake) (device : NxDevice) (p : NDIS_PM_WOL_PATTERN) (n : Nat)
    (e : NX_NET_POWER_ENTRY)
    (h : device.m_wakePatternCount < device.m_wakePatternMax)
    (hc : NxWake.CreateWakePatternEntry L a p n = some e) :
    NxWake.AddWakePattern L (some f) a w device p n =
      if f { device with m_wakePatternCount := device.m_wakePatternCount + 1 }
          { w with m_DriverCanAccessWakeSettings := true }
          (NxWake.UpdatePatternEntryEnabledField w e).NdisWoLPattern.WoLPacketType
          (NxWake.UpdatePatternEntryEnabledField w e).NdisWoLPattern =
            STATUS_NDIS_PM_WOL_PATTERN_LIST_FULL then
        { status := NDIS_STATUS_PM_WOL_PATTERN_LIST_FULL
          wake := { w with m_DriverCanAccessWakeSettings := false }
          device := device
          preview := some ({ device with m_wakePatternCount := device.m_wakePatternCount + 1 },
            { w with m_DriverCanAccessWakeSettings := true }) }
      else
        { status := NDIS_STATUS_SUCCESS
          wake := NxWake.AddWakePatternEntryToList
            { w with m_DriverCanAccessWakeSettings := false }
            (NxWake.UpdatePatternEntryEnabledField w e)
          device := { device with m_wakePatternCount := device.m_wakePatternCount + 1 }
          preview := some ({ device with m_wakePatternCount := device.m_wakePatternCount + 1 },
            { w with m_DriverCanAccessWakeSettings := true }) } := by
  have hd := decrease_increase device h
  simp only [increase_of_lt device h] at hd
  simp only [NxWake.AddWakePattern, increase_of_lt device h, hc, hd]
  simp

theorem CreateWakePatternEntry_fields (L : Layout) (a : Bool) (p : NDIS_PM_WOL_PATTERN)
    (n : Nat) (e : NX_NET_POWER_ENTRY) (h : NxWake.CreateWakePatternEntry L a p n = some e) :
    e.Enabled = false ∧ e.NdisWoLPattern.WoLPacketType = p.WoLPacketType ∧
      e.NdisWoLPattern.PatternId = p.PatternId ∧
      e.NdisWoLPattern.bytes =
        p.bytes.take (L.sizeofWolPattern + NxWake.CreateWakePatternEntry.patternPayloadSize L p) ∧
      e.Size = L.sizeofEntry + NxWake.CreateWakePatternEntry.patternPayloadSize L p ∧
      NxWake.CreateWakePatternEntry.patternPayloadSize L p + L.sizeofWolPattern ≤ n ∧
      a = true := by
  unfold NxWake.CreateWakePatternEntry at h
  simp only [RtlULongAdd] at h
  split_ifs at h with h1 h2 h3
  simp only [Option.some.injEq] at h
  subst h
  exact ⟨rfl, rfl, rfl, rfl, rfl, by omega, by simpa using h3⟩

theorem inv_initial (C : Nat) (b : Bool) : RegistryInv C (World.initial C b) := by
  constructor <;> simp [World.initial, NxWake.new]

theorem inv_addWakePattern (L : Layout) (C : Nat) (s : World)
    (cb : Option EVT_PREVIEW_WAKE_PATTERN) (a : Bool) (p : NDIS_PM_WOL_PATTERN) (n : Nat)
    (hI : RegistryInv C s) :
    RegistryInv C
      { wake := (NxWake.AddWakePattern L cb a s.wake s.device p n).wake
        device := (NxWake.AddWakePattern L cb a s.wake s.device p n).device } := by
  obtain ⟨h1, h2, h3, h4, h5, h6, h7, h8⟩ := hI
  by_cases hlt : s.device.m_wakePatternCount < s.device.m_wakePatternMax
  · cases hc : NxWake.CreateWakePatternEntry L a p n with
    | none =>
      rw [AddWakePattern_create_none L cb a s.wake s.device p n hlt hc]
      exact ⟨h1, h2, h3, h4, h5, h6, h7, h8⟩
    | some e =>
      have hlen : s.wake.m_WakeListHead.length + 1 ≤ C := by
        rw [h2, h1] at hlt; omega
      have hen : ∀ x ∈ NxWake.UpdatePatternEntryEnabledField s.wake e :: s.wake.m_WakeListHead,
          x.Enabled = wakePatternEnabled s.wake.m_PMParameters.EnabledWoLPacketPatterns
            x.NdisWoLPattern.WoLPacketType := by
        intro x hx
        rcases List.mem_cons.mp hx with rfl | hx
        · rw [UpdatePatternEntryEnabledField_eq]
        · exact h7 x hx
      cases cb with
      | none =>
        rw [AddWakePattern_no_callback L a s.wake s.device p n e hlt hc]
        exact ⟨h1, by simp [NxWake.AddWakePatternEntryToList, h2],
          by simpa [NxWake.AddWakePatternEntryToList] using hlen, h4,
          by simp [NxWake.AddWakePatternEntryToList, h5], h6, hen, h8⟩
      | some f =>
        rw [AddWakePattern_callback L f a s.wake s.device p n e hlt hc]
        split_ifs
        · exact ⟨h1, h2, h3, rfl, h5, h6, h7, h8⟩
        · exact ⟨h1, by simp [NxWake.AddWakePatternEntryToList, h2],
            by simpa [NxWake.AddWakePatternEntryToList] using hlen, rfl,
            by simp [NxWake.AddWakePatternEntryToList, h5], h6, hen, h8⟩
  · rw [AddWakePattern_full L cb a s.wake s.device p n hlt]
    exact ⟨h1, h2, h3, h4, h5, h6, h7, h8⟩

theorem CreateProtocolOffloadEntry_fields (L : Layout) (a : Bool)
    (p : NDIS_PM_PROTOCOL_OFFLOAD) (n : Nat) (e : NX_NET_POWER_ENTRY)
    (h : NxWake.CreateProtocolOffloadEntry L a p n = some e) :
    e.Enabled = false ∧ e.NdisProtocolOffload.ProtocolOffloadType = p.ProtocolOffloadType ∧
      e.NdisProtocolOffload.ProtocolOffloadId = p.ProtocolOffloadId ∧
      e.NdisProtocolOffload.bytes = p.bytes.take L.sizeofProtocolOffload ∧
      e.Size = L.sizeofEntry + L.sizeofProtocolOffload ∧
      L.sizeofProtocolOffload ≤ n ∧ a = true := by
  unfold NxWake.CreateProtocolOffloadEntry at h
  simp only [RtlULongAdd] at h
  split_ifs at h with h1 h2 h3
  simp only [Option.some.injEq] at h
  subst h
  exact ⟨rfl, rfl, rfl, rfl, rfl, by omega, by simpa using h3⟩

theorem AddProtocolOffload_create_none (L : Layout)
    (cb : Option EVT_PREVIEW_PROTOCOL_OFFLOAD) (a : Bool) (w : NxWake) (device : NxDevice)
    (p : NDIS_PM_PROTOCOL_OFFLOAD) (n : Nat)
    (hc : NxWake.CreateProtocolOffloadEntry L a p n = none) :
    NxWake.AddProtocolOffload L cb a w device p n =
      { status := NDIS_STATUS_RESOURCES, wake := w, device := device, preview := none } := by
  simp [NxWake.AddProtocolOffload, hc]

theorem AddProtocolOffload_no_callback (L : Layout) (a : Bool) (w : NxWake)
    (device : NxDevice) (p : NDIS_PM_PROTOCOL_OFFLOAD) (n : Nat) (e : NX_NET_POWER_ENTRY)
    (hc : NxWake.CreateProtocolOffloadEntry L a p n = some e) :
    NxWake.AddProtocolOffload L none a w device p n =
      { status := NDIS_STATUS_SUCCESS
        wake :=
          { w with
            m_ProtocolOffloadListCount := w.m_ProtocolOffloadListCount + 1
            m_ProtocolOffloadListHead :=
              NxWake.UpdateProtocolOffloadEntryEnabledField w e :: w.m_ProtocolOffloadListHead }
        device := device
        preview := none } := by
  simp [NxWake.AddProtocolOffload, hc]

theorem AddProtocolOffload_callback (L : Layout) (f : EVT_PREVIEW_PROTOCOL_OFFLOAD) (a : Bool)
    (w : NxWake) (device : NxDevice) (p : NDIS_PM_PROTOCOL_OFFLOAD) (n : Nat)
    (e : NX_NET_POWER_ENTRY)
    (hc : NxWake.CreateProtocolOffloadEntry L a p n = some e) :
    NxWake.AddProtocolOffload L (some f) a w device p n =
      if f device { w with m_DriverCanAccessWakeSettings := true }
          (NxWake.UpdateProtocolOffloadEntryEnabledField w e).NdisProtocolOffload.ProtocolOffloadType
          (NxWake.UpdateProtocolOffloadEntryEnabledField w e).NdisProtocolOffload =
            STATUS_NDIS_PM_PROTOCOL_OFFLOAD_LIST_FULL then
        { status := NDIS_STATUS_PM_PROTOCOL_OFFLOAD_LIST_FULL
          wake := { w with m_DriverCanAccessWakeSettings := false }
          device := device
          preview := some (device, { w with m_DriverCanAccessWakeSettings := true }) }
      else
        { status := NDIS_STATUS_SUCCESS
          wake :=
            { w with
              m_DriverCanAccessWakeSettings := false
              m_ProtocolOffloadListCount := w.m_ProtocolOffloadListCount + 1
              m_ProtocolOffloadListHead :=
                NxWake.UpdateProtocolOffloadEntryEnabledField w e ::
                  w.m_ProtocolOffloadListHead }
          device := device
          preview := some (device, { w with m_DriverCanAccessWakeSettings := true }) } := by
  simp only [NxWake.AddProtocolOffload, hc]

theorem inv_addProtocolOffload (L : Layout) (C : Nat) (s : World)
    (cb : Option EVT_PREVIEW_PROTOCOL_OFFLOAD) (a : Bool) (p : NDIS_PM_PROTOCOL_OFFLOAD)
    (n : Nat) (hI : RegistryInv C s) :
    RegistryInv C
      { wake := (NxWake.AddProtocolOffload L cb a s.wake s.device p n).wake
        device := (NxWake.AddProtocolOffload L cb a s.wake s.device p n).device } := by
  obtain ⟨h1, h2, h3, h4, h5, h6, h7, h8⟩ := hI
  cases hc : NxWake.CreateProtocolOffloadEntry L a p n with
  | none =>
    rw [AddProtocolOffload_create_none L cb a s.wake s.device p n hc]
    exact ⟨h1, h2, h3, h4, h5, h6, h7, h8⟩
  | some e =>
    have hen : ∀ x ∈ NxWake.UpdateProtocolOffloadEntryEnabledField s.wake e ::
          s.wake.m_ProtocolOffloadListHead,
        x.Enabled = protocolOffloadEnabled s.wake.m_PMParameters.EnabledProtocolOffloads
          x.NdisProtocolOffload.ProtocolOffloadType := by
      intro x hx
      rcases List.mem_cons.mp hx with rfl | hx
      · rw [UpdateProtocolOffloadEntryEnabledField_eq]
      · exact h8 x hx
    cases cb with
    | none =>
      rw [AddProtocolOffload_no_callback L a s.wake s.device p n e hc]
      exact ⟨h1, h2, h3, h4, h5, by simp [h6], h7, hen⟩
    | some f =>
      rw [AddProtocolOffload_callback L f a s.wake s.device p n e hc]
      split_ifs
      · exact ⟨h1, h2, h3, rfl, h5, h6, h7, h8⟩
      · exact ⟨h1, h2, h3, rfl, h5, by simp [h6], h7, hen⟩

theorem RemoveWakePattern_eq_some (w : NxWake) (device : NxDevice) (id : Nat)
    (r : Nat × NxWake × NxDevice) (h : NxWake.RemoveWakePattern w device id = some r) :
    ∃ e l1 l2, w.m_WakeListHead = l1 ++ e :: l2 ∧ e.NdisWoLPattern.PatternId = id ∧
      (∀ x ∈ l1, x.NdisWoLPattern.PatternId ≠ id) ∧
      r = (NDIS_STATUS_SUCCESS,
        { w with m_WakeListCount := w.m_WakeListCount - 1, m_WakeListHead := l1 ++ l2 },
        device.DecreaseWakePatternReference) := by
  unfold NxWake.RemoveWakePattern NxWake.RemovePowerEntryByID at h
  cases hs : NxWake.RemovePowerEntryByID.scan id .NxPowerEntryTypeWakePattern
      w.m_WakeListHead with
  | none => simp [hs] at h
  | some q =>
    obtain ⟨e, rest⟩ := q
    simp only [hs, Option.some.injEq] at h
    obtain ⟨l1, l2, h1, h2, h3, h4⟩ := scan_some _ _ _ _ _ hs
    exact ⟨e, l1, l2, h1, h3, h4, by rw [← h, h2]⟩

theorem RemoveWakePattern_eq_none_iff (w : NxWake) (device : NxDevice) (id : Nat) :
    NxWake.RemoveWakePattern w device id = none ↔
      ∀ e ∈ w.m_WakeListHead, e.NdisWoLPattern.PatternId ≠ id := by
  have hs := scan_none_iff id .NxPowerEntryTypeWakePattern w.m_WakeListHead
  simp only [NxWake.GetPowerEntryID] at hs
  rw [← hs]
  unfold NxWake.RemoveWakePattern NxWake.RemovePowerEntryByID
  cases NxWake.RemovePowerEntryByID.scan id .NxPowerEntryTypeWakePattern
      w.m_WakeListHead with
  | none => simp
  | some q => simp

theorem RemoveProtocolOffload_eq_some (w : NxWake) (device : NxDevice) (id : Nat)
    (r : Nat × NxWake × NxDevice) (h : NxWake.RemoveProtocolOffload w device id = some r) :
    ∃ e l1 l2, w.m_ProtocolOffloadListHead = l1 ++ e :: l2 ∧
      e.NdisProtocolOffload.ProtocolOffloadId = id ∧
      (∀ x ∈ l1, x.NdisProtocolOffload.ProtocolOffloadId ≠ id) ∧
      r = (NDIS_STATUS_SUCCESS,
        { w with
          m_ProtocolOffloadListCount := w.m_ProtocolOffloadListCount - 1
          m_ProtocolOffloadListHead := l1 ++ l2 },
        device) := by
  unfold NxWake.RemoveProtocolOffload NxWake.RemovePowerEntryByID at h
  cases hs : NxWake.RemovePowerEntryByID.scan id .NxPowerEntryTypeProtocolOffload
      w.m_ProtocolOffloadListHead with
  | none => simp [hs] at h
  | some q =>
    obtain ⟨e, rest⟩ := q
    simp only [hs, Option.some.injEq] at h
    obtain ⟨l1, l2, h1, h2, h3, h4⟩ := scan_some _ _ _ _ _ hs
    exact ⟨e, l1, l2, h1, h3, h4, by rw [← h, h2]⟩

theorem RemoveProtocolOffload_eq_none_iff (w : NxWake) (device : NxDevice) (id : Nat) :
    NxWake.RemoveProtocolOffload w device id = none ↔
      ∀ e ∈ w.m_ProtocolOffloadListHead, e.NdisProtocolOffload.ProtocolOffloadId ≠ id := by
  have hs := scan_none_iff id .NxPowerEntryTypeProtocolOffload w.m_ProtocolOffloadListHead
  simp only [NxWake.GetPowerEntryID] at hs
  rw [← hs]
  unfold NxWake.RemoveProtocolOffload NxWake.RemovePowerEntryByID
  cases NxWake.RemovePowerEntryByID.scan id .NxPowerEntryTypeProtocolOffload
      w.m_ProtocolOffloadListHead with
  | none => simp
  | some q => simp

theorem SetParameters_eq (w : NxWake) (p : NDIS_PM_PARAMETERS) :
    NxWake.SetParameters w p =
      (NDIS_STATUS_SUCCESS,
        { w with
          m_PMParameters := p
          m_WakeListHead :=
            if w.m_PMParameters.EnabledWoLPacketPatterns = p.EnabledWoLPacketPatterns then
              w.m_WakeListHead
            else
              w.m_WakeListHead.map fun e =>
                { e with Enabled := wakePatternEnabled p.EnabledWoLPacketPatterns
                            e.NdisWoLPattern.WoLPacketType }
          m_ProtocolOffloadListHead :=
            if w.m_PMParameters.EnabledProtocolOffloads = p.EnabledProtocolOffloads then
              w.m_ProtocolOffloadListHead
            else
              w.m_ProtocolOffloadListHead.map fun e =>
                { e with Enabled := protocolOffloadEnabled p.EnabledProtocolOffloads
                            e.NdisProtocolOffload.ProtocolOffloadType } }) := by
  unfold NxWake.SetParameters
  by_cases h1 : w.m_PMParameters.EnabledWoLPacketPatterns = p.EnabledWoLPacketPatterns <;>
  by_cases h2 : w.m_PMParameters.EnabledProtocolOffloads = p.EnabledProtocolOffloads <;>
  simp [h1, h2, UpdatePatternEntryEnabledField_eq, UpdateProtocolOffloadEntryEnabledField_eq]

theorem inv_step (L : Layout) (C : Nat) (s s1 : World) (op : Op) (hI : RegistryInv C s)
    (h : step L s op = some s1) : RegistryInv C s1 := by
  cases op with
  | addWakePattern cb a p n =>
    simp only [step, Option.some.injEq] at h
    subst h
    exact inv_addWakePattern L C s cb a p n hI
  | addProtocolOffload cb a p n =>
    simp only [step, Option.some.injEq] at h
    subst h
    exact inv_addProtocolOffload L C s cb a p n hI
  | removeWakePattern id =>
    simp only [step] at h
    cases hr : NxWake.RemoveWakePattern s.wake s.device id with
    | none => simp [hr] at h
    | some r =>
      obtain ⟨e, l1, l2, hl, _, _, rfl⟩ := RemoveWakePattern_eq_some _ _ _ _ hr
      simp only [hr, Option.some.injEq] at h
      subst h
      obtain ⟨h1, h2, h3, h4, h5, h6, h7, h8⟩ := hI
      rw [hl] at h2 h3 h5 h7
      simp only [List.length_append, List.length_cons] at h2 h3 h5
      refine ⟨h1, ?_, ?_, h4, ?_, h6, ?_, h8⟩
      · simp only [NxDevice.DecreaseWakePatternReference, List.length_append, h2]
        push_cast
        omega
      · simp only [List.length_append]
        omega
      · simp only [List.length_append, h5]
        omega
      · intro x hx
        apply h7 x
        simp only [List.mem_append, List.mem_cons] at hx ⊢
        tauto
  | removeProtocolOffload id =>
    simp only [step] at h
    cases hr : NxWake.RemoveProtocolOffload s.wake s.device id with
    | none => simp [hr] at h
    | some r =>
      obtain ⟨e, l1, l2, hl, _, _, rfl⟩ := RemoveProtocolOffload_eq_some _ _ _ _ hr
      simp only [hr, Option.some.injEq] at h
      subst h
      obtain ⟨h1, h2, h3, h4, h5, h6, h7, h8⟩ := hI
      rw [hl] at h6 h8
      simp only [List.length_append, List.length_cons] at h6
      refine ⟨h1, h2, h3, h4, h5, ?_, h7, ?_⟩
      · simp only [List.length_append, h6]
        omega
      · intro x hx
        apply h8 x
        simp only [List.mem_append, List.mem_cons] at hx ⊢
        tauto
  | setParameters p =>
    simp only [step, Option.some.injEq] at h
    subst h
    obtain ⟨h1, h2, h3, h4, h5, h6, h7, h8⟩ := hI
    rw [SetParameters_eq]
    refine ⟨h1, ?_, ?_, h4, ?_, ?_, ?_, ?_⟩
    · simp only
      split_ifs <;> simp [h2]
    · simp only
      split_ifs <;> simp [h3]
    · simp only
      split_ifs <;> simp [h5]
    · simp only
      split_ifs <;> simp [h6]
    · intro x hx
      simp only at hx ⊢
      split_ifs at hx with hm
      · rw [← hm]
        exact h7 x hx
      · obtain ⟨y, _, rfl⟩ := List.mem_map.mp hx
        rfl
    · intro x hx
      simp only at hx ⊢
      split_ifs at hx with hm
      · rw [← hm]
        exact h8 x hx
      · obtain ⟨y, _, rfl⟩ := List.mem_map.mp hx
        rfl
  | adapterInitComplete =>
    simp only [step, Option.some.injEq] at h
    subst h
    obtain ⟨h1, h2, h3, h4, h5, h6, h7, h8⟩ := hI
    exact ⟨h1, h2, h3, h4, h5, h6, h7, h8⟩
  | powerTransition b =>
    simp only [step, Option.some.injEq] at h
    subst h
    obtain ⟨h1, h2, h3, h4, h5, h6, h7, h8⟩ := hI
    exact ⟨h1, h2, h3, h4, h5, h6, h7, h8⟩

theorem inv_run (L : Layout) (C : Nat) (ops : List Op) (s s1 : World) (hI : RegistryInv C s)
    (h : run L s ops = some s1) : RegistryInv C s1 := by
  induction ops generalizing s with
  | nil =>
    simp only [run, Option.some.injEq] at h
    subst h
    exact hI
  | cons op ops ih =>
    simp only [run] at h
    cases hs : step L s op with
    | none => simp [hs] at h
    | some s2 =>
      simp only [hs] at h
      exact ih s2 (inv_step L C s s2 op hI hs) h

theorem inv_reachable (L : Layout) (C : Nat) (s : World) (h : Reachable L C s) :
    RegistryInv C s := by
  obtain ⟨b, ops, hr⟩ := h
  exact inv_run L C ops _ s (inv_initial C b) hr

/-- The only calls without a successor state are removals of an identifier that is in
no record of the list concerned. -/
theorem step_eq_none_iff (L : Layout) (s : World) (op : Op) :
    step L s op = none ↔
      (∃ id, op = .removeWakePattern id ∧
        ∀ e ∈ s.wake.m_WakeListHead, e.NdisWoLPattern.PatternId ≠ id) ∨
      (∃ id, op = .removeProtocolOffload id ∧
        ∀ e ∈ s.wake.m_ProtocolOffloadListHead,
          e.NdisProtocolOffload.ProtocolOffloadId ≠ id) := by
  cases op with
  | removeWakePattern id =>
    simp only [step, Op.removeWakePattern.injEq, exists_eq_left', reduceCtorEq, false_and,
      exists_false, or_false]
    rw [← RemoveWakePattern_eq_none_iff s.wake s.device id]
    cases NxWake.RemoveWakePattern s.wake s.device id <;> simp
  | removeProtocolOffload id =>
    simp only [step, Op.removeProtocolOffload.injEq, exists_eq_left', reduceCtorEq,
      false_and, exists_false, false_or]
    rw [← RemoveProtocolOffload_eq_none_iff s.wake s.device id]
    cases NxWake.RemoveProtocolOffload s.wake s.device id <;> simp
  | _ => simp [step]

theorem run_take (L : Layout) (ops : List Op) (s s1 : World) (k : Nat)
    (h : run L s ops = some s1) : ∃ s2, run L s (ops.take k) = some s2 := by
  induction ops generalizing s k with
  | nil => exact ⟨s, by simp [run]⟩
  | cons op ops ih =>
    cases k with
    | zero => exact ⟨s, by simp [run]⟩
    | succ k =>
      simp only [run] at h
      cases hs : step L s op with
      | none => simp [hs] at h
      | some s3 =>
        simp only [hs] at h
        obtain ⟨s2, h2⟩ := ih s3 k h
        exact ⟨s2, by simp [run, hs, h2]⟩

set_option maxRecDepth 20000 in
theorem sampleCalls_run :
    run sampleLayout (World.initial 2 false) sampleCalls = some sampleFinal := by
  decide

theorem wol_list_full_ne_success :
    NDIS_STATUS_PM_WOL_PATTERN_LIST_FULL ≠ NDIS_STATUS_SUCCESS := by decide

theorem offload_list_full_ne_success :
    NDIS_STATUS_PM_PROTOCOL_OFFLOAD_LIST_FULL ≠ NDIS_STATUS_SUCCESS := by decide

theorem AddWakePattern_object_callbacks (L : Layout) (cb : Option EVT_PREVIEW_WAKE_PATTERN)
    (a : Bool) (w : NxWake) (device : NxDevice) (p : NDIS_PM_WOL_PATTERN) (n : Nat) :
    (NxWake.AddWakePattern L cb a w device p n).wake.m_DriverObjectCallbacksEnabled =
        w.m_DriverObjectCallbacksEnabled ∧
      (NxWake.AddWakePattern L cb a w device p n).wake.m_EvtCleanupCallback =
        w.m_EvtCleanupCallback ∧
      (NxWake.AddWakePattern L cb a w device p n).wake.m_EvtDestroyCallback =
        w.m_EvtDestroyCallback := by
  by_cases hlt : device.m_wakePatternCount < device.m_wakePatternMax
  · cases hc : NxWake.CreateWakePatternEntry L a p n with
    | none =>
      rw [AddWakePattern_create_none L cb a w device p n hlt hc]
      exact ⟨rfl, rfl, rfl⟩
    | some e =>
      cases cb with
      | none =>
        rw [AddWakePattern_no_callback L a w device p n e hlt hc]
        exact ⟨rfl, rfl, rfl⟩
      | some f =>
        rw [AddWakePattern_callback L f a w device p n e hlt hc]
        split_ifs <;> exact ⟨rfl, rfl, rfl⟩
  · rw [AddWakePattern_full L cb a w device p n hlt]
    exact ⟨rfl, rfl, rfl⟩

theorem AddProtocolOffload_object_callbacks (L : Layout)
    (cb : Option EVT_PREVIEW_PROTOCOL_OFFLOAD) (a : Bool) (w : NxWake) (device : NxDevice)
    (p : NDIS_PM_PROTOCOL_OFFLOAD) (n : Nat) :
    (NxWake.AddProtocolOffload L cb a w device p n).wake.m_DriverObjectCallbacksEnabled =
        w.m_DriverObjectCallbacksEnabled ∧
      (NxWake.AddProtocolOffload L cb a w device p n).wake.m_EvtCleanupCallback =
        w.m_EvtCleanupCallback ∧
      (NxWake.AddProtocolOffload L cb a w device p n).wake.m_EvtDestroyCallback =
        w.m_EvtDestroyCallback := by
  cases hc : NxWake.CreateProtocolOffloadEntry L a p n with
  | none =>
    rw [AddProtocolOffload_create_none L cb a w device p n hc]
    exact ⟨rfl, rfl, rfl⟩
  | some e =>
    cases cb with
    | none =>
      rw [AddProtocolOffload_no_callback L a w device p n e hc]
      exact ⟨rfl, rfl, rfl⟩
    | some f =>
      rw [AddProtocolOffload_callback L f a w device p n e hc]
      split_ifs <;> exact ⟨rfl, rfl, rfl⟩

/-- A call changes `m_DriverObjectCallbacksEnabled` only by setting it, and only when
the call is `AdapterInitComplete`; it never changes the stored object callbacks. -/
theorem step_object_callbacks (L : Layout) (s s1 : World) (op : Op)
    (h : step L s op = some s1) :
    s1.wake.m_DriverObjectCallbacksEnabled =
        (s.wake.m_DriverObjectCallbacksEnabled || op.isAdapterInitComplete) ∧
      s1.wake.m_EvtCleanupCallback = s.wake.m_EvtCleanupCallback ∧
      s1.wake.m_EvtDestroyCallback = s.wake.m_EvtDestroyCallback := by
  cases op with
  | addWakePattern cb a p n =>
    simp only [step, Option.some.injEq] at h
    subst h
    simpa [Op.isAdapterInitComplete] using
      AddWakePattern_object_callbacks L cb a s.wake s.device p n
  | addProtocolOffload cb a p n =>
    simp only [step, Option.some.injEq] at h
    subst h
    simpa [Op.isAdapterInitComplete] using
      AddProtocolOffload_object_callbacks L cb a s.wake s.device p n
  | removeWakePattern id =>
    simp only [step] at h
    cases hr : NxWake.RemoveWakePattern s.wake s.device id with
    | none => simp [hr] at h
    | some r =>
      obtain ⟨e, l1, l2, _, _, _, rfl⟩ := RemoveWakePattern_eq_some _ _ _ _ hr
      simp only [hr, Option.some.injEq] at h
      subst h
      simp [Op.isAdapterInitComplete]
  | removeProtocolOffload id =>
    simp only [step] at h
    cases hr : NxWake.RemoveProtocolOffload s.wake s.device id with
    | none => simp [hr] at h
    | some r =>
      obtain ⟨e, l1, l2, _, _, _, rfl⟩ := RemoveProtocolOffload_eq_some _ _ _ _ hr
      simp only [hr, Option.some.injEq] at h
      subst h
      simp [Op.isAdapterInitComplete]
  | setParameters p =>
    simp only [step, Option.some.injEq] at h
    subst h
    rw [SetParameters_eq]
    simp [Op.isAdapterInitComplete]
  | adapterInitComplete =>
    simp only [step, Option.some.injEq] at h
    subst h
    simp [Op.isAdapterInitComplete, NxWake.AdapterInitComplete]
  | powerTransition b =>
    simp only [step, Option.some.injEq] at h
    subst h
    simp [Op.isAdapterInitComplete]

theorem run_object_callbacks (L : Layout) (ops : List Op) (s s1 : World)
    (h : run L s ops = some s1) :
    s1.wake.m_DriverObjectCallbacksEnabled =
        (s.wake.m_DriverObjectCallbacksEnabled || ops.any Op.isAdapterInitComplete) ∧
      s1.wake.m_EvtCleanupCallback = s.wake.m_EvtCleanupCallback ∧
      s1.wake.m_EvtDestroyCallback = s.wake.m_EvtDestroyCallback := by
  induction ops generalizing s with
  | nil =>
    simp only [run, Option.some.injEq] at h
    subst h
    simp
  | cons op ops ih =>
    simp only [run] at h
    cases hs : step L s op with
    | none => simp [hs] at h
    | some s2 =>
      simp only [hs] at h
      obtain ⟨h1, h2, h3⟩ := step_object_callbacks L s s2 op hs
      obtain ⟨h4, h5, h6⟩ := ih s2 h
      refine ⟨?_, h5.trans h2, h6.trans h3⟩
      rw [h4, h1, List.any_cons, Bool.or_assoc]

theorem any_isAdapterInitComplete (ops : List Op) :
    ops.any Op.isAdapterInitComplete = true ↔ Op.adapterInitComplete ∈ ops := by
  rw [List.any_eq_true]
  constructor
  · rintro ⟨x, hx, hxa⟩
    cases x <;> simp_all [Op.isAdapterInitComplete]
  · intro h
    exact ⟨_, h, rfl⟩

theorem GetWakePatternCountForType_loop_eq (t c : Nat) (l : List NX_NET_POWER_ENTRY) :
    NxWake.GetWakePatternCountForType.loop t c l =
      c + l.countP (fun e => e.NdisWoLPattern.WoLPacketType = t) := by
  induction l generalizing c with
  | nil => simp [NxWake.GetWakePatternCountForType.loop]
  | cons a l ih =>
    by_cases h : a.NdisWoLPattern.WoLPacketType = t
    · simp only [NxWake.GetWakePatternCountForType.loop, List.countP_cons, h, if_true, decide_True, ih]
      omega
    · simp only [NxWake.GetWakePatternCountForType.loop, List.countP_cons, h, if_false, decide_False, ih]
      simp

theorem GetProtocolOffloadCountForType_loop_eq (t c : Nat) (l : List NX_NET_POWER_ENTRY) :
    NxWake.GetProtocolOffloadCountForType.loop t c l =
      c + l.countP (fun e => e.NdisProtocolOffload.ProtocolOffloadType = t) := by
  induction l generalizing c with
  | nil => simp [NxWake.GetProtocolOffloadCountForType.loop]
  | cons a l ih =>
    by_cases h : a.NdisProtocolOffload.ProtocolOffloadType = t
    · simp only [NxWake.GetProtocolOffloadCountForType.loop, List.countP_cons, h, if_true, decide_True, ih]
      omega
    · simp only [NxWake.GetProtocolOffloadCountForType.loop, List.countP_cons, h, if_false, decide_False, ih]
      simp

/-- Counting the elements of a list by the value of a key, over a finite set of values
that contains every key of the list, counts every element once. -/
theorem sum_countP_eq_length (key : NX_NET_POWER_ENTRY → Nat) (T : Finset Nat)
    (l : List NX_NET_POWER_ENTRY) (h : ∀ e ∈ l, key e ∈ T) :
    (Finset.sum T fun t => l.countP (fun e => key e = t)) = l.length := by
  induction l with
  | nil => simp
  | cons a l ih =>
    have hl : ∀ e ∈ l, key e ∈ T := fun e he => h e (List.mem_cons_of_mem _ he)
    have ha : key a ∈ T := h a (List.mem_cons_self _ _)
    simp only [List.countP_cons, Finset.sum_add_distrib, ih hl, List.length_cons]
    congr 1
    simp [Finset.sum_ite_eq, ha]

theorem map_enabled_eq_self (l : List NX_NET_POWER_ENTRY) (f : NX_NET_POWER_ENTRY → Bool)
    (h : ∀ e ∈ l, e.Enabled = f e) :
    (l.map fun e => { e with Enabled := f e }) = l := by
  induction l with
  | nil => rfl
  | cons a l ih =>
    have ha := h a (List.mem_cons_self _ _)
    have hl := ih fun e he => h e (List.mem_cons_of_mem _ he)
    simp only [List.map_cons, hl, ← ha]

theorem GetEntryAtIndex_loop_shift (Index i : Nat) (l : List NX_NET_POWER_ENTRY) :
    NxWake.GetEntryAtIndex.loop (Index + 1) (i + 1) l = NxWake.GetEntryAtIndex.loop Index i l := by
  induction l generalizing i with
  | nil => simp [NxWake.GetEntryAtIndex.loop]
  | cons a l ih =>
    simp only [NxWake.GetEntryAtIndex.loop]
    by_cases h : i = Index
    · simp [h]
    · have h1 : i + 1 ≠ Index + 1 := by omega
      simp only [ne_eq, h, h1, not_false_eq_true, if_true]
      exact ih (i + 1)

theorem GetEntryAtIndex_loop_zero (Index : Nat) (l : List NX_NET_POWER_ENTRY) :
    NxWake.GetEntryAtIndex.loop Index 0 l = l[Index]? := by
  induction l generalizing Index with
  | nil => simp [NxWake.GetEntryAtIndex.loop]
  | cons a l ih =>
    cases Index with
    | zero => simp [NxWake.GetEntryAtIndex.loop]
    | succ k =>
      simp only [NxWake.GetEntryAtIndex.loop, ne_eq, Nat.zero_ne_add_one, not_false_eq_true,
        if_true, Nat.zero_add, List.getElem?_cons_succ]
      rw [← ih k]
      exact GetEntryAtIndex_loop_shift k 0 l

theorem GetEntryAtIndex_eq (w : NxWake) (Index : Nat) (t : NX_POWER_ENTRY_TYPE) :
    NxWake.GetEntryAtIndex w Index t =
      if Index ≥ w.countOf t then none else (w.listOf t)[Index]? := by
  cases t <;>
    simp [NxWake.GetEntryAtIndex, NxWake.countOf, NxWake.listOf, GetEntryAtIndex_loop_zero]

theorem scan_of_append (id : Nat) (t : NX_POWER_ENTRY_TYPE)
    (l1 l2 : List NX_NET_POWER_ENTRY) (e : NX_NET_POWER_ENTRY)
    (he : NxWake.GetPowerEntryID e t = id)
    (hl1 : ∀ x ∈ l1, NxWake.GetPowerEntryID x t ≠ id) :
    NxWake.RemovePowerEntryByID.scan id t (l1 ++ e :: l2) = some (e, l1 ++ l2) := by
  induction l1 with
  | nil => simp [NxWake.RemovePowerEntryByID.scan, he]
  | cons a l1 ih =>
    have ha : NxWake.GetPowerEntryID a t ≠ id := hl1 a (List.mem_cons_self _ _)
    have ih1 := ih fun x hx => hl1 x (List.mem_cons_of_mem _ hx)
    simp [NxWake.RemovePowerEntryByID.scan, ha, ih1]

theorem RemovePowerEntryByID_found (w : NxWake) (id : Nat) (t : NX_POWER_ENTRY_TYPE)
    (e : NX_NET_POWER_ENTRY) (rest : List NX_NET_POWER_ENTRY)
    (hs : NxWake.RemovePowerEntryByID.scan id t (w.listOf t) = some (e, rest)) :
    (NxWake.RemovePowerEntryByID w id t).1 = some e ∧
      (NxWake.RemovePowerEntryByID w id t).2.listOf t = rest ∧
      (NxWake.RemovePowerEntryByID w id t).2.countOf t = w.countOf t - 1 ∧
      (∀ t1, t1 ≠ t →
        (NxWake.RemovePowerEntryByID w id t).2.listOf t1 = w.listOf t1 ∧
        (NxWake.RemovePowerEntryByID w id t).2.countOf t1 = w.countOf t1) ∧
      (NxWake.RemovePowerEntryByID w id t).2.m_PMParameters = w.m_PMParameters ∧
      (NxWake.RemovePowerEntryByID w id t).2.m_DriverCanAccessWakeSettings =
        w.m_DriverCanAccessWakeSettings ∧
      (NxWake.RemovePowerEntryByID w id t).2.m_DriverObjectCallbacksEnabled =
        w.m_DriverObjectCallbacksEnabled := by
  cases t
  · simp only [NxWake.listOf] at hs
    have hr : NxWake.RemovePowerEntryByID w id .NxPowerEntryTypeWakePattern =
        (some e, { w with m_WakeListCount := w.m_WakeListCount - 1, m_WakeListHead := rest }) := by
      simp only [NxWake.RemovePowerEntryByID, hs]
    rw [hr]
    refine ⟨rfl, rfl, rfl, ?_, rfl, rfl, rfl⟩
    intro t1 ht1
    cases t1
    · exact absurd rfl ht1
    · exact ⟨rfl, rfl⟩
  · simp only [NxWake.listOf] at hs
    have hr : NxWake.RemovePowerEntryByID w id .NxPowerEntryTypeProtocolOffload =
        (some e,
          { w with
            m_ProtocolOffloadListCount := w.m_ProtocolOffloadListCount - 1
            m_ProtocolOffloadListHead := rest }) := by
      simp only [NxWake.RemovePowerEntryByID, hs]
    rw [hr]
    refine ⟨rfl, rfl, rfl, ?_, rfl, rfl, rfl⟩
    intro t1 ht1
    cases t1
    · exact ⟨rfl, rfl⟩
    · exact absurd rfl ht1

theorem RemovePowerEntryByID_not_found (w : NxWake) (id : Nat) (t : NX_POWER_ENTRY_TYPE)
    (hs : NxWake.RemovePowerEntryByID.scan id t (w.listOf t) = none) :
    NxWake.RemovePowerEntryByID w id t = (none, w) := by
  cases t <;> simp only [NxWake.listOf] at hs <;> simp only [NxWake.RemovePowerEntryByID, hs]

theorem drain_eq_nil (l : List NX_NET_POWER_ENTRY) : NxWake.destructor.drain l = [] := by
  induction l with
  | nil => rfl
  | cons a l ih => simpa [NxWake.destructor.drain] using ih

/-! ## Properties of the registry -/

/-- C1, capacity invariant.  Take any finite sequence of calls (additions and removals
of wake patterns and protocol offloads, parameter updates, with any callbacks and any
allocation outcomes) that runs from a fresh registry on a device whose counter is `0`
and whose ceiling is `C`; a removal in it therefore names an identifier present in
its list.  After every call of the sequence, that is after each of its initial
segments, the wake list holds at most `C` records and the device counter equals the
number of committed wake patterns. -/
theorem capacity_invariant (L : Layout) (C : Nat) (inTransition : Bool) (ops : List Op)
    (sEnd : World) (h : run L (World.initial C inTransition) ops = some sEnd) (k : Nat) :
    ∃ s, run L (World.initial C inTransition) (ops.take k) = some s ∧
      s.wake.m_WakeListHead.length ≤ C ∧
      s.device.m_wakePatternCount = (s.wake.m_WakeListHead.length : Int) := by
  obtain ⟨s, hs⟩ := run_take L ops _ sEnd k h
  have hI := inv_run L C (ops.take k) _ s (inv_initial C inTransition) hs
  exact ⟨s, hs, hI.le_max, hI.counter_eq⟩

/-- The capacity invariant on the sample calls, after the third call (the refused
addition) on a device with ceiling `2`. -/
theorem capacity_invariant_witness :
    run sampleLayout (World.initial 2 false) sampleCalls = some sampleFinal ∧
    ∃ s, run sampleLayout (World.initial 2 false) (sampleCalls.take 3) = some s ∧
      s.wake.m_WakeListHead.length ≤ 2 ∧
      s.device.m_wakePatternCount = (s.wake.m_WakeListHead.length : Int) :=
  ⟨sampleCalls_run,
    capacity_invariant sampleLayout 2 false sampleCalls sampleFinal sampleCalls_run 3⟩

/-- C2, no leak and no partial state on rejection.  Whenever `AddWakePattern` returns
a status other than success, the device (so its capacity counter), both lists, both
counts and the stored power parameters are what they were before the call. -/
theorem add_wake_pattern_rejection_leaves_state (L : Layout)
    (cb : Option EVT_PREVIEW_WAKE_PATTERN) (allocOk : Bool) (w : NxWake) (device : NxDevice)
    (p : NDIS_PM_WOL_PATTERN) (n : Nat)
    (h : (NxWake.AddWakePattern L cb allocOk w device p n).status ≠ NDIS_STATUS_SUCCESS) :
    (NxWake.AddWakePattern L cb allocOk w device p n).device = device ∧
    (NxWake.AddWakePattern L cb allocOk w device p n).wake.m_WakeListHead = w.m_WakeListHead ∧
    (NxWake.AddWakePattern L cb allocOk w device p n).wake.m_ProtocolOffloadListHead =
      w.m_ProtocolOffloadListHead ∧
    (NxWake.AddWakePattern L cb allocOk w device p n).wake.m_WakeListCount =
      w.m_WakeListCount ∧
    (NxWake.AddWakePattern L cb allocOk w device p n).wake.m_ProtocolOffloadListCount =
      w.m_ProtocolOffloadListCount ∧
    (NxWake.AddWakePattern L cb allocOk w device p n).wake.m_PMParameters =
      w.m_PMParameters := by
  by_cases hlt : device.m_wakePatternCount < device.m_wakePatternMax
  · cases hc : NxWake.CreateWakePatternEntry L allocOk p n with
    | none =>
      rw [AddWakePattern_create_none L cb allocOk w device p n hlt hc]
      exact ⟨rfl, rfl, rfl, rfl, rfl, rfl⟩
    | some e =>
      cases cb with
      | none =>
        rw [AddWakePattern_no_callback L allocOk w device p n e hlt hc] at h
        exact absurd rfl h
      | some f =>
        rw [AddWakePattern_callback L f allocOk w device p n e hlt hc] at h ⊢
        split_ifs at h ⊢
        · exact ⟨rfl, rfl, rfl, rfl, rfl, rfl⟩
        · exact absurd rfl h
  · rw [AddWakePattern_full L cb allocOk w device p n hlt]
    exact ⟨rfl, rfl, rfl, rfl, rfl, rfl⟩

set_option maxRecDepth 20000 in
/-- A rejection by the preview callback on the sample registry: the status is the
list-full status and nothing listed in C2 has changed. -/
theorem add_wake_pattern_rejection_leaves_state_witness :
    (NxWake.AddWakePattern sampleLayout (some rejectWakePattern) true sampleRegistry
        (sampleDevice 3 8) (sampleMagicPattern 9 196) 196).status ≠ NDIS_STATUS_SUCCESS ∧
    ((NxWake.AddWakePattern sampleLayout (some rejectWakePattern) true sampleRegistry
        (sampleDevice 3 8) (sampleMagicPattern 9 196) 196).device = sampleDevice 3 8 ∧
    (NxWake.AddWakePattern sampleLayout (some rejectWakePattern) true sampleRegistry
        (sampleDevice 3 8) (sampleMagicPattern 9 196) 196).wake.m_WakeListHead =
      sampleRegistry.m_WakeListHead ∧
    (NxWake.AddWakePattern sampleLayout (some rejectWakePattern) true sampleRegistry
        (sampleDevice 3 8) (sampleMagicPattern 9 196) 196).wake.m_ProtocolOffloadListHead =
      sampleRegistry.m_ProtocolOffloadListHead ∧
    (NxWake.AddWakePattern sampleLayout (some rejectWakePattern) true sampleRegistry
        (sampleDevice 3 8) (sampleMagicPattern 9 196) 196).wake.m_WakeListCount =
      sampleRegistry.m_WakeListCount ∧
    (NxWake.AddWakePattern sampleLayout (some rejectWakePattern) true sampleRegistry
        (sampleDevice 3 8) (sampleMagicPattern 9 196) 196).wake.m_ProtocolOffloadListCount =
      sampleRegistry.m_ProtocolOffloadListCount ∧
    (NxWake.AddWakePattern sampleLayout (some rejectWakePattern) true sampleRegistry
        (sampleDevice 3 8) (sampleMagicPattern 9 196) 196).wake.m_PMParameters =
      sampleRegistry.m_PMParameters) :=
  ⟨by decide,
    add_wake_pattern_rejection_leaves_state sampleLayout (some rejectWakePattern) true
      sampleRegistry (sampleDevice 3 8) (sampleMagicPattern 9 196) 196 (by decide)⟩

/-- C3, remove correctness.  If the identifiers of the records of the wake list are
pairwise distinct and `id` is one of them, `RemoveWakePattern` returns success, the
wake list has one record fewer, no remaining record has identifier `id`, every record
with another identifier is still in the list, unchanged and in the same order (the
new list is the old one without the records of identifier `id`), and the device
counter has decreased by exactly one. -/
theorem remove_wake_pattern_correct (w : NxWake) (device : NxDevice) (id : Nat)
    (hdistinct : (w.m_WakeListHead.map fun e => e.NdisWoLPattern.PatternId).Nodup)
    (hmem : id ∈ w.m_WakeListHead.map fun e => e.NdisWoLPattern.PatternId) :
    ∃ w1 device1,
      NxWake.RemoveWakePattern w device id = some (NDIS_STATUS_SUCCESS, w1, device1) ∧
      w1.m_WakeListHead.length + 1 = w.m_WakeListHead.length ∧
      (∀ e ∈ w1.m_WakeListHead, e.NdisWoLPattern.PatternId ≠ id) ∧
      (∀ e ∈ w.m_WakeListHead, e.NdisWoLPattern.PatternId ≠ id → e ∈ w1.m_WakeListHead) ∧
      w1.m_WakeListHead = w.m_WakeListHead.filter (fun e => e.NdisWoLPattern.PatternId != id) ∧
      device1.m_wakePatternCount = device.m_wakePatternCount - 1 := by
  cases hr : NxWake.RemoveWakePattern w device id with
  | none =>
    rw [RemoveWakePattern_eq_none_iff] at hr
    obtain ⟨e, he, rfl⟩ := List.mem_map.mp hmem
    exact absurd rfl (hr e he)
  | some r =>
    obtain ⟨e, l1, l2, hl, he, hl1, rfl⟩ := RemoveWakePattern_eq_some w device id r hr
    rw [hl] at hdistinct
    simp only [List.map_append, List.map_cons] at hdistinct
    have hl2 : ∀ x ∈ l2, x.NdisWoLPattern.PatternId ≠ id := by
      intro x hx hxid
      have hnd := (List.nodup_append.mp hdistinct).2.1
      have := (List.nodup_cons.mp hnd).1
      apply this
      rw [he, ← hxid]
      exact List.mem_map_of_mem _ hx
    have hfilter : (l1 ++ e :: l2).filter (fun e => e.NdisWoLPattern.PatternId != id) =
        l1 ++ l2 := by
      rw [List.filter_append, List.filter_cons]
      have h1 : l1.filter (fun e => e.NdisWoLPattern.PatternId != id) = l1 :=
        List.filter_eq_self.mpr fun x hx => by simpa using hl1 x hx
      have h2 : l2.filter (fun e => e.NdisWoLPattern.PatternId != id) = l2 :=
        List.filter_eq_self.mpr fun x hx => by simpa using hl2 x hx
      simp [h1, h2, he]
    refine ⟨_, _, rfl, ?_, ?_, ?_, ?_, rfl⟩
    · simp only [hl, List.length_append, List.length_cons]
      omega
    · intro x hx
      rcases List.mem_append.mp hx with hx | hx
      · exact hl1 x hx
      · exact hl2 x hx
    · intro x hx hxid
      rw [hl] at hx
      simp only [List.mem_append, List.mem_cons] at hx ⊢
      rcases hx with hx | rfl | hx
      · exact Or.inl hx
      · exact absurd he hxid
      · exact Or.inr hx
    · simp only
      rw [hl, hfilter]

set_option maxRecDepth 20000 in
/-- Removing the pattern `2` from the sample registry, which holds `3, 2, 1`. -/
theorem remove_wake_pattern_correct_witness :
    (sampleRegistry.m_WakeListHead.map fun e => e.NdisWoLPattern.PatternId).Nodup ∧
    (2 ∈ sampleRegistry.m_WakeListHead.map fun e => e.NdisWoLPattern.PatternId) ∧
    ∃ w1 device1,
      NxWake.RemoveWakePattern sampleRegistry (sampleDevice 3 8) 2 =
        some (NDIS_STATUS_SUCCESS, w1, device1) ∧
      w1.m_WakeListHead.length + 1 = sampleRegistry.m_WakeListHead.length ∧
      (∀ e ∈ w1.m_WakeListHead, e.NdisWoLPattern.PatternId ≠ 2) ∧
      (∀ e ∈ sampleRegistry.m_WakeListHead, e.NdisWoLPattern.PatternId ≠ 2 →
        e ∈ w1.m_WakeListHead) ∧
      w1.m_WakeListHead =
        sampleRegistry.m_WakeListHead.filter (fun e => e.NdisWoLPattern.PatternId != 2) ∧
      device1.m_wakePatternCount = (sampleDevice 3 8).m_wakePatternCount - 1 :=
  ⟨by decide, by decide,
    remove_wake_pattern_correct sampleRegistry (sampleDevice 3 8) 2 (by decide) (by decide)⟩

set_option maxRecDepth 20000 in
/-- C4, removal of an identifier that is in no record.  On the sample registry (wake
patterns `3, 2, 1`, offload `1`) the identifier `7` matches no record:
`RemovePowerEntryByID` returns `NULL` and leaves the registry as it was, but
`RemoveWakePattern` and `RemoveProtocolOffload` read through that `NULL` result and
fault instead of completing. -/
theorem remove_absent_identifier_faults :
    NxWake.RemovePowerEntryByID sampleRegistry 7 .NxPowerEntryTypeWakePattern =
      (none, sampleRegistry) ∧
    NxWake.RemovePowerEntryByID sampleRegistry 7 .NxPowerEntryTypeProtocolOffload =
      (none, sampleRegistry) ∧
    NxWake.RemoveWakePattern sampleRegistry (sampleDevice 3 8) 7 = none ∧
    NxWake.RemoveProtocolOffload sampleRegistry (sampleDevice 3 8) 7 = none := by
  decide

/-- C6, ceiling rejection.  When the device counter is at the ceiling, `AddWakePattern`
returns the wake-pattern list-full status whatever the buffer, the allocation outcome
and the registered callback are; the preview callback is not invoked, and the
registry (so its wake list) and the device (so its counter) are unchanged. -/
theorem ceiling_rejection (L : Layout) (cb : Option EVT_PREVIEW_WAKE_PATTERN)
    (allocOk : Bool) (w : NxWake) (device : NxDevice) (p : NDIS_PM_WOL_PATTERN) (n : Nat)
    (h : device.m_wakePatternCount = device.m_wakePatternMax) :
    NxWake.AddWakePattern L cb allocOk w device p n =
      { status := NDIS_STATUS_PM_WOL_PATTERN_LIST_FULL, wake := w, device := device,
        preview := none } :=
  AddWakePattern_full L cb allocOk w device p n (by omega)

set_option maxRecDepth 20000 in
/-- The scenario of C6: with ceiling `2`, two patterns are added with success; the third
addition returns list-full and leaves two records and the counter at `2`. -/
theorem ceiling_rejection_witness :
    run sampleLayout (World.initial 2 false) (sampleCalls.take 2) = some sampleAtCeiling ∧
    sampleAtCeiling.device.m_wakePatternCount = sampleAtCeiling.device.m_wakePatternMax ∧
    NxWake.AddWakePattern sampleLayout (some acceptWakePattern) true sampleAtCeiling.wake
        sampleAtCeiling.device (sampleMagicPattern 3 196) 196 =
      { status := NDIS_STATUS_PM_WOL_PATTERN_LIST_FULL, wake := sampleAtCeiling.wake,
        device := sampleAtCeiling.device, preview := none } ∧
    sampleAtCeiling.wake.m_WakeListHead.length = 2 ∧
    sampleAtCeiling.device.m_wakePatternCount = 2 :=
  ⟨by decide, by decide,
    ceiling_rejection sampleLayout (some acceptWakePattern) true sampleAtCeiling.wake
      sampleAtCeiling.device (sampleMagicPattern 3 196) 196 (by decide),
    by decide, by decide⟩

/-- C7, only one rejection status.  Let the value the registered preview callback
returns at the arguments `AddWakePattern` (resp. `AddProtocolOffload`) invokes it with
be other than the category's list-full status; it may be any failure code, and the
callback may answer list-full on other arguments.  Then, whenever the callback is
invoked (the capacity slot was acquired and the entry created from a valid buffer),
the operation returns success, and it returns the same status and leaves the same
device (capacity counter), lists, counts and power parameters as the same call made
with no callback registered; the whole registry is the same when the access flag was
`FALSE` on entry, as it is between operations. -/
theorem only_one_rejection_status (L : Layout) (f : EVT_PREVIEW_WAKE_PATTERN)
    (g : EVT_PREVIEW_PROTOCOL_OFFLOAD) (allocOk : Bool) (w : NxWake) (device : NxDevice)
    (p : NDIS_PM_WOL_PATTERN) (n : Nat) (q : NDIS_PM_PROTOCOL_OFFLOAD) (m : Nat)
    (hf : ∀ e, device.m_wakePatternCount < device.m_wakePatternMax →
      NxWake.CreateWakePatternEntry L allocOk p n = some e →
      f { device with m_wakePatternCount := device.m_wakePatternCount + 1 }
        { w with m_DriverCanAccessWakeSettings := true }
        (NxWake.UpdatePatternEntryEnabledField w e).NdisWoLPattern.WoLPacketType
        (NxWake.UpdatePatternEntryEnabledField w e).NdisWoLPattern ≠
          STATUS_NDIS_PM_WOL_PATTERN_LIST_FULL)
    (hg : ∀ e, NxWake.CreateProtocolOffloadEntry L allocOk q m = some e →
      g device { w with m_DriverCanAccessWakeSettings := true }
        (NxWake.UpdateProtocolOffloadEntryEnabledField w e).NdisProtocolOffload.ProtocolOffloadType
        (NxWake.UpdateProtocolOffloadEntryEnabledField w e).NdisProtocolOffload ≠
          STATUS_NDIS_PM_PROTOCOL_OFFLOAD_LIST_FULL) :
    (device.m_wakePatternCount < device.m_wakePatternMax →
      NxWake.CreateWakePatternEntry L allocOk p n ≠ none →
      (NxWake.AddWakePattern L (some f) allocOk w device p n).status = NDIS_STATUS_SUCCESS ∧
      (NxWake.AddWakePattern L none allocOk w device p n).status = NDIS_STATUS_SUCCESS) ∧
    (NxWake.CreateProtocolOffloadEntry L allocOk q m ≠ none →
      (NxWake.AddProtocolOffload L (some g) allocOk w device q m).status =
        NDIS_STATUS_SUCCESS ∧
      (NxWake.AddProtocolOffload L none allocOk w device q m).status = NDIS_STATUS_SUCCESS) ∧
    ((NxWake.AddWakePattern L (some f) allocOk w device p n).status =
        (NxWake.AddWakePattern L none allocOk w device p n).status ∧
      (NxWake.AddWakePattern L (some f) allocOk w device p n).device =
        (NxWake.AddWakePattern L none allocOk w device p n).device ∧
      (NxWake.AddWakePattern L (some f) allocOk w device p n).wake.m_WakeListHead =
        (NxWake.AddWakePattern L none allocOk w device p n).wake.m_WakeListHead ∧
      (NxWake.AddWakePattern L (some f) allocOk w device p n).wake.m_WakeListCount =
        (NxWake.AddWakePattern L none allocOk w device p n).wake.m_WakeListCount ∧
      (NxWake.AddWakePattern L (some f) allocOk w device p n).wake.m_ProtocolOffloadListHead =
        (NxWake.AddWakePattern L none allocOk w device p n).wake.m_ProtocolOffloadListHead ∧
      (NxWake.AddWakePattern L (some f) allocOk w device p n).wake.m_ProtocolOffloadListCount =
        (NxWake.AddWakePattern L none allocOk w device p n).wake.m_ProtocolOffloadListCount ∧
      (NxWake.AddWakePattern L (some f) allocOk w device p n).wake.m_PMParameters =
        (NxWake.AddWakePattern L none allocOk w device p n).wake.m_PMParameters ∧
      (w.m_DriverCanAccessWakeSettings = false →
        (NxWake.AddWakePattern L (some f) allocOk w device p n).wake =
          (NxWake.AddWakePattern L none allocOk w device p n).wake)) ∧
    ((NxWake.AddProtocolOffload L (some g) allocOk w device q m).status =
        (NxWake.AddProtocolOffload L none allocOk w device q m).status ∧
      (NxWake.AddProtocolOffload L (some g) allocOk w device q m).device =
        (NxWake.AddProtocolOffload L none allocOk w device q m).device ∧
      (NxWake.AddProtocolOffload L (some g) allocOk w device q m).wake.m_WakeListHead =
        (NxWake.AddProtocolOffload L none allocOk w device q m).wake.m_WakeListHead ∧
      (NxWake.AddProtocolOffload L (some g) allocOk w device q m).wake.m_WakeListCount =
        (NxWake.AddProtocolOffload L none allocOk w device q m).wake.m_WakeListCount ∧
      (NxWake.AddProtocolOffload L (some g) allocOk w device q m).wake.m_ProtocolOffloadListHead =
        (NxWake.AddProtocolOffload L none allocOk w device q m).wake.m_ProtocolOffloadListHead ∧
      (NxWake.AddProtocolOffload L (some g) allocOk w device q m).wake.m_ProtocolOffloadListCount =
        (NxWake.AddProtocolOffload L none allocOk w device q m).wake.m_ProtocolOffloadListCount ∧
      (NxWake.AddProtocolOffload L (some g) allocOk w device q m).wake.m_PMParameters =
        (NxWake.AddProtocolOffload L none allocOk w device q m).wake.m_PMParameters ∧
      (w.m_DriverCanAccessWakeSettings = false →
        (NxWake.AddProtocolOffload L (some g) allocOk w device q m).wake =
          (NxWake.AddProtocolOffload L none allocOk w device q m).wake)) := by
  have hclosed : w.m_DriverCanAccessWakeSettings = false →
      { w with m_DriverCanAccessWakeSettings := false } = w := by
    intro h
    cases w
    simp only at h
    subst h
    rfl
  refine ⟨?_, ?_, ?_, ?_⟩
  · intro hlt hc
    obtain ⟨e, he⟩ := Option.ne_none_iff_exists'.mp hc
    rw [AddWakePattern_callback L f allocOk w device p n e hlt he, if_neg (hf e hlt he),
      AddWakePattern_no_callback L allocOk w device p n e hlt he]
    exact ⟨rfl, rfl⟩
  · intro hc
    obtain ⟨e, he⟩ := Option.ne_none_iff_exists'.mp hc
    rw [AddProtocolOffload_callback L g allocOk w device q m e he, if_neg (hg e he),
      AddProtocolOffload_no_callback L allocOk w device q m e he]
    exact ⟨rfl, rfl⟩
  · by_cases hlt : device.m_wakePatternCount < device.m_wakePatternMax
    · cases hc : NxWake.CreateWakePatternEntry L allocOk p n with
      | none =>
        rw [AddWakePattern_create_none L (some f) allocOk w device p n hlt hc,
          AddWakePattern_create_none L none allocOk w device p n hlt hc]
        exact ⟨rfl, rfl, rfl, rfl, rfl, rfl, rfl, fun _ => rfl⟩
      | some e =>
        rw [AddWakePattern_callback L f allocOk w device p n e hlt hc,
          AddWakePattern_no_callback L allocOk w device p n e hlt hc, if_neg (hf e hlt hc)]
        exact ⟨rfl, rfl, rfl, rfl, rfl, rfl, rfl, fun h => by simp only [hclosed h]⟩
    · rw [AddWakePattern_full L (some f) allocOk w device p n hlt,
        AddWakePattern_full L none allocOk w device p n hlt]
      exact ⟨rfl, rfl, rfl, rfl, rfl, rfl, rfl, fun _ => rfl⟩
  · cases hc : NxWake.CreateProtocolOffloadEntry L allocOk q m with
    | none =>
      rw [AddProtocolOffload_create_none L (some g) allocOk w device q m hc,
        AddProtocolOffload_create_none L none allocOk w device q m hc]
      exact ⟨rfl, rfl, rfl, rfl, rfl, rfl, rfl, fun _ => rfl⟩
    | some e =>
      rw [AddProtocolOffload_callback L g allocOk w device q m e hc,
        AddProtocolOffload_no_callback L allocOk w device q m e hc, if_neg (hg e hc)]
      refine ⟨rfl, rfl, rfl, rfl, rfl, rfl, rfl, fun h => ?_⟩
      cases w
      simp only at h
      subst h
      rfl

set_option maxRecDepth 20000 in
/-- Only one rejection status, on the sample registry with callbacks that answer the
failure code `STATUS_UNSUCCESSFUL`: both callbacks are invoked, both additions succeed
and commit what they would commit without a callback. -/
theorem only_one_rejection_status_witness :
    (sampleDevice 3 8).m_wakePatternCount < (sampleDevice 3 8).m_wakePatternMax ∧
    NxWake.CreateWakePatternEntry sampleLayout true (sampleMagicPattern 9 196) 196 ≠ none ∧
    NxWake.CreateProtocolOffloadEntry sampleLayout true (sampleArpOffload 9 240) 240 ≠ none ∧
    (NxWake.AddWakePattern sampleLayout (some failWakePattern) true sampleRegistry
        (sampleDevice 3 8) (sampleMagicPattern 9 196) 196).status = NDIS_STATUS_SUCCESS ∧
    (NxWake.AddProtocolOffload sampleLayout (some failProtocolOffload) true sampleRegistry
        (sampleDevice 3 8) (sampleArpOffload 9 240) 240).status = NDIS_STATUS_SUCCESS ∧
    (NxWake.AddWakePattern sampleLayout (some failWakePattern) true sampleRegistry
        (sampleDevice 3 8) (sampleMagicPattern 9 196) 196).device =
      (NxWake.AddWakePattern sampleLayout none true sampleRegistry
        (sampleDevice 3 8) (sampleMagicPattern 9 196) 196).device ∧
    (NxWake.AddWakePattern sampleLayout (some failWakePattern) true sampleRegistry
        (sampleDevice 3 8) (sampleMagicPattern 9 196) 196).wake =
      (NxWake.AddWakePattern sampleLayout none true sampleRegistry
        (sampleDevice 3 8) (sampleMagicPattern 9 196) 196).wake ∧
    (NxWake.AddProtocolOffload sampleLayout (some failProtocolOffload) true sampleRegistry
        (sampleDevice 3 8) (sampleArpOffload 9 240) 240).wake =
      (NxWake.AddProtocolOffload sampleLayout none true sampleRegistry
        (sampleDevice 3 8) (sampleArpOffload 9 240) 240).wake ∧
    (NxWake.AddWakePattern sampleLayout (some failWakePattern) true sampleRegistry
        (sampleDevice 3 8) (sampleMagicPattern 9 196) 196).wake.m_WakeListHead.length = 4 :=
  have h := only_one_rejection_status sampleLayout failWakePattern failProtocolOffload true
    sampleRegistry (sampleDevice 3 8) (sampleMagicPattern 9 196) 196 (sampleArpOffload 9 240)
    240 (fun _ _ _ => (by decide : (0xC0000001 : Nat) ≠ 0xC0232003))
    (fun _ _ => (by decide : (0xC0000001 : Nat) ≠ 0xC0232004))
  ⟨by decide, by decide, by decide, (h.1 (by decide) (by decide)).1, (h.2.1 (by decide)).1,
    h.2.2.1.2.1, h.2.2.1.2.2.2.2.2.2.2 (by decide), h.2.2.2.2.2.2.2.2.2.2 (by decide),
    by decide⟩

/-- C8, status decision table.  The status of `AddWakePattern` is the one the table
gives: list-full if the capacity slot is refused; otherwise insufficient-resources if
entry creation fails; otherwise list-full if a callback is registered and returns the
wake-pattern list-full status; otherwise success.  The status of `AddProtocolOffload`
is insufficient-resources if entry creation fails, list-full if creation succeeded
and a registered callback returns the protocol-offload list-full status, and success
otherwise.  Each status is one of success, list-full, insufficient-resources, and
these three values are distinct in each category. -/
theorem status_decision_table (L : Layout) (cbWake : Option EVT_PREVIEW_WAKE_PATTERN)
    (cbOffload : Option EVT_PREVIEW_PROTOCOL_OFFLOAD) (allocOk : Bool) (w : NxWake)
    (device : NxDevice) (p : NDIS_PM_WOL_PATTERN) (n : Nat) (q : NDIS_PM_PROTOCOL_OFFLOAD)
    (m : Nat) :
    (NxWake.AddWakePattern L cbWake allocOk w device p n).status =
      addWakePatternStatus device.IncreaseWakePatternReference.1
        ((NxWake.CreateWakePatternEntry L allocOk p n).map fun e =>
          cbWake.map fun f =>
            f device.IncreaseWakePatternReference.2
              { w with m_DriverCanAccessWakeSettings := true }
              (NxWake.UpdatePatternEntryEnabledField w e).NdisWoLPattern.WoLPacketType
              (NxWake.UpdatePatternEntryEnabledField w e).NdisWoLPattern) ∧
    (NxWake.AddProtocolOffload L cbOffload allocOk w device q m).status =
      addProtocolOffloadStatus
        ((NxWake.CreateProtocolOffloadEntry L allocOk q m).map fun e =>
          cbOffload.map fun g =>
            g device { w with m_DriverCanAccessWakeSettings := true }
              (NxWake.UpdateProtocolOffloadEntryEnabledField w e).NdisProtocolOffload.ProtocolOffloadType
              (NxWake.UpdateProtocolOffloadEntryEnabledField w e).NdisProtocolOffload) ∧
    ((NxWake.AddWakePattern L cbWake allocOk w device p n).status = NDIS_STATUS_SUCCESS ∨
      (NxWake.AddWakePattern L cbWake allocOk w device p n).status =
        NDIS_STATUS_PM_WOL_PATTERN_LIST_FULL ∨
      (NxWake.AddWakePattern L cbWake allocOk w device p n).status = NDIS_STATUS_RESOURCES) ∧
    ((NxWake.AddProtocolOffload L cbOffload allocOk w device q m).status =
        NDIS_STATUS_SUCCESS ∨
      (NxWake.AddProtocolOffload L cbOffload allocOk w device q m).status =
        NDIS_STATUS_PM_PROTOCOL_OFFLOAD_LIST_FULL ∨
      (NxWake.AddProtocolOffload L cbOffload allocOk w device q m).status =
        NDIS_STATUS_RESOURCES) ∧
    NDIS_STATUS_SUCCESS ≠ NDIS_STATUS_PM_WOL_PATTERN_LIST_FULL ∧
    NDIS_STATUS_SUCCESS ≠ NDIS_STATUS_PM_PROTOCOL_OFFLOAD_LIST_FULL ∧
    NDIS_STATUS_SUCCESS ≠ NDIS_STATUS_RESOURCES ∧
    NDIS_STATUS_RESOURCES ≠ NDIS_STATUS_PM_WOL_PATTERN_LIST_FULL ∧
    NDIS_STATUS_RESOURCES ≠ NDIS_STATUS_PM_PROTOCOL_OFFLOAD_LIST_FULL := by
  have hw : (NxWake.AddWakePattern L cbWake allocOk w device p n).status =
      addWakePatternStatus device.IncreaseWakePatternReference.1
        ((NxWake.CreateWakePatternEntry L allocOk p n).map fun e =>
          cbWake.map fun f =>
            f device.IncreaseWakePatternReference.2
              { w with m_DriverCanAccessWakeSettings := true }
              (NxWake.UpdatePatternEntryEnabledField w e).NdisWoLPattern.WoLPacketType
              (NxWake.UpdatePatternEntryEnabledField w e).NdisWoLPattern) := by
    by_cases hlt : device.m_wakePatternCount < device.m_wakePatternMax
    · cases hc : NxWake.CreateWakePatternEntry L allocOk p n with
      | none =>
        rw [AddWakePattern_create_none L cbWake allocOk w device p n hlt hc]
        simp [addWakePatternStatus, increase_of_lt device hlt]
      | some e =>
        cases cbWake with
        | none =>
          rw [AddWakePattern_no_callback L allocOk w device p n e hlt hc]
          simp [addWakePatternStatus, increase_of_lt device hlt]
        | some f =>
          rw [AddWakePattern_callback L f allocOk w device p n e hlt hc]
          simp only [addWakePatternStatus, increase_of_lt device hlt, Option.map_some',
            Option.some.injEq]
          split_ifs <;> simp_all
    · rw [AddWakePattern_full L cbWake allocOk w device p n hlt]
      simp [addWakePatternStatus, increase_of_not_lt device hlt]
  have ho : (NxWake.AddProtocolOffload L cbOffload allocOk w device q m).status =
      addProtocolOffloadStatus
        ((NxWake.CreateProtocolOffloadEntry L allocOk q m).map fun e =>
          cbOffload.map fun g =>
            g device { w with m_DriverCanAccessWakeSettings := true }
              (NxWake.UpdateProtocolOffloadEntryEnabledField w e).NdisProtocolOffload.ProtocolOffloadType
              (NxWake.UpdateProtocolOffloadEntryEnabledField w e).NdisProtocolOffload) := by
    cases hc : NxWake.CreateProtocolOffloadEntry L allocOk q m with
    | none =>
      rw [AddProtocolOffload_create_none L cbOffload allocOk w device q m hc]
      simp [addProtocolOffloadStatus]
    | some e =>
      cases cbOffload with
      | none =>
        rw [AddProtocolOffload_no_callback L allocOk w device q m e hc]
        simp [addProtocolOffloadStatus]
      | some g =>
        rw [AddProtocolOffload_callback L g allocOk w device q m e hc]
        simp only [addProtocolOffloadStatus, Option.map_some', Option.some.injEq]
        split_ifs <;> simp_all
  refine ⟨hw, ho, ?_, ?_, by decide, by decide, by decide, by decide, by decide⟩
  · rw [hw]
    unfold addWakePatternStatus
    split_ifs
    · exact Or.inr (Or.inl rfl)
    · split
      · exact Or.inr (Or.inr rfl)
      · split_ifs
        · exact Or.inr (Or.inl rfl)
        · exact Or.inl rfl
  · rw [ho]
    unfold addProtocolOffloadStatus
    split
    · exact Or.inr (Or.inr rfl)
    · split_ifs
      · exact Or.inr (Or.inl rfl)
      · exact Or.inl rfl

/-- C9, access-window discipline.  `AddWakePattern` and `AddProtocolOffload` hand the
preview callback the registry with `m_DriverCanAccessWakeSettings = TRUE`, a state in
which `ArePowerSettingsAccessible()` is true: the callback's answer on that very state
decides between list-full and success, and two callbacks that agree on all states with
the flag `TRUE` give the same result, so the callback is never consulted on a state
with the window closed.  Whatever the callback returns, the flag is `FALSE` in the
registry the operation returns.  In every state reachable between public operations the
flag is `FALSE`, and `ArePowerSettingsAccessible()` is false when the device is not in
a power transition. -/
theorem access_window_discipline (L : Layout) (C : Nat)
    (cbWake : Option EVT_PREVIEW_WAKE_PATTERN) (cbOffload : Option EVT_PREVIEW_PROTOCOL_OFFLOAD)
    (allocOk : Bool) (w : NxWake) (device : NxDevice) (p : NDIS_PM_WOL_PATTERN) (n : Nat)
    (q : NDIS_PM_PROTOCOL_OFFLOAD) (m : Nat) (s : World) (hs : Reachable L C s) :
    (∀ f e, device.m_wakePatternCount < device.m_wakePatternMax →
      NxWake.CreateWakePatternEntry L allocOk p n = some e →
      NxWake.ArePowerSettingsAccessible { w with m_DriverCanAccessWakeSettings := true }
        { device with m_wakePatternCount := device.m_wakePatternCount + 1 } = true ∧
      ((NxWake.AddWakePattern L (some f) allocOk w device p n).status =
          NDIS_STATUS_PM_WOL_PATTERN_LIST_FULL ↔
        f { device with m_wakePatternCount := device.m_wakePatternCount + 1 }
          { w with m_DriverCanAccessWakeSettings := true }
          (NxWake.UpdatePatternEntryEnabledField w e).NdisWoLPattern.WoLPacketType
          (NxWake.UpdatePatternEntryEnabledField w e).NdisWoLPattern =
            STATUS_NDIS_PM_WOL_PATTERN_LIST_FULL) ∧
      (NxWake.AddWakePattern L (some f) allocOk w device p n).wake.m_DriverCanAccessWakeSettings =
        false) ∧
    (∀ g e, NxWake.CreateProtocolOffloadEntry L allocOk q m = some e →
      NxWake.ArePowerSettingsAccessible { w with m_DriverCanAccessWakeSettings := true }
        device = true ∧
      ((NxWake.AddProtocolOffload L (some g) allocOk w device q m).status =
          NDIS_STATUS_PM_PROTOCOL_OFFLOAD_LIST_FULL ↔
        g device { w with m_DriverCanAccessWakeSettings := true }
          (NxWake.UpdateProtocolOffloadEntryEnabledField w e).NdisProtocolOffload.ProtocolOffloadType
          (NxWake.UpdateProtocolOffloadEntryEnabledField w e).NdisProtocolOffload =
            STATUS_NDIS_PM_PROTOCOL_OFFLOAD_LIST_FULL) ∧
      (NxWake.AddProtocolOffload L (some g) allocOk w device q m).wake.m_DriverCanAccessWakeSettings =
        false) ∧
    (∀ f1 f2 : EVT_PREVIEW_WAKE_PATTERN,
      (∀ d v t x, v.m_DriverCanAccessWakeSettings = true →
        NxWake.ArePowerSettingsAccessible v d = true → f1 d v t x = f2 d v t x) →
      NxWake.AddWakePattern L (some f1) allocOk w device p n =
        NxWake.AddWakePattern L (some f2) allocOk w device p n) ∧
    (∀ g1 g2 : EVT_PREVIEW_PROTOCOL_OFFLOAD,
      (∀ d v t x, v.m_DriverCanAccessWakeSettings = true →
        NxWake.ArePowerSettingsAccessible v d = true → g1 d v t x = g2 d v t x) →
      NxWake.AddProtocolOffload L (some g1) allocOk w device q m =
        NxWake.AddProtocolOffload L (some g2) allocOk w device q m) ∧
    (∀ d v, (NxWake.AddWakePattern L cbWake allocOk w device p n).preview = some (d, v) →
      v.m_DriverCanAccessWakeSettings = true ∧
      NxWake.ArePowerSettingsAccessible v d = true ∧
      (NxWake.AddWakePattern L cbWake allocOk w device p n).wake.m_DriverCanAccessWakeSettings =
        false) ∧
    (∀ d v, (NxWake.AddProtocolOffload L cbOffload allocOk w device q m).preview = some (d, v) →
      v.m_DriverCanAccessWakeSettings = true ∧
      NxWake.ArePowerSettingsAccessible v d = true ∧
      (NxWake.AddProtocolOffload L cbOffload allocOk w device q m).wake.m_DriverCanAccessWakeSettings =
        false) ∧
    s.wake.m_DriverCanAccessWakeSettings = false ∧
    (s.device.IsDeviceInPowerTransition = false →
      NxWake.ArePowerSettingsAccessible s.wake s.device = false) := by
  refine ⟨?_, ?_, ?_, ?_, ?_, ?_, (inv_reachable L C s hs).window_closed, ?_⟩
  · intro f e hlt hc
    rw [AddWakePattern_callback L f allocOk w device p n e hlt hc]
    refine ⟨by simp [NxWake.ArePowerSettingsAccessible], ?_, ?_⟩
    · split_ifs with hfull
      · exact ⟨fun _ => hfull, fun _ => rfl⟩
      · exact ⟨fun h => absurd h.symm wol_list_full_ne_success, fun h => absurd h hfull⟩
    · split_ifs <;> simp [NxWake.AddWakePatternEntryToList]
  · intro g e hc
    rw [AddProtocolOffload_callback L g allocOk w device q m e hc]
    refine ⟨by simp [NxWake.ArePowerSettingsAccessible], ?_, ?_⟩
    · split_ifs with hfull
      · exact ⟨fun _ => hfull, fun _ => rfl⟩
      · exact ⟨fun h => absurd h.symm offload_list_full_ne_success, fun h => absurd h hfull⟩
    · split_ifs <;> simp
  · intro f1 f2 hagree
    by_cases hlt : device.m_wakePatternCount < device.m_wakePatternMax
    · cases hc : NxWake.CreateWakePatternEntry L allocOk p n with
      | none =>
        rw [AddWakePattern_create_none L (some f1) allocOk w device p n hlt hc,
          AddWakePattern_create_none L (some f2) allocOk w device p n hlt hc]
      | some e =>
        rw [AddWakePattern_callback L f1 allocOk w device p n e hlt hc,
          AddWakePattern_callback L f2 allocOk w device p n e hlt hc,
          hagree _ { w with m_DriverCanAccessWakeSettings := true } _ _ rfl
            (by simp [NxWake.ArePowerSettingsAccessible])]
    · rw [AddWakePattern_full L (some f1) allocOk w device p n hlt,
        AddWakePattern_full L (some f2) allocOk w device p n hlt]
  · intro g1 g2 hagree
    cases hc : NxWake.CreateProtocolOffloadEntry L allocOk q m with
    | none =>
      rw [AddProtocolOffload_create_none L (some g1) allocOk w device q m hc,
        AddProtocolOffload_create_none L (some g2) allocOk w device q m hc]
    | some e =>
      rw [AddProtocolOffload_callback L g1 allocOk w device q m e hc,
        AddProtocolOffload_callback L g2 allocOk w device q m e hc,
        hagree _ { w with m_DriverCanAccessWakeSettings := true } _ _ rfl
          (by simp [NxWake.ArePowerSettingsAccessible])]
  · intro d v hp
    by_cases hlt : device.m_wakePatternCount < device.m_wakePatternMax
    · cases hc : NxWake.CreateWakePatternEntry L allocOk p n with
      | none =>
        rw [AddWakePattern_create_none L cbWake allocOk w device p n hlt hc] at hp
        simp at hp
      | some e =>
        cases cbWake with
        | none =>
          rw [AddWakePattern_no_callback L allocOk w device p n e hlt hc] at hp
          simp at hp
        | some f =>
          rw [AddWakePattern_callback L f allocOk w device p n e hlt hc] at hp ⊢
          split_ifs at hp ⊢
          all_goals
            simp only [Option.some.injEq, Prod.mk.injEq] at hp
            obtain ⟨rfl, rfl⟩ := hp
            simp [NxWake.ArePowerSettingsAccessible, NxWake.AddWakePatternEntryToList]
    · rw [AddWakePattern_full L cbWake allocOk w device p n hlt] at hp
      simp at hp
  · intro d v hp
    cases hc : NxWake.CreateProtocolOffloadEntry L allocOk q m with
    | none =>
      rw [AddProtocolOffload_create_none L cbOffload allocOk w device q m hc] at hp
      simp at hp
    | some e =>
      cases cbOffload with
      | none =>
        rw [AddProtocolOffload_no_callback L allocOk w device q m e hc] at hp
        simp at hp
      | some g =>
        rw [AddProtocolOffload_callback L g allocOk w device q m e hc] at hp ⊢
        split_ifs at hp ⊢
        all_goals
          simp only [Option.some.injEq, Prod.mk.injEq] at hp
          obtain ⟨rfl, rfl⟩ := hp
          simp [NxWake.ArePowerSettingsAccessible]
  · intro ht
    simp [NxWake.ArePowerSettingsAccessible, (inv_reachable L C s hs).window_closed, ht]

set_option maxRecDepth 20000 in
/-- The access window on the state reached by the sample calls, where the flag is
`FALSE` and the device is not in a power transition, so that
`ArePowerSettingsAccessible()` is false before the call.  The probing callbacks reject
exactly when `ArePowerSettingsAccessible()` is true on the state they are handed: both
additions are rejected with list-full, as with the callbacks that always reject, and
both return the registry with the flag `FALSE`. -/
theorem access_window_discipline_witness :
    Reachable sampleLayout 2 sampleFinal ∧
    sampleFinal.wake.m_DriverCanAccessWakeSettings = false ∧
    sampleFinal.device.IsDeviceInPowerTransition = false ∧
    NxWake.ArePowerSettingsAccessible sampleFinal.wake sampleFinal.device = false ∧
    probeWakePattern sampleFinal.device sampleFinal.wake NdisPMWoLPacketMagicPacket
      (sampleMagicPattern 5 196) = STATUS_SUCCESS ∧
    (NxWake.AddWakePattern sampleLayout (some probeWakePattern) true sampleFinal.wake
        sampleFinal.device (sampleMagicPattern 5 196) 196).status =
      NDIS_STATUS_PM_WOL_PATTERN_LIST_FULL ∧
    (NxWake.AddProtocolOffload sampleLayout (some probeProtocolOffload) true sampleFinal.wake
        sampleFinal.device (sampleArpOffload 5 240) 240).status =
      NDIS_STATUS_PM_PROTOCOL_OFFLOAD_LIST_FULL ∧
    (NxWake.AddWakePattern sampleLayout (some probeWakePattern) true sampleFinal.wake
        sampleFinal.device (sampleMagicPattern 5 196) 196).wake.m_DriverCanAccessWakeSettings =
      false ∧
    (NxWake.AddProtocolOffload sampleLayout (some probeProtocolOffload) true sampleFinal.wake
        sampleFinal.device (sampleArpOffload 5 240) 240).wake.m_DriverCanAccessWakeSettings =
      false ∧
    NxWake.AddWakePattern sampleLayout (some probeWakePattern) true sampleFinal.wake
        sampleFinal.device (sampleMagicPattern 5 196) 196 =
      NxWake.AddWakePattern sampleLayout (some rejectWakePattern) true sampleFinal.wake
        sampleFinal.device (sampleMagicPattern 5 196) 196 ∧
    NxWake.AddProtocolOffload sampleLayout (some probeProtocolOffload) true sampleFinal.wake
        sampleFinal.device (sampleArpOffload 5 240) 240 =
      NxWake.AddProtocolOffload sampleLayout (some rejectProtocolOffload) true sampleFinal.wake
        sampleFinal.device (sampleArpOffload 5 240) 240 ∧
    (NxWake.AddProtocolOffload sampleLayout (some acceptProtocolOffload) true sampleFinal.wake
        sampleFinal.device (sampleArpOffload 5 240) 240).wake.m_DriverCanAccessWakeSettings =
      false :=
  have hr : Reachable sampleLayout 2 sampleFinal := ⟨false, sampleCalls, sampleCalls_run⟩
  have h := access_window_discipline sampleLayout 2 (some rejectWakePattern)
    (some acceptProtocolOffload) true sampleFinal.wake sampleFinal.device
    (sampleMagicPattern 5 196) 196 (sampleArpOffload 5 240) 240 sampleFinal hr
  have hw := h.1 probeWakePattern
    { Size := 256, Enabled := false, NdisWoLPattern := sampleMagicPattern 5 196,
      NdisProtocolOffload := NDIS_PM_PROTOCOL_OFFLOAD.zero } (by decide) (by decide)
  have ho := h.2.1 probeProtocolOffload
    { Size := 496, Enabled := false, NdisWoLPattern := NDIS_PM_WOL_PATTERN.zero,
      NdisProtocolOffload := sampleArpOffload 5 240 } (by decide)
  ⟨hr, h.2.2.2.2.2.2.1, by decide, h.2.2.2.2.2.2.2 (by decide), by decide,
    hw.2.1.mpr (by decide), ho.2.1.mpr (by decide), hw.2.2, ho.2.2,
    h.2.2.1 probeWakePattern rejectWakePattern (fun d v t x _ ha => by
      simp [probeWakePattern, rejectWakePattern, ha]),
    h.2.2.2.1 probeProtocolOffload rejectProtocolOffload (fun d v t x _ ha => by
      simp [probeProtocolOffload, rejectProtocolOffload, ha]),
    (h.2.2.2.2.2.1 sampleFinal.device
      { sampleFinal.wake with m_DriverCanAccessWakeSettings := true } (by decide)).2.2⟩

/-- C11, idempotent no-op.  In every registry state, a second `SetParameters` with the
same snapshot returns success and leaves the whole registry (every record and its
`Enabled` flag, both lists in their order, both counts, the stored power parameters)
as the first call left it. -/
theorem set_parameters_idempotent (w : NxWake) (p : NDIS_PM_PARAMETERS) :
    NxWake.SetParameters (NxWake.SetParameters w p).2 p =
      (NDIS_STATUS_SUCCESS, (NxWake.SetParameters w p).2) := by
  rw [SetParameters_eq (NxWake.SetParameters w p).2 p, SetParameters_eq w p]
  simp

/-- C13, count invariant.  In every state reachable from construction by additions and
removals of wake patterns and protocol offloads (removals of present identifiers) and
`SetParameters`, `m_WakeListCount` is the number of records linked from
`m_WakeListHead` and `m_ProtocolOffloadListCount` is the number of records linked
from `m_ProtocolOffloadListHead`. -/
theorem count_invariant (L : Layout) (C : Nat) (s : World) (h : Reachable L C s) :
    s.wake.m_WakeListCount = s.wake.m_WakeListHead.length ∧
    s.wake.m_ProtocolOffloadListCount = s.wake.m_ProtocolOffloadListHead.length :=
  ⟨(inv_reachable L C s h).wake_count, (inv_reachable L C s h).offload_count⟩

/-- The count invariant on the state reached by the sample calls. -/
theorem count_invariant_witness :
    Reachable sampleLayout 2 sampleFinal ∧
    sampleFinal.wake.m_WakeListCount = sampleFinal.wake.m_WakeListHead.length ∧
    sampleFinal.wake.m_ProtocolOffloadListCount =
      sampleFinal.wake.m_ProtocolOffloadListHead.length :=
  ⟨⟨false, sampleCalls, sampleCalls_run⟩,
    count_invariant sampleLayout 2 sampleFinal ⟨false, sampleCalls, sampleCalls_run⟩⟩

set_option maxRecDepth 20000 in
/-- C14 fails on the code.  A bitmap pattern with `MaskOffset = 0xFFFFFFFF` and
`MaskSize = 1` has a 32-bit sum that wraps to `0`, so `patternPayloadSize` is `0` and
`CreateWakePatternEntry` accepts it from a buffer of `196` bytes: it returns a record
with `196` copied bytes although `MaskOffset + MaskSize` is `2^32`.  Only the sum of
the header and the payload goes through `RtlULongAdd`. -/
theorem wrapped_sum_yields_accepted_record :
    sampleWrappedBitmap.WoLPacketType = NdisPMWoLPacketBitmapPattern ∧
    sampleWrappedBitmap.MaskOffset < 2 ^ 32 ∧ sampleWrappedBitmap.MaskSize < 2 ^ 32 ∧
    NxWake.CreateWakePatternEntry.patternPayloadSize sampleLayout sampleWrappedBitmap = 0 ∧
    (NxWake.CreateWakePatternEntry sampleLayout true sampleWrappedBitmap 196).isSome = true ∧
    ((NxWake.CreateWakePatternEntry sampleLayout true sampleWrappedBitmap 196).map
      fun e => e.NdisWoLPattern.bytes.length) = some 196 ∧
    ((NxWake.CreateWakePatternEntry sampleLayout true sampleWrappedBitmap 196).map
      fun e => e.NdisWoLPattern.MaskOffset + e.NdisWoLPattern.MaskSize) = some (2 ^ 32) ∧
    sampleLayout.sizeofWolPattern +
        NxWake.CreateWakePatternEntry.patternPayloadSize sampleLayout sampleWrappedBitmap <
      sampleWrappedBitmap.MaskOffset + sampleWrappedBitmap.MaskSize := by
  decide

/-- C15, protocol offloads are not capacity-governed.  In every registry state and for
every value of the device counter, `AddProtocolOffload` returns the device as it was,
and so does `RemoveProtocolOffload` whenever it returns.  With a valid buffer (at
least `sizeof(NDIS_PM_PROTOCOL_OFFLOAD)` bytes, the pool allocation succeeding) and
no rejecting callback (none registered, or one that does not return the
protocol-offload list-full status), `AddProtocolOffload` returns success whatever the
counter is. -/
theorem offloads_not_capacity_governed (L : Layout)
    (cb : Option EVT_PREVIEW_PROTOCOL_OFFLOAD) (allocOk : Bool) (w : NxWake)
    (device : NxDevice) (q : NDIS_PM_PROTOCOL_OFFLOAD) (m : Nat) (id : Nat) :
    (NxWake.AddProtocolOffload L cb allocOk w device q m).device = device ∧
    (∀ r, NxWake.RemoveProtocolOffload w device id = some r → r.2.2 = device) ∧
    (L.sizeofProtocolOffload ≤ m → L.sizeofEntry + L.sizeofProtocolOffload < 2 ^ 32 →
      allocOk = true →
      (∀ g, cb = some g → ∀ d v t x, g d v t x ≠ STATUS_NDIS_PM_PROTOCOL_OFFLOAD_LIST_FULL) →
      (NxWake.AddProtocolOffload L cb allocOk w device q m).status = NDIS_STATUS_SUCCESS) := by
  refine ⟨?_, ?_, ?_⟩
  · cases hc : NxWake.CreateProtocolOffloadEntry L allocOk q m with
    | none => rw [AddProtocolOffload_create_none L cb allocOk w device q m hc]
    | some e =>
      cases cb with
      | none => rw [AddProtocolOffload_no_callback L allocOk w device q m e hc]
      | some g =>
        rw [AddProtocolOffload_callback L g allocOk w device q m e hc]
        split_ifs <;> rfl
  · intro r hr
    obtain ⟨e, l1, l2, _, _, _, rfl⟩ := RemoveProtocolOffload_eq_some w device id r hr
    rfl
  · intro hbuf hfit halloc hcb
    have hc : ∃ e, NxWake.CreateProtocolOffloadEntry L allocOk q m = some e := by
      have hfit2 : L.sizeofEntry + L.sizeofProtocolOffload < 4294967296 := by
        simpa using hfit
      unfold NxWake.CreateProtocolOffloadEntry
      simp [RtlULongAdd, hfit2, halloc, Nat.not_lt.mpr hbuf]
    obtain ⟨e, he⟩ := hc
    cases cb with
    | none => rw [AddProtocolOffload_no_callback L allocOk w device q m e he]
    | some g =>
      rw [AddProtocolOffload_callback L g allocOk w device q m e he,
        if_neg (hcb g rfl _ _ _ _)]

set_option maxRecDepth 20000 in
/-- An offload is added with success, and one is removed, on a device whose
wake-pattern counter is at its ceiling; the device is unchanged by both. -/
theorem offloads_not_capacity_governed_witness :
    sampleAtCeiling.device.m_wakePatternCount = sampleAtCeiling.device.m_wakePatternMax ∧
    (NxWake.AddProtocolOffload sampleLayout (some failProtocolOffload) true sampleRegistry
      sampleAtCeiling.device (sampleArpOffload 9 240) 240).device = sampleAtCeiling.device ∧
    (NxWake.AddProtocolOffload sampleLayout (some failProtocolOffload) true sampleRegistry
      sampleAtCeiling.device (sampleArpOffload 9 240) 240).status = NDIS_STATUS_SUCCESS ∧
    (NxWake.RemoveProtocolOffload sampleRegistry sampleAtCeiling.device 1).isSome = true ∧
    ((NxWake.RemoveProtocolOffload sampleRegistry sampleAtCeiling.device 1).map
      fun r => r.2.2) = some sampleAtCeiling.device :=
  have h := offloads_not_capacity_governed sampleLayout (some failProtocolOffload) true
    sampleRegistry sampleAtCeiling.device (sampleArpOffload 9 240) 240 1
  ⟨by decide, h.1,
    h.2.2 (by decide) (by decide) rfl
      (fun g hg _ _ _ _ => by
        cases hg
        exact (by decide : (0xC0000001 : Nat) ≠ 0xC0232004)),
    by decide,
    by
      cases hr : NxWake.RemoveProtocolOffload sampleRegistry sampleAtCeiling.device 1 with
      | none => exact absurd hr (by decide)
      | some r => exact congrArg some (h.2.1 r hr)⟩

/-- C16, index at or beyond the count.  In every registry state, for each category and
every index that is not below the category's count, `GetEntryAtIndex` returns `NULL`.
The function reads the registry and writes no member of it: it is a function of the
registry alone. -/
theorem get_entry_at_index_beyond_count (w : NxWake) (Index : Nat)
    (NxEntryType : NX_POWER_ENTRY_TYPE) (h : Index ≥ w.countOf NxEntryType) :
    NxWake.GetEntryAtIndex w Index NxEntryType = none := by
  cases NxEntryType <;> simp_all [NxWake.GetEntryAtIndex, NxWake.countOf]

set_option maxRecDepth 20000 in
/-- Index `3` on the sample registry, whose wake count is `3`, and index `1`, whose
offload count is `1`, are not found, while the indices just below are. -/
theorem get_entry_at_index_beyond_count_witness :
    3 ≥ sampleRegistry.countOf .NxPowerEntryTypeWakePattern ∧
    NxWake.GetEntryAtIndex sampleRegistry 3 .NxPowerEntryTypeWakePattern = none ∧
    1 ≥ sampleRegistry.countOf .NxPowerEntryTypeProtocolOffload ∧
    NxWake.GetEntryAtIndex sampleRegistry 1 .NxPowerEntryTypeProtocolOffload = none ∧
    NxWake.GetEntryAtIndex sampleRegistry 2 .NxPowerEntryTypeWakePattern =
      some (sampleWakeEntry 1 false) ∧
    NxWake.GetEntryAtIndex sampleRegistry 0 .NxPowerEntryTypeProtocolOffload =
      some (sampleOffloadEntry 1 false) :=
  ⟨by decide,
    get_entry_at_index_beyond_count sampleRegistry 3 .NxPowerEntryTypeWakePattern (by decide),
    by decide,
    get_entry_at_index_beyond_count sampleRegistry 1 .NxPowerEntryTypeProtocolOffload
      (by decide),
    by decide, by decide⟩

/-- C17, `ArePowerSettingsAccessible`.  It returns true exactly when
`m_DriverCanAccessWakeSettings` is `TRUE` or the owning device reports
`IsDeviceInPowerTransition()`.  It reads the registry and the device and writes no
member: it is a function of the two alone. -/
theorem are_power_settings_accessible_iff (w : NxWake) (nxDevice : NxDevice) :
    NxWake.ArePowerSettingsAccessible w nxDevice = true ↔
      w.m_DriverCanAccessWakeSettings = true ∨ nxDevice.IsDeviceInPowerTransition = true := by
  simp [NxWake.ArePowerSettingsAccessible]

/-- C18, callback enablement.  `m_DriverObjectCallbacksEnabled` is `FALSE` after
construction (and in the registry `_Create` returns) and `TRUE` after
`AdapterInitComplete`.  In every registry state each wrapper invokes the driver's
callback exactly when the flag is `TRUE` and that callback is not `NULL`, and
otherwise invokes nothing.  Along any sequence of calls on a created registry the flag
is `TRUE` exactly when `AdapterInitComplete` is among the calls made, so
`_EvtCleanupCallbackWrapper` (resp. `_EvtDestroyCallbackWrapper`) forwards to the
driver's cleanup (resp. destroy) callback if and only if `AdapterInitComplete` has
been called and that callback is not `NULL`. -/
theorem callback_enablement (L : Layout) (objectCreated contextAllocated : Bool)
    (attributes : WDF_OBJECT_ATTRIBUTES) (w0 : NxWake)
    (hcreate : NxWake.Create objectCreated contextAllocated attributes = some w0)
    (device : NxDevice) (ops : List Op) (s : World)
    (hrun : run L { wake := w0, device := device } ops = some s) :
    NxWake.new.m_DriverObjectCallbacksEnabled = false ∧
    w0.m_DriverObjectCallbacksEnabled = false ∧
    (NxWake.AdapterInitComplete s.wake).m_DriverObjectCallbacksEnabled = true ∧
    (∀ (w : NxWake) (cb : Nat), NxWake.EvtCleanupCallbackWrapper w = some cb ↔
      w.m_DriverObjectCallbacksEnabled = true ∧ w.m_EvtCleanupCallback = some cb) ∧
    (∀ (w : NxWake) (cb : Nat), NxWake.EvtDestroyCallbackWrapper w = some cb ↔
      w.m_DriverObjectCallbacksEnabled = true ∧ w.m_EvtDestroyCallback = some cb) ∧
    (s.wake.m_DriverObjectCallbacksEnabled = true ↔ Op.adapterInitComplete ∈ ops) ∧
    (∀ cb : Nat, NxWake.EvtCleanupCallbackWrapper s.wake = some cb ↔
      Op.adapterInitComplete ∈ ops ∧ w0.m_EvtCleanupCallback = some cb) ∧
    (∀ cb : Nat, NxWake.EvtDestroyCallbackWrapper s.wake = some cb ↔
      Op.adapterInitComplete ∈ ops ∧ w0.m_EvtDestroyCallback = some cb) ∧
    (NxWake.EvtCleanupCallbackWrapper s.wake = none ↔
      ¬ (Op.adapterInitComplete ∈ ops ∧ w0.m_EvtCleanupCallback ≠ none)) ∧
    (NxWake.EvtDestroyCallbackWrapper s.wake = none ↔
      ¬ (Op.adapterInitComplete ∈ ops ∧ w0.m_EvtDestroyCallback ≠ none)) := by
  have hw0 : w0.m_DriverObjectCallbacksEnabled = false := by
    unfold NxWake.Create at hcreate
    split_ifs at hcreate <;>
      (simp only [Option.some.injEq] at hcreate; subst hcreate; rfl)
  obtain ⟨h1, h2, h3⟩ := run_object_callbacks L ops _ s hrun
  simp only [hw0, Bool.false_or] at h1
  have hflag : s.wake.m_DriverObjectCallbacksEnabled = true ↔ Op.adapterInitComplete ∈ ops := by
    rw [h1]
    exact any_isAdapterInitComplete ops
  have hcl : ∀ (w : NxWake) (cb : Nat), NxWake.EvtCleanupCallbackWrapper w = some cb ↔
      w.m_DriverObjectCallbacksEnabled = true ∧ w.m_EvtCleanupCallback = some cb := by
    intro w cb
    unfold NxWake.EvtCleanupCallbackWrapper
    cases w.m_DriverObjectCallbacksEnabled <;> cases w.m_EvtCleanupCallback <;> simp
  have hde : ∀ (w : NxWake) (cb : Nat), NxWake.EvtDestroyCallbackWrapper w = some cb ↔
      w.m_DriverObjectCallbacksEnabled = true ∧ w.m_EvtDestroyCallback = some cb := by
    intro w cb
    unfold NxWake.EvtDestroyCallbackWrapper
    cases w.m_DriverObjectCallbacksEnabled <;> cases w.m_EvtDestroyCallback <;> simp
  refine ⟨rfl, hw0, rfl, hcl, hde, hflag, ?_, ?_, ?_, ?_⟩
  · intro cb
    rw [hcl, hflag, h2]
  · intro cb
    rw [hde, hflag, h3]
  · rw [← hflag, ← h2]
    unfold NxWake.EvtCleanupCallbackWrapper
    cases s.wake.m_DriverObjectCallbacksEnabled <;> cases s.wake.m_EvtCleanupCallback <;> simp
  · rw [← hflag, ← h3]
    unfold NxWake.EvtDestroyCallbackWrapper
    cases s.wake.m_DriverObjectCallbacksEnabled <;> cases s.wake.m_EvtDestroyCallback <;> simp

/-- The callbacks of `sampleAttributes`: nothing is forwarded on the created registry,
and both callbacks are forwarded once `AdapterInitComplete` has been called. -/
theorem callback_enablement_witness :
    NxWake.Create true true sampleAttributes = some sampleCreated ∧
    run sampleLayout { wake := sampleCreated, device := sampleDevice 0 2 } [] =
      some { wake := sampleCreated, device := sampleDevice 0 2 } ∧
    NxWake.EvtCleanupCallbackWrapper sampleCreated = none ∧
    NxWake.EvtDestroyCallbackWrapper sampleCreated = none ∧
    run sampleLayout { wake := sampleCreated, device := sampleDevice 0 2 } sampleInitCalls =
      some sampleInitialised ∧
    Op.adapterInitComplete ∈ sampleInitCalls ∧
    sampleInitialised.wake.m_DriverObjectCallbacksEnabled = true ∧
    NxWake.EvtCleanupCallbackWrapper sampleInitialised.wake = some 11 ∧
    NxWake.EvtDestroyCallbackWrapper sampleInitialised.wake = some 12 :=
  have hc : NxWake.Create true true sampleAttributes = some sampleCreated := by decide
  have h0 : run sampleLayout { wake := sampleCreated, device := sampleDevice 0 2 } [] =
      some { wake := sampleCreated, device := sampleDevice 0 2 } := rfl
  have h1 : run sampleLayout { wake := sampleCreated, device := sampleDevice 0 2 }
      sampleInitCalls = some sampleInitialised := by decide
  have hm : Op.adapterInitComplete ∈ sampleInitCalls :=
    List.mem_cons_of_mem _ (List.mem_cons_self _ _)
  have a := callback_enablement sampleLayout true true sampleAttributes sampleCreated hc
    (sampleDevice 0 2) [] _ h0
  have b := callback_enablement sampleLayout true true sampleAttributes sampleCreated hc
    (sampleDevice 0 2) sampleInitCalls sampleInitialised h1
  ⟨hc, h0,
    a.2.2.2.2.2.2.2.2.1.mpr (fun h => absurd h.1 (List.not_mem_nil _)),
    a.2.2.2.2.2.2.2.2.2.mpr (fun h => absurd h.1 (List.not_mem_nil _)),
    h1, hm, b.2.2.2.2.2.1.mpr hm,
    (b.2.2.2.2.2.2.1 11).mpr ⟨hm, rfl⟩,
    (b.2.2.2.2.2.2.2.1 12).mpr ⟨hm, rfl⟩⟩

/-- C19, counts by type.  In every registry state `GetWakePatternCountForType(t)` is the
number of records of the wake list whose `WoLPacketType` is `t`, and
`GetProtocolOffloadCountForType(u)` is the number of records of the protocol-offload
list whose `ProtocolOffloadType` is `u`.  Both read the registry and write no member:
they are functions of the registry alone.  Summed over all types (any finite set of
types that contains those of the records) the counts give the number of records of
the category, which is the category's count member in every state where the count is
the length of the list, in particular in every reachable state. -/
theorem count_for_type (w : NxWake) (t u : Nat) (T U : Finset Nat)
    (hT : ∀ e ∈ w.m_WakeListHead, e.NdisWoLPattern.WoLPacketType ∈ T)
    (hU : ∀ e ∈ w.m_ProtocolOffloadListHead, e.NdisProtocolOffload.ProtocolOffloadType ∈ U) :
    NxWake.GetWakePatternCountForType w t =
      w.m_WakeListHead.countP (fun e => e.NdisWoLPattern.WoLPacketType = t) ∧
    NxWake.GetProtocolOffloadCountForType w u =
      w.m_ProtocolOffloadListHead.countP
        (fun e => e.NdisProtocolOffload.ProtocolOffloadType = u) ∧
    (Finset.sum T fun x => NxWake.GetWakePatternCountForType w x) =
      w.m_WakeListHead.length ∧
    (Finset.sum U fun x => NxWake.GetProtocolOffloadCountForType w x) =
      w.m_ProtocolOffloadListHead.length ∧
    (w.m_WakeListCount = w.m_WakeListHead.length →
      (Finset.sum T fun x => NxWake.GetWakePatternCountForType w x) = w.m_WakeListCount) ∧
    (w.m_ProtocolOffloadListCount = w.m_ProtocolOffloadListHead.length →
      (Finset.sum U fun x => NxWake.GetProtocolOffloadCountForType w x) =
        w.m_ProtocolOffloadListCount) ∧
    (∀ (L : Layout) (C : Nat) (device : NxDevice),
      Reachable L C { wake := w, device := device } →
      (Finset.sum T fun x => NxWake.GetWakePatternCountForType w x) = w.m_WakeListCount ∧
      (Finset.sum U fun x => NxWake.GetProtocolOffloadCountForType w x) =
        w.m_ProtocolOffloadListCount) := by
  have hw : ∀ x, NxWake.GetWakePatternCountForType w x =
      w.m_WakeListHead.countP (fun e => e.NdisWoLPattern.WoLPacketType = x) := by
    intro x
    rw [NxWake.GetWakePatternCountForType, GetWakePatternCountForType_loop_eq, Nat.zero_add]
  have ho : ∀ x, NxWake.GetProtocolOffloadCountForType w x =
      w.m_ProtocolOffloadListHead.countP
        (fun e => e.NdisProtocolOffload.ProtocolOffloadType = x) := by
    intro x
    rw [NxWake.GetProtocolOffloadCountForType, GetProtocolOffloadCountForType_loop_eq,
      Nat.zero_add]
  have hsw : (Finset.sum T fun x => NxWake.GetWakePatternCountForType w x) =
      w.m_WakeListHead.length := by
    simp only [hw]
    exact sum_countP_eq_length (fun e => e.NdisWoLPattern.WoLPacketType) T _ hT
  have hso : (Finset.sum U fun x => NxWake.GetProtocolOffloadCountForType w x) =
      w.m_ProtocolOffloadListHead.length := by
    simp only [ho]
    exact sum_countP_eq_length (fun e => e.NdisProtocolOffload.ProtocolOffloadType) U _ hU
  refine ⟨hw t, ho u, hsw, hso, fun h => hsw.trans h.symm, fun h => hso.trans h.symm, ?_⟩
  intro L C device hr
  have hI := inv_reachable L C _ hr
  exact ⟨hsw.trans hI.wake_count.symm, hso.trans hI.offload_count.symm⟩

set_option maxRecDepth 20000 in
/-- The counts by type on the state reached by the sample calls, with the types `0..5`:
one magic-packet pattern and one ARP offload. -/
theorem count_for_type_witness :
    (∀ e ∈ sampleFinal.wake.m_WakeListHead, e.NdisWoLPattern.WoLPacketType ∈ Finset.range 6) ∧
    (∀ e ∈ sampleFinal.wake.m_ProtocolOffloadListHead,
      e.NdisProtocolOffload.ProtocolOffloadType ∈ Finset.range 6) ∧
    Reachable sampleLayout 2 sampleFinal ∧
    NxWake.GetWakePatternCountForType sampleFinal.wake NdisPMWoLPacketMagicPacket = 1 ∧
    NxWake.GetProtocolOffloadCountForType sampleFinal.wake NdisPMProtocolOffloadIdIPv4ARP = 1 ∧
    NxWake.GetWakePatternCountForType sampleFinal.wake NdisPMWoLPacketMagicPacket =
      sampleFinal.wake.m_WakeListHead.countP
        (fun e => e.NdisWoLPattern.WoLPacketType = NdisPMWoLPacketMagicPacket) ∧
    (Finset.sum (Finset.range 6) fun x => NxWake.GetWakePatternCountForType sampleFinal.wake x) =
      sampleFinal.wake.m_WakeListCount ∧
    (Finset.sum (Finset.range 6) fun x =>
      NxWake.GetProtocolOffloadCountForType sampleFinal.wake x) =
      sampleFinal.wake.m_ProtocolOffloadListCount :=
  have hT : ∀ e ∈ sampleFinal.wake.m_WakeListHead,
      e.NdisWoLPattern.WoLPacketType ∈ Finset.range 6 := by decide
  have hU : ∀ e ∈ sampleFinal.wake.m_ProtocolOffloadListHead,
      e.NdisProtocolOffload.ProtocolOffloadType ∈ Finset.range 6 := by decide
  have hr : Reachable sampleLayout 2 sampleFinal := ⟨false, sampleCalls, sampleCalls_run⟩
  have h := count_for_type sampleFinal.wake NdisPMWoLPacketMagicPacket
    NdisPMProtocolOffloadIdIPv4ARP (Finset.range 6) (Finset.range 6) hT hU
  have hs := h.2.2.2.2.2.2 sampleLayout 2 sampleFinal.device hr
  ⟨hT, hU, hr, by decide, by decide, h.1, hs.1, hs.2⟩

/-- C20, the skip in `SetParameters` is sound.  In every registry state reachable from
construction and for every snapshot `p`, `SetParameters(p)`, which recomputes the
`Enabled` flags of a category only when that category's bitmask differs from the
stored one, returns the same status and the same registry as the naive variant that
recomputes the flag of every record of both categories. -/
theorem set_parameters_skip_sound (L : Layout) (C : Nat) (w : NxWake) (device : NxDevice)
    (p : NDIS_PM_PARAMETERS) (h : Reachable L C { wake := w, device := device }) :
    NxWake.SetParameters w p = SetParametersNaive w p := by
  have hI := inv_reachable L C _ h
  have hf : ∀ v : NxWake, NxWake.UpdatePatternEntryEnabledField v = fun e =>
      { e with Enabled := wakePatternEnabled v.m_PMParameters.EnabledWoLPacketPatterns
                  e.NdisWoLPattern.WoLPacketType } :=
    fun v => funext (UpdatePatternEntryEnabledField_eq v)
  have hg : ∀ v : NxWake, NxWake.UpdateProtocolOffloadEntryEnabledField v = fun e =>
      { e with Enabled := protocolOffloadEnabled v.m_PMParameters.EnabledProtocolOffloads
                  e.NdisProtocolOffload.ProtocolOffloadType } :=
    fun v => funext (UpdateProtocolOffloadEntryEnabledField_eq v)
  rw [SetParameters_eq]
  unfold SetParametersNaive
  simp only [hf, hg]
  have hw : (if w.m_PMParameters.EnabledWoLPacketPatterns = p.EnabledWoLPacketPatterns then
        w.m_WakeListHead
      else
        w.m_WakeListHead.map fun e =>
          { e with Enabled := wakePatternEnabled p.EnabledWoLPacketPatterns
                      e.NdisWoLPattern.WoLPacketType }) =
      w.m_WakeListHead.map fun e =>
        { e with Enabled := wakePatternEnabled p.EnabledWoLPacketPatterns
                    e.NdisWoLPattern.WoLPacketType } := by
    split_ifs with hm
    · exact (map_enabled_eq_self _ _ fun e he => by
        rw [← hm]; exact hI.wake_enabled e he).symm
    · rfl
  have ho : (if w.m_PMParameters.EnabledProtocolOffloads = p.EnabledProtocolOffloads then
        w.m_ProtocolOffloadListHead
      else
        w.m_ProtocolOffloadListHead.map fun e =>
          { e with Enabled := protocolOffloadEnabled p.EnabledProtocolOffloads
                      e.NdisProtocolOffload.ProtocolOffloadType }) =
      w.m_ProtocolOffloadListHead.map fun e =>
        { e with Enabled := protocolOffloadEnabled p.EnabledProtocolOffloads
                    e.NdisProtocolOffload.ProtocolOffloadType } := by
    split_ifs with hm
    · exact (map_enabled_eq_self _ _ fun e he => by
        rw [← hm]; exact hI.offload_enabled e he).symm
    · rfl
  rw [hw, ho]

set_option maxRecDepth 20000 in
/-- On the state reached by the sample calls both variants agree, for a snapshot with
the stored bitmasks (where the code skips both lists) and for one that clears them. -/
theorem set_parameters_skip_sound_witness :
    Reachable sampleLayout 2 sampleFinal ∧
    sampleFinal.wake.m_PMParameters.EnabledWoLPacketPatterns =
      (sampleParameters 2 1).EnabledWoLPacketPatterns ∧
    NxWake.SetParameters sampleFinal.wake (sampleParameters 2 1) =
      SetParametersNaive sampleFinal.wake (sampleParameters 2 1) ∧
    NxWake.SetParameters sampleFinal.wake (sampleParameters 0 0) =
      SetParametersNaive sampleFinal.wake (sampleParameters 0 0) ∧
    SetParametersNaive (sampleStale false) (sampleParameters 2 0) ≠
      NxWake.SetParameters (sampleStale false) (sampleParameters 2 0) :=
  have hr : Reachable sampleLayout 2 sampleFinal := ⟨false, sampleCalls, sampleCalls_run⟩
  ⟨hr, by decide,
    set_parameters_skip_sound sampleLayout 2 sampleFinal.wake sampleFinal.device
      (sampleParameters 2 1) hr,
    set_parameters_skip_sound sampleLayout 2 sampleFinal.wake sampleFinal.device
      (sampleParameters 0 0) hr,
    by decide⟩

/-- C21, enabled-consistency invariant.  In every state reachable from construction by
additions, removals and `SetParameters`, the `Enabled` flag of every committed
wake-pattern record is the enabled function of the stored `EnabledWoLPacketPatterns`
and the record's `WoLPacketType`, and the `Enabled` flag of every committed
protocol-offload record is the enabled function of the stored
`EnabledProtocolOffloads` and the record's `ProtocolOffloadType`; recomputing a flag
with the update routine of its category leaves the record as it is. -/
theorem enabled_consistency_invariant (L : Layout) (C : Nat) (s : World)
    (h : Reachable L C s) :
    (∀ e ∈ s.wake.m_WakeListHead,
      e.Enabled = wakePatternEnabled s.wake.m_PMParameters.EnabledWoLPacketPatterns
        e.NdisWoLPattern.WoLPacketType ∧
      NxWake.UpdatePatternEntryEnabledField s.wake e = e) ∧
    (∀ e ∈ s.wake.m_ProtocolOffloadListHead,
      e.Enabled = protocolOffloadEnabled s.wake.m_PMParameters.EnabledProtocolOffloads
        e.NdisProtocolOffload.ProtocolOffloadType ∧
      NxWake.UpdateProtocolOffloadEntryEnabledField s.wake e = e) := by
  have hI := inv_reachable L C s h
  constructor
  · intro e he
    have hen := hI.wake_enabled e he
    refine ⟨hen, ?_⟩
    rw [UpdatePatternEntryEnabledField_eq, ← hen]
  · intro e he
    have hen := hI.offload_enabled e he
    refine ⟨hen, ?_⟩
    rw [UpdateProtocolOffloadEntryEnabledField_eq, ← hen]

set_option maxRecDepth 20000 in
/-- The enabled-consistency invariant on the state reached by the sample calls, whose
magic-packet record and ARP offload are both enabled by the stored bitmasks. -/
theorem enabled_consistency_invariant_witness :
    Reachable sampleLayout 2 sampleFinal ∧
    sampleWakeEntry 2 true ∈ sampleFinal.wake.m_WakeListHead ∧
    sampleOffloadEntry 1 true ∈ sampleFinal.wake.m_ProtocolOffloadListHead ∧
    ((sampleWakeEntry 2 true).Enabled =
        wakePatternEnabled sampleFinal.wake.m_PMParameters.EnabledWoLPacketPatterns
          (sampleWakeEntry 2 true).NdisWoLPattern.WoLPacketType ∧
      NxWake.UpdatePatternEntryEnabledField sampleFinal.wake (sampleWakeEntry 2 true) =
        sampleWakeEntry 2 true) ∧
    ((sampleOffloadEntry 1 true).Enabled =
        protocolOffloadEnabled sampleFinal.wake.m_PMParameters.EnabledProtocolOffloads
          (sampleOffloadEntry 1 true).NdisProtocolOffload.ProtocolOffloadType ∧
      NxWake.UpdateProtocolOffloadEntryEnabledField sampleFinal.wake
        (sampleOffloadEntry 1 true) = sampleOffloadEntry 1 true) :=
  have hr : Reachable sampleLayout 2 sampleFinal := ⟨false, sampleCalls, sampleCalls_run⟩
  have h := enabled_consistency_invariant sampleLayout 2 sampleFinal hr
  have hw : sampleWakeEntry 2 true ∈ sampleFinal.wake.m_WakeListHead := by decide
  have ho : sampleOffloadEntry 1 true ∈ sampleFinal.wake.m_ProtocolOffloadListHead := by
    decide
  ⟨hr, hw, ho, h.1 _ hw, h.2 _ ho⟩

/-- C22, the enabled function.  `UpdatePatternEntryEnabledField` leaves `Enabled = TRUE`
exactly when the record's `WoLPacketType` is one of BitmapPattern, MagicPacket,
IPv4TcpSyn, IPv6TcpSyn, EapolRequestIdMessage and the stored
`EnabledWoLPacketPatterns` has the bit of that type.
`UpdateProtocolOffloadEntryEnabledField` leaves `Enabled = TRUE` exactly when the type
is IPv4ARP, IPv6NS or 80211RSNRekey and `EnabledProtocolOffloads` has the ARP, NS or
80211_RSN_REKEY bit respectively.  For any other sub-type `Enabled` is `FALSE`
whatever the bitmask and the prior flag.  No field other than `Enabled` is changed. -/
theorem enabled_function (w : NxWake) (e : NX_NET_POWER_ENTRY) :
    ((NxWake.UpdatePatternEntryEnabledField w e).Enabled = true ↔
      (e.NdisWoLPattern.WoLPacketType = NdisPMWoLPacketBitmapPattern ∧
        w.m_PMParameters.EnabledWoLPacketPatterns &&& NDIS_PM_WOL_BITMAP_PATTERN_ENABLED ≠ 0) ∨
      (e.NdisWoLPattern.WoLPacketType = NdisPMWoLPacketMagicPacket ∧
        w.m_PMParameters.EnabledWoLPacketPatterns &&& NDIS_PM_WOL_MAGIC_PACKET_ENABLED ≠ 0) ∨
      (e.NdisWoLPattern.WoLPacketType = NdisPMWoLPacketIPv4TcpSyn ∧
        w.m_PMParameters.EnabledWoLPacketPatterns &&& NDIS_PM_WOL_IPV4_TCP_SYN_ENABLED ≠ 0) ∨
      (e.NdisWoLPattern.WoLPacketType = NdisPMWoLPacketIPv6TcpSyn ∧
        w.m_PMParameters.EnabledWoLPacketPatterns &&& NDIS_PM_WOL_IPV6_TCP_SYN_ENABLED ≠ 0) ∨
      (e.NdisWoLPattern.WoLPacketType = NdisPMWoLPacketEapolRequestIdMessage ∧
        w.m_PMParameters.EnabledWoLPacketPatterns &&&
          NDIS_PM_WOL_EAPOL_REQUEST_ID_MESSAGE_ENABLED ≠ 0)) ∧
    ((NxWake.UpdateProtocolOffloadEntryEnabledField w e).Enabled = true ↔
      (e.NdisProtocolOffload.ProtocolOffloadType = NdisPMProtocolOffloadIdIPv4ARP ∧
        w.m_PMParameters.EnabledProtocolOffloads &&& NDIS_PM_PROTOCOL_OFFLOAD_ARP_ENABLED ≠ 0) ∨
      (e.NdisProtocolOffload.ProtocolOffloadType = NdisPMProtocolOffloadIdIPv6NS ∧
        w.m_PMParameters.EnabledProtocolOffloads &&& NDIS_PM_PROTOCOL_OFFLOAD_NS_ENABLED ≠ 0) ∨
      (e.NdisProtocolOffload.ProtocolOffloadType = NdisPMProtocolOffload80211RSNRekey ∧
        w.m_PMParameters.EnabledProtocolOffloads &&&
          NDIS_PM_PROTOCOL_OFFLOAD_80211_RSN_REKEY_ENABLED ≠ 0)) ∧
    (e.NdisWoLPattern.WoLPacketType ≠ NdisPMWoLPacketBitmapPattern →
      e.NdisWoLPattern.WoLPacketType ≠ NdisPMWoLPacketMagicPacket →
      e.NdisWoLPattern.WoLPacketType ≠ NdisPMWoLPacketIPv4TcpSyn →
      e.NdisWoLPattern.WoLPacketType ≠ NdisPMWoLPacketIPv6TcpSyn →
      e.NdisWoLPattern.WoLPacketType ≠ NdisPMWoLPacketEapolRequestIdMessage →
      (NxWake.UpdatePatternEntryEnabledField w e).Enabled = false) ∧
    (e.NdisProtocolOffload.ProtocolOffloadType ≠ NdisPMProtocolOffloadIdIPv4ARP →
      e.NdisProtocolOffload.ProtocolOffloadType ≠ NdisPMProtocolOffloadIdIPv6NS →
      e.NdisProtocolOffload.ProtocolOffloadType ≠ NdisPMProtocolOffload80211RSNRekey →
      (NxWake.UpdateProtocolOffloadEntryEnabledField w e).Enabled = false) ∧
    { NxWake.UpdatePatternEntryEnabledField w e with Enabled := e.Enabled } = e ∧
    { NxWake.UpdateProtocolOffloadEntryEnabledField w e with Enabled := e.Enabled } = e := by
  refine ⟨?_, ?_, ?_, ?_, ?_, ?_⟩
  · simp only [NxWake.UpdatePatternEntryEnabledField, NdisPMWoLPacketBitmapPattern,
      NdisPMWoLPacketMagicPacket, NdisPMWoLPacketIPv4TcpSyn, NdisPMWoLPacketIPv6TcpSyn,
      NdisPMWoLPacketEapolRequestIdMessage]
    split_ifs <;> simp_all
  · simp only [NxWake.UpdateProtocolOffloadEntryEnabledField, NdisPMProtocolOffloadIdIPv4ARP,
      NdisPMProtocolOffloadIdIPv6NS, NdisPMProtocolOffload80211RSNRekey]
    split_ifs <;> simp_all
  · intro h1 h2 h3 h4 h5
    simp [NxWake.UpdatePatternEntryEnabledField, h1, h2, h3, h4, h5]
  · intro h1 h2 h3
    simp [NxWake.UpdateProtocolOffloadEntryEnabledField, h1, h2, h3]
  · rw [UpdatePatternEntryEnabledField_eq]
  · rw [UpdateProtocolOffloadEntryEnabledField_eq]

set_option maxRecDepth 20000 in
/-- The enabled function on the registry reached by the sample calls (wake bitmask `2`,
offload bitmask `1`): a magic-packet record and an ARP offload become enabled, a
record of the unrecognised type `7` that was enabled becomes disabled. -/
theorem enabled_function_witness :
    (NxWake.UpdatePatternEntryEnabledField sampleFinal.wake (sampleWakeEntry 2 false)).Enabled =
      true ∧
    (NxWake.UpdateProtocolOffloadEntryEnabledField sampleFinal.wake
      (sampleOffloadEntry 1 false)).Enabled = true ∧
    sampleUnknownEntry.Enabled = true ∧
    (NxWake.UpdatePatternEntryEnabledField sampleFinal.wake sampleUnknownEntry).Enabled =
      false ∧
    (NxWake.UpdateProtocolOffloadEntryEnabledField sampleFinal.wake sampleUnknownEntry).Enabled =
      false :=
  ⟨(enabled_function sampleFinal.wake (sampleWakeEntry 2 false)).1.mpr
      (Or.inr (Or.inl ⟨by decide, by decide⟩)),
    (enabled_function sampleFinal.wake (sampleOffloadEntry 1 false)).2.1.mpr
      (Or.inl ⟨by decide, by decide⟩),
    by decide,
    (enabled_function sampleFinal.wake sampleUnknownEntry).2.2.1 (by decide) (by decide)
      (by decide) (by decide) (by decide),
    (enabled_function sampleFinal.wake sampleUnknownEntry).2.2.2.1 (by decide) (by decide)
      (by decide)⟩

/-- C23, `RemovePowerEntryByID`.  For every registry, category and identifier: if some
record of the category's list has the identifier, the list splits as `l1 ++ e :: l2`
with `e` the first such record from the head; `e` is returned, the list becomes
`l1 ++ l2` (every other record stays linked, in the previous order), the category's
count, nonzero as the source asserts on entry, is decremented by exactly one, and the
other category's list and count, the power parameters and both flags are unchanged.
If no record has the identifier, `NULL` is returned and the registry, so both lists
and both counts, is unchanged. -/
theorem remove_power_entry_by_id (w : NxWake) (PatternID : Nat) (t : NX_POWER_ENTRY_TYPE) :
    ((∃ x ∈ w.listOf t, NxWake.GetPowerEntryID x t = PatternID) →
      ∃ l1 e l2,
        w.listOf t = l1 ++ e :: l2 ∧
        NxWake.GetPowerEntryID e t = PatternID ∧
        (∀ x ∈ l1, NxWake.GetPowerEntryID x t ≠ PatternID) ∧
        (NxWake.RemovePowerEntryByID w PatternID t).1 = some e ∧
        (NxWake.RemovePowerEntryByID w PatternID t).2.listOf t = l1 ++ l2 ∧
        (w.countOf t ≠ 0 →
          (NxWake.RemovePowerEntryByID w PatternID t).2.countOf t + 1 = w.countOf t) ∧
        (∀ t1, t1 ≠ t →
          (NxWake.RemovePowerEntryByID w PatternID t).2.listOf t1 = w.listOf t1 ∧
          (NxWake.RemovePowerEntryByID w PatternID t).2.countOf t1 = w.countOf t1) ∧
        (NxWake.RemovePowerEntryByID w PatternID t).2.m_PMParameters = w.m_PMParameters ∧
        (NxWake.RemovePowerEntryByID w PatternID t).2.m_DriverCanAccessWakeSettings =
          w.m_DriverCanAccessWakeSettings ∧
        (NxWake.RemovePowerEntryByID w PatternID t).2.m_DriverObjectCallbacksEnabled =
          w.m_DriverObjectCallbacksEnabled) ∧
    ((∀ x ∈ w.listOf t, NxWake.GetPowerEntryID x t ≠ PatternID) →
      NxWake.RemovePowerEntryByID w PatternID t = (none, w)) := by
  constructor
  · rintro ⟨x, hx, hxid⟩
    cases hs : NxWake.RemovePowerEntryByID.scan PatternID t (w.listOf t) with
    | none =>
      exact absurd hxid ((scan_none_iff PatternID t (w.listOf t)).mp hs x hx)
    | some q =>
      obtain ⟨e, rest⟩ := q
      obtain ⟨l1, l2, h1, h2, h3, h4⟩ := scan_some PatternID t (w.listOf t) e rest hs
      obtain ⟨r1, r2, r3, r4, r5, r6, r7⟩ := RemovePowerEntryByID_found w PatternID t e rest hs
      refine ⟨l1, e, l2, h1, h3, h4, r1, r2.trans h2, ?_, r4, r5, r6, r7⟩
      intro hc
      rw [r3]
      omega
  · intro h
    exact RemovePowerEntryByID_not_found w PatternID t
      ((scan_none_iff PatternID t (w.listOf t)).mpr h)

set_option maxRecDepth 20000 in
/-- Removing the identifier `2` from the wake list `3, 2, 1` of the sample registry
returns the record `2` and leaves `3, 1` with count `2`; the identifier `7` is not
found and the registry is unchanged. -/
theorem remove_power_entry_by_id_witness :
    (∃ x ∈ sampleRegistry.listOf .NxPowerEntryTypeWakePattern,
      NxWake.GetPowerEntryID x .NxPowerEntryTypeWakePattern = 2) ∧
    (∃ l1 e l2,
      sampleRegistry.listOf .NxPowerEntryTypeWakePattern = l1 ++ e :: l2 ∧
      NxWake.GetPowerEntryID e .NxPowerEntryTypeWakePattern = 2 ∧
      (∀ x ∈ l1, NxWake.GetPowerEntryID x .NxPowerEntryTypeWakePattern ≠ 2) ∧
      (NxWake.RemovePowerEntryByID sampleRegistry 2 .NxPowerEntryTypeWakePattern).1 = some e ∧
      (NxWake.RemovePowerEntryByID sampleRegistry 2 .NxPowerEntryTypeWakePattern).2.listOf
        .NxPowerEntryTypeWakePattern = l1 ++ l2) ∧
    (NxWake.RemovePowerEntryByID sampleRegistry 2 .NxPowerEntryTypeWakePattern).1 =
      some (sampleWakeEntry 2 false) ∧
    (NxWake.RemovePowerEntryByID sampleRegistry 2 .NxPowerEntryTypeWakePattern).2.m_WakeListHead =
      [sampleWakeEntry 3 false, sampleWakeEntry 1 false] ∧
    (NxWake.RemovePowerEntryByID sampleRegistry 2
      .NxPowerEntryTypeWakePattern).2.m_WakeListCount = 2 ∧
    (∀ x ∈ sampleRegistry.listOf .NxPowerEntryTypeWakePattern,
      NxWake.GetPowerEntryID x .NxPowerEntryTypeWakePattern ≠ 7) ∧
    NxWake.RemovePowerEntryByID sampleRegistry 7 .NxPowerEntryTypeWakePattern =
      (none, sampleRegistry) :=
  have hx : ∃ x ∈ sampleRegistry.listOf .NxPowerEntryTypeWakePattern,
      NxWake.GetPowerEntryID x .NxPowerEntryTypeWakePattern = 2 :=
    ⟨sampleWakeEntry 2 false, by decide, by decide⟩
  have hn : ∀ x ∈ sampleRegistry.listOf .NxPowerEntryTypeWakePattern,
      NxWake.GetPowerEntryID x .NxPowerEntryTypeWakePattern ≠ 7 := by decide
  have h := (remove_power_entry_by_id sampleRegistry 2 .NxPowerEntryTypeWakePattern).1 hx
  ⟨hx,
    h.elim fun l1 h1 => h1.elim fun e h2 => h2.elim fun l2 h3 =>
      ⟨l1, e, l2, h3.1, h3.2.1, h3.2.2.1, h3.2.2.2.1, h3.2.2.2.2.1⟩,
    by decide, by decide, by decide, hn,
    (remove_power_entry_by_id sampleRegistry 7 .NxPowerEntryTypeWakePattern).2 hn⟩

/-- C25, `SetParameters` frame.  In every registry state and for every snapshot `p`,
`SetParameters(p)` returns success and stores `p` in full, whether or not a bitmask
changed.  Both lists keep their records in their order with every field other than
`Enabled` (pattern or offload payload, `Size`) as it was; both counts, both boolean
flags and the stored object callbacks are unchanged, and the call leaves the device,
so the capacity counter, as it was. -/
theorem set_parameters_frame (w : NxWake) (p : NDIS_PM_PARAMETERS) (L : Layout) (s : World) :
    (NxWake.SetParameters w p).1 = NDIS_STATUS_SUCCESS ∧
    (NxWake.SetParameters w p).2.m_PMParameters = p ∧
    ((NxWake.SetParameters w p).2.m_WakeListHead.map fun e => { e with Enabled := false }) =
      (w.m_WakeListHead.map fun e => { e with Enabled := false }) ∧
    ((NxWake.SetParameters w p).2.m_ProtocolOffloadListHead.map
        fun e => { e with Enabled := false }) =
      (w.m_ProtocolOffloadListHead.map fun e => { e with Enabled := false }) ∧
    (NxWake.SetParameters w p).2.m_WakeListHead.length = w.m_WakeListHead.length ∧
    (NxWake.SetParameters w p).2.m_ProtocolOffloadListHead.length =
      w.m_ProtocolOffloadListHead.length ∧
    (NxWake.SetParameters w p).2.m_WakeListCount = w.m_WakeListCount ∧
    (NxWake.SetParameters w p).2.m_ProtocolOffloadListCount = w.m_ProtocolOffloadListCount ∧
    (NxWake.SetParameters w p).2.m_DriverCanAccessWakeSettings =
      w.m_DriverCanAccessWakeSettings ∧
    (NxWake.SetParameters w p).2.m_DriverObjectCallbacksEnabled =
      w.m_DriverObjectCallbacksEnabled ∧
    (NxWake.SetParameters w p).2.m_EvtCleanupCallback = w.m_EvtCleanupCallback ∧
    (NxWake.SetParameters w p).2.m_EvtDestroyCallback = w.m_EvtDestroyCallback ∧
    step L s (.setParameters p) =
      some { wake := (NxWake.SetParameters s.wake p).2, device := s.device } := by
  rw [SetParameters_eq]
  refine ⟨rfl, rfl, ?_, ?_, ?_, ?_, rfl, rfl, rfl, rfl, rfl, rfl, rfl⟩
  · simp only
    split_ifs
    · rfl
    · simp [List.map_map, Function.comp_def]
  · simp only
    split_ifs
    · rfl
    · simp [List.map_map, Function.comp_def]
  · simp only
    split_ifs <;> simp
  · simp only
    split_ifs <;> simp

/-- C26, wake-pattern record sizing.  When `CreateWakePatternEntry` succeeds, the
trailing payload size is `0` for every packet type other than the bitmap type, and
for the bitmap type it is
`max(max(MaskOffset + MaskSize, PatternOffset + PatternSize), sizeof(NDIS_PM_WOL_PATTERN))
- sizeof(NDIS_PM_WOL_PATTERN)`, the two sums being the `ULONG` sums of the source (they
are the integer sums whenever these are below `2^32`); the record's `Size` is
`sizeof(NX_NET_POWER_ENTRY)` plus that payload size and the bytes copied are the first
`sizeof(NDIS_PM_WOL_PATTERN)` plus that payload size bytes of the buffer.  Creation
fails whenever `InformationBufferLength` is smaller than `sizeof(NDIS_PM_WOL_PATTERN)`
plus the payload size or the checked sum of header and payload does not fit a
`ULONG`; `AddWakePattern`, having acquired its capacity slot, then returns the
insufficient-resources status. -/
theorem wake_pattern_record_sizing (L : Layout) (allocOk : Bool) (p : NDIS_PM_WOL_PATTERN)
    (n : Nat) :
    (p.WoLPacketType ≠ NdisPMWoLPacketBitmapPattern →
      NxWake.CreateWakePatternEntry.patternPayloadSize L p = 0) ∧
    (p.WoLPacketType = NdisPMWoLPacketBitmapPattern →
      NxWake.CreateWakePatternEntry.patternPayloadSize L p =
        max (max ((p.MaskOffset + p.MaskSize) % 2 ^ 32)
          ((p.PatternOffset + p.PatternSize) % 2 ^ 32)) L.sizeofWolPattern -
            L.sizeofWolPattern) ∧
    (p.WoLPacketType = NdisPMWoLPacketBitmapPattern →
      p.MaskOffset + p.MaskSize < 2 ^ 32 → p.PatternOffset + p.PatternSize < 2 ^ 32 →
      NxWake.CreateWakePatternEntry.patternPayloadSize L p =
        max (max (p.MaskOffset + p.MaskSize) (p.PatternOffset + p.PatternSize))
          L.sizeofWolPattern - L.sizeofWolPattern) ∧
    (∀ e, NxWake.CreateWakePatternEntry L allocOk p n = some e →
      e.Size = L.sizeofEntry + NxWake.CreateWakePatternEntry.patternPayloadSize L p ∧
      e.NdisWoLPattern.bytes = p.bytes.take
        (L.sizeofWolPattern + NxWake.CreateWakePatternEntry.patternPayloadSize L p)) ∧
    (n < L.sizeofWolPattern + NxWake.CreateWakePatternEntry.patternPayloadSize L p →
      NxWake.CreateWakePatternEntry L allocOk p n = none) ∧
    (2 ^ 32 ≤ L.sizeofEntry + NxWake.CreateWakePatternEntry.patternPayloadSize L p →
      NxWake.CreateWakePatternEntry L allocOk p n = none) ∧
    (∀ (cb : Option EVT_PREVIEW_WAKE_PATTERN) (w : NxWake) (device : NxDevice),
      NxWake.CreateWakePatternEntry L allocOk p n = none →
      device.m_wakePatternCount < device.m_wakePatternMax →
      (NxWake.AddWakePattern L cb allocOk w device p n).status = NDIS_STATUS_RESOURCES) := by
  refine ⟨?_, ?_, ?_, ?_, ?_, ?_, ?_⟩
  · intro h
    simp [NxWake.CreateWakePatternEntry.patternPayloadSize, h]
  · intro h
    simp [NxWake.CreateWakePatternEntry.patternPayloadSize, h]
  · intro h h1 h2
    simp only [NxWake.CreateWakePatternEntry.patternPayloadSize, h, if_true,
      Nat.mod_eq_of_lt h1, Nat.mod_eq_of_lt h2]
  · intro e he
    obtain ⟨_, _, _, h4, h5, _, _⟩ := CreateWakePatternEntry_fields L allocOk p n e he
    exact ⟨h5, h4⟩
  · intro h
    cases hc : NxWake.CreateWakePatternEntry L allocOk p n with
    | none => rfl
    | some e =>
      have := (CreateWakePatternEntry_fields L allocOk p n e hc).2.2.2.2.2.1
      omega
  · intro h
    unfold NxWake.CreateWakePatternEntry
    have h2 : ¬ (L.sizeofEntry + NxWake.CreateWakePatternEntry.patternPayloadSize L p <
        2 ^ 32) := by omega
    simp only [RtlULongAdd, h2, if_false]
  · intro cb w device hc hlt
    rw [AddWakePattern_create_none L cb allocOk w device p n hlt hc]

set_option maxRecDepth 20000 in
/-- Record sizing on concrete patterns in the sample layout (entry header of `256`
bytes, pattern of `196` bytes): a magic packet has payload `0`; a bitmap pattern whose mask and
pattern end at offset `268` has payload `72`, is created from `268` bytes with
`Size = 328`, and is refused from `267` bytes, on which `AddWakePattern` returns the
insufficient-resources status; a bitmap pattern whose mask ends at `0xFFFFFFF0` is
refused by the checked addition. -/
theorem wake_pattern_record_sizing_witness :
    NxWake.CreateWakePatternEntry.patternPayloadSize sampleLayout (sampleMagicPattern 1 196) =
      0 ∧
    NxWake.CreateWakePatternEntry.patternPayloadSize sampleLayout (sampleBitmapPattern 1 268) =
      max (max ((sampleBitmapPattern 1 268).MaskOffset + (sampleBitmapPattern 1 268).MaskSize)
        ((sampleBitmapPattern 1 268).PatternOffset + (sampleBitmapPattern 1 268).PatternSize))
        sampleLayout.sizeofWolPattern - sampleLayout.sizeofWolPattern ∧
    NxWake.CreateWakePatternEntry.patternPayloadSize sampleLayout (sampleBitmapPattern 1 268) =
      72 ∧
    (∃ e, NxWake.CreateWakePatternEntry sampleLayout true (sampleBitmapPattern 1 268) 268 =
        some e ∧
      e.Size = sampleLayout.sizeofEntry +
        NxWake.CreateWakePatternEntry.patternPayloadSize sampleLayout
          (sampleBitmapPattern 1 268) ∧
      e.NdisWoLPattern.bytes = (sampleBitmapPattern 1 268).bytes.take
        (sampleLayout.sizeofWolPattern +
          NxWake.CreateWakePatternEntry.patternPayloadSize sampleLayout
            (sampleBitmapPattern 1 268))) ∧
    NxWake.CreateWakePatternEntry sampleLayout true (sampleBitmapPattern 1 267) 267 = none ∧
    (NxWake.AddWakePattern sampleLayout none true sampleRegistry (sampleDevice 3 8)
      (sampleBitmapPattern 1 267) 267).status = NDIS_STATUS_RESOURCES ∧
    NxWake.CreateWakePatternEntry sampleLayout true
      { sampleBitmapPattern 1 268 with MaskOffset := 0xFFFFFFF0, MaskSize := 0 } 268 = none :=
  have hm := wake_pattern_record_sizing sampleLayout true (sampleMagicPattern 1 196) 196
  have hb := wake_pattern_record_sizing sampleLayout true (sampleBitmapPattern 1 268) 268
  have hs := wake_pattern_record_sizing sampleLayout true (sampleBitmapPattern 1 267) 267
  have ho := wake_pattern_record_sizing sampleLayout true
    { sampleBitmapPattern 1 268 with MaskOffset := 0xFFFFFFF0, MaskSize := 0 } 268
  have hnone : NxWake.CreateWakePatternEntry sampleLayout true (sampleBitmapPattern 1 267) 267 =
      none := hs.2.2.2.2.1 (by decide)
  ⟨hm.1 (by decide), hb.2.2.1 (by decide) (by decide) (by decide), by decide,
    (by
      cases hc : NxWake.CreateWakePatternEntry sampleLayout true (sampleBitmapPattern 1 268)
          268 with
      | none => exact absurd hc (by decide)
      | some e => exact ⟨e, rfl, hb.2.2.2.1 e hc⟩),
    hnone,
    hs.2.2.2.2.2.2 none sampleRegistry (sampleDevice 3 8) hnone (by decide),
    ho.2.2.2.2.2.1 (by decide)⟩

/-- C27, protocol-offload record creation.  `CreateProtocolOffloadEntry` returns `NULL`
when `InformationBufferLength < sizeof(NDIS_PM_PROTOCOL_OFFLOAD)`.  Otherwise, the
allocation succeeding (and the two `sizeof` constants adding up within a `ULONG`), it
returns a record whose `Size` is
`sizeof(NX_NET_POWER_ENTRY) + sizeof(NDIS_PM_PROTOCOL_OFFLOAD)`, whose offload is the
caller's with the first `sizeof(NDIS_PM_PROTOCOL_OFFLOAD)` bytes of the buffer, and
whose `Enabled` flag and remaining memory are zero (the link is not part of a record
here: a new record is in no list).  The record does not depend on
`InformationBufferLength` or on the bytes beyond that prefix: two buffers that agree
on the prefix give the same record. -/
theorem protocol_offload_record_creation (L : Layout) (allocOk : Bool)
    (q : NDIS_PM_PROTOCOL_OFFLOAD) (n : Nat) :
    (n < L.sizeofProtocolOffload → NxWake.CreateProtocolOffloadEntry L allocOk q n = none) ∧
    (L.sizeofProtocolOffload ≤ n → L.sizeofEntry + L.sizeofProtocolOffload < 2 ^ 32 →
      allocOk = true →
      NxWake.CreateProtocolOffloadEntry L allocOk q n =
        some
          { Size := L.sizeofEntry + L.sizeofProtocolOffload
            Enabled := false
            NdisWoLPattern := NDIS_PM_WOL_PATTERN.zero
            NdisProtocolOffload :=
              { q with bytes := q.bytes.take L.sizeofProtocolOffload } }) ∧
    (∀ (q1 : NDIS_PM_PROTOCOL_OFFLOAD) (n1 : Nat),
      L.sizeofProtocolOffload ≤ n → L.sizeofProtocolOffload ≤ n1 →
      q1.ProtocolOffloadType = q.ProtocolOffloadType →
      q1.ProtocolOffloadId = q.ProtocolOffloadId →
      q1.bytes.take L.sizeofProtocolOffload = q.bytes.take L.sizeofProtocolOffload →
      NxWake.CreateProtocolOffloadEntry L allocOk q1 n1 =
        NxWake.CreateProtocolOffloadEntry L allocOk q n) := by
  refine ⟨?_, ?_, ?_⟩
  · intro h
    simp [NxWake.CreateProtocolOffloadEntry, h]
  · intro hbuf hfit halloc
    have hfit2 : L.sizeofEntry + L.sizeofProtocolOffload < 4294967296 := by
      simpa using hfit
    simp [NxWake.CreateProtocolOffloadEntry, RtlULongAdd, hfit2, halloc, Nat.not_lt.mpr hbuf]
  · intro q1 n1 hn hn1 ht hid hb
    simp only [NxWake.CreateProtocolOffloadEntry, Nat.not_lt.mpr hn, Nat.not_lt.mpr hn1,
      if_false, ht, hid, hb]

set_option maxRecDepth 20000 in
/-- Offload creation in the sample layout: refused from `239` bytes; from `240` and from
`300` bytes it gives the same record of `Size = 496` holding the first `240` bytes. -/
theorem protocol_offload_record_creation_witness :
    NxWake.CreateProtocolOffloadEntry sampleLayout true (sampleArpOffload 1 239) 239 = none ∧
    NxWake.CreateProtocolOffloadEntry sampleLayout true (sampleArpOffload 1 240) 240 =
      some
        { Size := sampleLayout.sizeofEntry + sampleLayout.sizeofProtocolOffload
          Enabled := false
          NdisWoLPattern := NDIS_PM_WOL_PATTERN.zero
          NdisProtocolOffload :=
            { sampleArpOffload 1 240 with
              bytes := (sampleArpOffload 1 240).bytes.take
                sampleLayout.sizeofProtocolOffload } } ∧
    NxWake.CreateProtocolOffloadEntry sampleLayout true (sampleArpOffload 1 300) 300 =
      NxWake.CreateProtocolOffloadEntry sampleLayout true (sampleArpOffload 1 240) 240 ∧
    sampleLayout.sizeofEntry + sampleLayout.sizeofProtocolOffload = 496 :=
  ⟨(protocol_offload_record_creation sampleLayout true (sampleArpOffload 1 239) 239).1
      (by decide),
    (protocol_offload_record_creation sampleLayout true (sampleArpOffload 1 240) 240).2.1
      (by decide) (by decide) rfl,
    (protocol_offload_record_creation sampleLayout true (sampleArpOffload 1 240) 240).2.2
      (sampleArpOffload 1 300) 300 (by decide) (by decide) (by decide) (by decide) (by decide),
    by decide⟩

/-- C28, the two categories are independent.  For every registry state, input and
callback result, `AddWakePattern` leaves the protocol-offload list and
`m_ProtocolOffloadListCount` as they were, and so does `RemoveWakePattern` whenever
it returns; `AddProtocolOffload` leaves the wake list and `m_WakeListCount` as they
were, and so does `RemoveProtocolOffload` whenever it returns. -/
theorem categories_independent (L : Layout) (cbWake : Option EVT_PREVIEW_WAKE_PATTERN)
    (cbOffload : Option EVT_PREVIEW_PROTOCOL_OFFLOAD) (allocOk : Bool) (w : NxWake)
    (device : NxDevice) (p : NDIS_PM_WOL_PATTERN) (n : Nat) (q : NDIS_PM_PROTOCOL_OFFLOAD)
    (m : Nat) (id : Nat) :
    ((NxWake.AddWakePattern L cbWake allocOk w device p n).wake.m_ProtocolOffloadListHead =
        w.m_ProtocolOffloadListHead ∧
      (NxWake.AddWakePattern L cbWake allocOk w device p n).wake.m_ProtocolOffloadListCount =
        w.m_ProtocolOffloadListCount) ∧
    (∀ r, NxWake.RemoveWakePattern w device id = some r →
      r.2.1.m_ProtocolOffloadListHead = w.m_ProtocolOffloadListHead ∧
      r.2.1.m_ProtocolOffloadListCount = w.m_ProtocolOffloadListCount) ∧
    ((NxWake.AddProtocolOffload L cbOffload allocOk w device q m).wake.m_WakeListHead =
        w.m_WakeListHead ∧
      (NxWake.AddProtocolOffload L cbOffload allocOk w device q m).wake.m_WakeListCount =
        w.m_WakeListCount) ∧
    (∀ r, NxWake.RemoveProtocolOffload w device id = some r →
      r.2.1.m_WakeListHead = w.m_WakeListHead ∧
      r.2.1.m_WakeListCount = w.m_WakeListCount) := by
  refine ⟨?_, ?_, ?_, ?_⟩
  · by_cases hlt : device.m_wakePatternCount < device.m_wakePatternMax
    · cases hc : NxWake.CreateWakePatternEntry L allocOk p n with
      | none =>
        rw [AddWakePattern_create_none L cbWake allocOk w device p n hlt hc]
        exact ⟨rfl, rfl⟩
      | some e =>
        cases cbWake with
        | none =>
          rw [AddWakePattern_no_callback L allocOk w device p n e hlt hc]
          exact ⟨rfl, rfl⟩
        | some f =>
          rw [AddWakePattern_callback L f allocOk w device p n e hlt hc]
          split_ifs <;> exact ⟨rfl, rfl⟩
    · rw [AddWakePattern_full L cbWake allocOk w device p n hlt]
      exact ⟨rfl, rfl⟩
  · intro r hr
    obtain ⟨e, l1, l2, _, _, _, rfl⟩ := RemoveWakePattern_eq_some w device id r hr
    exact ⟨rfl, rfl⟩
  · cases hc : NxWake.CreateProtocolOffloadEntry L allocOk q m with
    | none =>
      rw [AddProtocolOffload_create_none L cbOffload allocOk w device q m hc]
      exact ⟨rfl, rfl⟩
    | some e =>
      cases cbOffload with
      | none =>
        rw [AddProtocolOffload_no_callback L allocOk w device q m e hc]
        exact ⟨rfl, rfl⟩
      | some g =>
        rw [AddProtocolOffload_callback L g allocOk w device q m e hc]
        split_ifs <;> exact ⟨rfl, rfl⟩
  · intro r hr
    obtain ⟨e, l1, l2, _, _, _, rfl⟩ := RemoveProtocolOffload_eq_some w device id r hr
    exact ⟨rfl, rfl⟩

set_option maxRecDepth 20000 in
/-- The four operations on the sample registry: removing the wake pattern `1` and the
offload `1` both return, and each operation leaves the other category as it was. -/
theorem categories_independent_witness :
    (NxWake.RemoveWakePattern sampleRegistry (sampleDevice 3 8) 1).isSome = true ∧
    (NxWake.RemoveProtocolOffload sampleRegistry (sampleDevice 3 8) 1).isSome = true ∧
    (NxWake.AddWakePattern sampleLayout (some rejectWakePattern) true sampleRegistry
      (sampleDevice 3 8) (sampleMagicPattern 9 196) 196).wake.m_ProtocolOffloadListHead =
        sampleRegistry.m_ProtocolOffloadListHead ∧
    (NxWake.AddProtocolOffload sampleLayout (some acceptProtocolOffload) true sampleRegistry
      (sampleDevice 3 8) (sampleArpOffload 9 240) 240).wake.m_WakeListHead =
        sampleRegistry.m_WakeListHead ∧
    ((NxWake.RemoveWakePattern sampleRegistry (sampleDevice 3 8) 1).map
      fun r => r.2.1.m_ProtocolOffloadListHead) = some sampleRegistry.m_ProtocolOffloadListHead ∧
    ((NxWake.RemoveProtocolOffload sampleRegistry (sampleDevice 3 8) 1).map
      fun r => r.2.1.m_WakeListHead) = some sampleRegistry.m_WakeListHead :=
  have h := categories_independent sampleLayout (some rejectWakePattern)
    (some acceptProtocolOffload) true sampleRegistry (sampleDevice 3 8)
    (sampleMagicPattern 9 196) 196 (sampleArpOffload 9 240) 240 1
  ⟨by decide, by decide, h.1.1, h.2.2.1.1,
    (by
      cases hr : NxWake.RemoveWakePattern sampleRegistry (sampleDevice 3 8) 1 with
      | none => exact absurd hr (by decide)
      | some r => exact congrArg some (h.2.1 r hr).1),
    (by
      cases hr : NxWake.RemoveProtocolOffload sampleRegistry (sampleDevice 3 8) 1 with
      | none => exact absurd hr (by decide)
      | some r => exact congrArg some (h.2.2.2 r hr).1)⟩

/-- C29, enumeration is total below the count.  In every state reachable from
construction, for every category and every index below the category's count,
`GetEntryAtIndex` returns a record, namely the record at that position from the head
of the category's list; the indices `0 .. count - 1` therefore enumerate the records
of the list, each exactly once and in list order. -/
theorem enumeration_total_below_count (L : Layout) (C : Nat) (s : World)
    (h : Reachable L C s) (t : NX_POWER_ENTRY_TYPE) (i : Nat) (hi : i < s.wake.countOf t) :
    (∃ e, NxWake.GetEntryAtIndex s.wake i t = some e ∧ (s.wake.listOf t)[i]? = some e) ∧
    ((List.range (s.wake.countOf t)).map fun j => NxWake.GetEntryAtIndex s.wake j t) =
      (s.wake.listOf t).map some := by
  have hI := inv_reachable L C s h
  have hcount : s.wake.countOf t = (s.wake.listOf t).length := by
    cases t
    · exact hI.wake_count
    · exact hI.offload_count
  constructor
  · have hlt : i < (s.wake.listOf t).length := by omega
    refine ⟨(s.wake.listOf t)[i], ?_, List.getElem?_eq_getElem hlt⟩
    rw [GetEntryAtIndex_eq, if_neg (by omega), List.getElem?_eq_getElem hlt]
  · apply List.ext_getElem
    · simp [hcount]
    · intro j h1 h2
      have hj : j < (s.wake.listOf t).length := by simpa using h2
      simp only [List.getElem_map, List.getElem_range]
      rw [GetEntryAtIndex_eq, if_neg (by omega), List.getElem?_eq_getElem hj]

set_option maxRecDepth 20000 in
/-- Enumeration on the state reached by the sample calls: index `0` of each category
is its only record. -/
theorem enumeration_total_below_count_witness :
    Reachable sampleLayout 2 sampleFinal ∧
    0 < sampleFinal.wake.countOf .NxPowerEntryTypeWakePattern ∧
    0 < sampleFinal.wake.countOf .NxPowerEntryTypeProtocolOffload ∧
    ((∃ e, NxWake.GetEntryAtIndex sampleFinal.wake 0 .NxPowerEntryTypeWakePattern = some e ∧
        (sampleFinal.wake.listOf .NxPowerEntryTypeWakePattern)[0]? = some e) ∧
      ((List.range (sampleFinal.wake.countOf .NxPowerEntryTypeWakePattern)).map
        fun j => NxWake.GetEntryAtIndex sampleFinal.wake j .NxPowerEntryTypeWakePattern) =
        (sampleFinal.wake.listOf .NxPowerEntryTypeWakePattern).map some) ∧
    ((∃ e, NxWake.GetEntryAtIndex sampleFinal.wake 0 .NxPowerEntryTypeProtocolOffload =
          some e ∧
        (sampleFinal.wake.listOf .NxPowerEntryTypeProtocolOffload)[0]? = some e) ∧
      ((List.range (sampleFinal.wake.countOf .NxPowerEntryTypeProtocolOffload)).map
        fun j => NxWake.GetEntryAtIndex sampleFinal.wake j .NxPowerEntryTypeProtocolOffload) =
        (sampleFinal.wake.listOf .NxPowerEntryTypeProtocolOffload).map some) ∧
    NxWake.GetEntryAtIndex sampleFinal.wake 0 .NxPowerEntryTypeWakePattern =
      some (sampleWakeEntry 2 true) :=
  have hr : Reachable sampleLayout 2 sampleFinal := ⟨false, sampleCalls, sampleCalls_run⟩
  ⟨hr, by decide, by decide,
    enumeration_total_below_count sampleLayout 2 sampleFinal hr .NxPowerEntryTypeWakePattern 0
      (by decide),
    enumeration_total_below_count sampleLayout 2 sampleFinal hr
      .NxPowerEntryTypeProtocolOffload 0 (by decide),
    by decide⟩

/-- C30, teardown does not release capacity.  Destroying the registry empties both
lists, and the destructor performs no `DecreaseWakePatternReference`: the device, so
the device-wide capacity counter, is after destruction what it was before.  With
`k > 0` committed wake patterns the counter is therefore not reduced by `k`; in a
reachable state it still equals `k` although no record is left. -/
theorem teardown_does_not_release_capacity (s : World) :
    s.teardown.wake.m_WakeListHead = [] ∧
    s.teardown.wake.m_ProtocolOffloadListHead = [] ∧
    s.teardown.device = s.device ∧
    s.teardown.device.m_wakePatternCount = s.device.m_wakePatternCount ∧
    (s.wake.m_WakeListHead.length ≠ 0 →
      s.teardown.device.m_wakePatternCount ≠
        s.device.m_wakePatternCount - (s.wake.m_WakeListHead.length : Int)) ∧
    (∀ (L : Layout) (C : Nat), Reachable L C s →
      s.teardown.device.m_wakePatternCount = (s.wake.m_WakeListHead.length : Int)) := by
  refine ⟨drain_eq_nil _, drain_eq_nil _, rfl, rfl, ?_, ?_⟩
  · intro hk
    show s.device.m_wakePatternCount ≠ _
    omega
  · intro L C hr
    exact (inv_reachable L C s hr).counter_eq

set_option maxRecDepth 20000 in
/-- Teardown of the registry with two committed wake patterns on a device with ceiling
`2`: both lists are empty afterwards and the counter is still `2`. -/
theorem teardown_does_not_release_capacity_witness :
    Reachable sampleLayout 2 sampleAtCeiling ∧
    sampleAtCeiling.wake.m_WakeListHead.length = 2 ∧
    sampleAtCeiling.teardown.wake.m_WakeListHead = [] ∧
    sampleAtCeiling.teardown.wake.m_ProtocolOffloadListHead = [] ∧
    sampleAtCeiling.teardown.device.m_wakePatternCount = 2 ∧
    sampleAtCeiling.teardown.device.m_wakePatternCount ≠
      sampleAtCeiling.device.m_wakePatternCount -
        (sampleAtCeiling.wake.m_WakeListHead.length : Int) :=
  have hr : Reachable sampleLayout 2 sampleAtCeiling :=
    ⟨false, sampleCalls.take 2, by decide⟩
  have h := teardown_does_not_release_capacity sampleAtCeiling
  ⟨hr, by decide, h.1, h.2.1, (h.2.2.2.2.2 sampleLayout 2 hr).trans (by decide),
    h.2.2.2.2.1 (by decide)⟩

/-- C31, packet-extension translation.  For every `NET_PACKET_EXTENSION`,
`NetTxQueueInitAddPacketExtension` and `NetRxQueueInitAddPacketExtension` hand the
same private descriptor to `NetQueueInitAddPacketExtension`, with `Name` and `Version`
copied, `Size = ExtensionSize` and `NonWdfStyleAlignment = Alignment + 1` modulo
`2^32`, and return what it returns, so the two agree.
`NetTxQueueGetPacketExtensionOffset` and `NetRxQueueGetPacketExtensionOffset` hand
`GetPacketExtensionOffset` a descriptor that carries only `Name` and `Version`, with
`Size` and `NonWdfStyleAlignment` zero.  Taking for the callee the routine that returns
its descriptor exhibits the descriptor built. -/
theorem packet_extension_translation {Context Status Queue : Type}
    (add : Context → NET_PACKET_EXTENSION_PRIVATE → Status)
    (offset : Queue → NET_PACKET_EXTENSION_PRIVATE → Nat) (context : Context) (queue : Queue)
    (ext : NET_PACKET_EXTENSION) (query : NET_PACKET_EXTENSION_QUERY) :
    NetTxQueueInitAddPacketExtension add context ext =
      add context (addedExtensionDescriptor ext) ∧
    NetRxQueueInitAddPacketExtension add context ext =
      add context (addedExtensionDescriptor ext) ∧
    NetTxQueueInitAddPacketExtension add context ext =
      NetRxQueueInitAddPacketExtension add context ext ∧
    NetTxQueueInitAddPacketExtension (fun _ d => d) context ext =
      { Name := ext.Name, Size := ext.ExtensionSize, Version := ext.Version,
        NonWdfStyleAlignment := (ext.Alignment + 1) % 2 ^ 32 } ∧
    NetRxQueueInitAddPacketExtension (fun _ d => d) context ext =
      { Name := ext.Name, Size := ext.ExtensionSize, Version := ext.Version,
        NonWdfStyleAlignment := (ext.Alignment + 1) % 2 ^ 32 } ∧
    NetTxQueueGetPacketExtensionOffset offset queue query =
      offset queue (queryExtensionDescriptor query) ∧
    NetRxQueueGetPacketExtensionOffset offset queue query =
      offset queue (queryExtensionDescriptor query) ∧
    (queryExtensionDescriptor query).Name = query.Name ∧
    (queryExtensionDescriptor query).Version = query.Version ∧
    (queryExtensionDescriptor query).Size = 0 ∧
    (queryExtensionDescriptor query).NonWdfStyleAlignment = 0 := by
  refine ⟨?_, ?_, ?_, ?_, ?_, ?_, ?_, rfl, rfl, rfl, rfl⟩
  · simp only [NetTxQueueInitAddPacketExtension, addedExtensionDescriptor,
      NET_PACKET_EXTENSION_PRIVATE.zero]
  · simp only [NetRxQueueInitAddPacketExtension, addedExtensionDescriptor,
      NET_PACKET_EXTENSION_PRIVATE.zero]
  · simp only [NetTxQueueInitAddPacketExtension, NetRxQueueInitAddPacketExtension]
  · simp only [NetTxQueueInitAddPacketExtension, NET_PACKET_EXTENSION_PRIVATE.zero]
  · simp only [NetRxQueueInitAddPacketExtension, NET_PACKET_EXTENSION_PRIVATE.zero]
  · simp only [NetTxQueueGetPacketExtensionOffset, queryExtensionDescriptor,
      NET_PACKET_EXTENSION_PRIVATE.zero]
  · simp only [NetRxQueueGetPacketExtensionOffset, queryExtensionDescriptor,
      NET_PACKET_EXTENSION_PRIVATE.zero]
